import Mathlib

/-!
# sokol_color.h: colour construction, interpolation and scaling

A shallow embedding of the implementation section of `util/sokol_color.h`
(`_sg_color_clamp` .. `sg_color_multiply`) and of its three palette tables.

Conventions of the embedding:

* `float` values are read in two ways.  In the exact reading (`sg_color`,
  `_sg_color_clamp` .. `sg_color_multiply`) they are rationals and `+ - * /` on
  them are exact: the formulas of the source are kept operation for operation,
  but rounding, infinities and NaN are not represented.  It carries the
  properties stated for exact channel arithmetic and those that do not depend on
  rounding.  In the binary32 reading (the same functions in the namespace `F32`,
  over the type `binary32`) a float is NaN, an infinity or a finite value, every
  operation rounds its exact result to nearest, ties to even, and a comparison
  with NaN is false.  It carries the properties that depend on rounding,
  overflow or NaN.  The literals `0.0f`, `1.0f`, `255.0f` are `0`, `1`, `255`.
* `uint8_t` and `uint32_t` values are natural numbers; a conversion to one of
  these types is the explicit reduction `% 2^8` or `% 2^32`.
* a `const sg_color*` argument is an `Option sg_color`, `none` being the null
  pointer; a function that starts with `SOKOL_ASSERT(ptr)` returns `none` when
  the assertion fails and `some result` otherwise.
* the palette is three lists in source order, one per run of definitions, each
  entry with the comment above it; a decimal literal `0.941176471f` is the
  rational `0.941176471`.
* for the frame properties the same bodies are also given on an explicit memory
  (`sg_color_lerp_call` and its siblings), where a pointer is an address and
  address 0 is null.
-/

namespace SokolColor

/-- Modelled from the spec: the `sg_color` type is declared in sokol_gfx.h, which
is not part of this source tree.  It is a value of four independent float
channels; the field names `r g b a` are the ones sokol_color.h assigns to. -/
structure sg_color where
  r : ℚ
  g : ℚ
  b : ℚ
  a : ℚ
  deriving DecidableEq

/-- Conversion of an unsigned value to `uint8_t`: reduction modulo `2^8`. -/
def uint8_t (n : Nat) : Nat := n % 2 ^ 8

/-- Conversion of an unsigned value to `uint32_t`: reduction modulo `2^32`. -/
def uint32_t (n : Nat) : Nat := n % 2 ^ 32

/-- The helper `_sg_color_clamp(v, low, high)`:
`if (v < low) return low; else if (v > high) return high; return v;` -/
def _sg_color_clamp (v low high : ℚ) : ℚ :=
  if v < low then low
  else if v > high then high
  else v

/-- The helper `_sg_color_lerp(a, b, amount)`: `a + (b - a) * amount`. -/
def _sg_color_lerp (a b amount : ℚ) : ℚ :=
  a + (b - a) * amount

/-- The helper `_sg_color_lerp_precise(a, b, amount)`:
`((1.0f - amount) * a) + (b * amount)`. -/
def _sg_color_lerp_precise (a b amount : ℚ) : ℚ :=
  ((1 - amount) * a) + (b * amount)

/-- The constructor `sg_make_color_4b(uint8_t r, uint8_t g, uint8_t b, uint8_t a)`:
every argument is converted to `uint8_t` by the parameter type, then to float,
and divided by `255.0f`. -/
def sg_make_color_4b (r g b a : Nat) : sg_color :=
  { r := (uint8_t r : ℚ) / 255
    g := (uint8_t g : ℚ) / 255
    b := (uint8_t b : ℚ) / 255
    a := (uint8_t a : ℚ) / 255 }

/-- The constructor `sg_make_color_1i(uint32_t rgba)`: the four arguments of
`sg_make_color_4b` are `(uint8_t)(rgba >> 24)`, `(uint8_t)(rgba >> 16)`,
`(uint8_t)(rgba >> 8)` and `(uint8_t)(rgba >> 0)`. -/
def sg_make_color_1i (rgba : Nat) : sg_color :=
  let rgba := uint32_t rgba
  sg_make_color_4b
    (uint8_t (rgba >>> 24))
    (uint8_t (rgba >>> 16))
    (uint8_t (rgba >>> 8))
    (uint8_t (rgba >>> 0))

/-- The function `sg_color_lerp(color_a, color_b, amount)`: both pointers are
asserted non-null, `amount` is clamped to `[0.0f, 1.0f]`, and each of the four
channels is `_sg_color_lerp` of the corresponding channels. -/
def sg_color_lerp (color_a color_b : Option sg_color) (amount : ℚ) : Option sg_color :=
  match color_a, color_b with
  | some ca, some cb =>
    let amount := _sg_color_clamp amount 0 1
    some
      { r := _sg_color_lerp ca.r cb.r amount
        g := _sg_color_lerp ca.g cb.g amount
        b := _sg_color_lerp ca.b cb.b amount
        a := _sg_color_lerp ca.a cb.a amount }
  | _, _ => none

/-- The function `sg_color_lerp_precise(color_a, color_b, amount)`: as
`sg_color_lerp`, with `_sg_color_lerp_precise` on each channel. -/
def sg_color_lerp_precise (color_a color_b : Option sg_color) (amount : ℚ) :
    Option sg_color :=
  match color_a, color_b with
  | some ca, some cb =>
    let amount := _sg_color_clamp amount 0 1
    some
      { r := _sg_color_lerp_precise ca.r cb.r amount
        g := _sg_color_lerp_precise ca.g cb.g amount
        b := _sg_color_lerp_precise ca.b cb.b amount
        a := _sg_color_lerp_precise ca.a cb.a amount }
  | _, _ => none

/-- The function `sg_color_multiply(color, scale)`: the pointer is asserted
non-null and each of the four channels is multiplied by `scale`. -/
def sg_color_multiply (color : Option sg_color) (scale : ℚ) : Option sg_color :=
  match color with
  | some c =>
    some
      { r := c.r * scale
        g := c.g * scale
        b := c.b * scale
        a := c.a * scale }
  | none => none

/-! ## The palette tables

The three runs of palette definitions of the header, in source order: the float
macros (lines 135-426), the typed constants (lines 428-719) and the packed
macros (lines 721-1012).  Every definition is kept with the comment that stands
on the line above it. -/

/-- The comment above a palette definition,
`/* <title> color { R:<R>, G:<G>, B:<B>, A:<A> } */`. -/
structure color_comment where
  title : String
  R : Nat
  G : Nat
  B : Nat
  A : Nat
  deriving DecidableEq

/-- A float macro `#define SG_<NAME> { <r>f, <g>f, <b>f, <a>f }` and its comment;
the four decimal literals are kept digit for digit. -/
structure float_macro where
  comment : color_comment
  name : String
  value : sg_color
  deriving DecidableEq

/-- A typed constant `static SOKOL_COLOR_CONSTEXPR sg_color sg_<name> = <init>;`
and its comment; `init` is the name of the macro on the right-hand side. -/
structure typed_constant where
  comment : color_comment
  name : String
  init : String
  deriving DecidableEq

/-- A packed macro `#define SG_<NAME>_RGBA32 0x<hex>` and its comment. -/
structure packed_macro where
  comment : color_comment
  name : String
  value : Nat
  deriving DecidableEq

/-- The float macros `SG_<NAME>`, lines 135-426 of the header. -/
def float_macros : List float_macro :=
  [
   float_macro.mk ⟨"Alice Blue", 240, 248, 255, 255⟩ "SG_ALICE_BLUE" ⟨0.941176471, 0.97254902, 1.0, 1.0⟩,
   float_macro.mk ⟨"Antique White", 250, 235, 215, 255⟩ "SG_ANTIQUE_WHITE" ⟨0.980392157, 0.921568627, 0.843137255, 1.0⟩,
   float_macro.mk ⟨"Aqua", 0, 255, 255, 255⟩ "SG_AQUA" ⟨0.0, 1.0, 1.0, 1.0⟩,
   float_macro.mk ⟨"Aquamarine", 127, 255, 212, 255⟩ "SG_AQUAMARINE" ⟨0.498039216, 1.0, 0.831372549, 1.0⟩,
   float_macro.mk ⟨"Azure", 240, 255, 255, 255⟩ "SG_AZURE" ⟨0.941176471, 1.0, 1.0, 1.0⟩,
   float_macro.mk ⟨"Beige", 245, 245, 220, 255⟩ "SG_BEIGE" ⟨0.960784314, 0.960784314, 0.862745098, 1.0⟩,
   float_macro.mk ⟨"Bisque", 255, 228, 196, 255⟩ "SG_BISQUE" ⟨1.0, 0.894117647, 0.768627451, 1.0⟩,
   float_macro.mk ⟨"Black", 0, 0, 0, 255⟩ "SG_BLACK" ⟨0.0, 0.0, 0.0, 1.0⟩,
   float_macro.mk ⟨"Blanched Almond", 255, 235, 205, 255⟩ "SG_BLANCHED_ALMOND" ⟨1.0, 0.921568627, 0.803921569, 1.0⟩,
   float_macro.mk ⟨"Blue", 0, 0, 255, 255⟩ "SG_BLUE" ⟨0.0, 0.0, 1.0, 1.0⟩,
   float_macro.mk ⟨"Blue Violet", 138, 43, 226, 255⟩ "SG_BLUE_VIOLET" ⟨0.541176471, 0.168627451, 0.88627451, 1.0⟩,
   float_macro.mk ⟨"Brown", 165, 42, 42, 255⟩ "SG_BROWN" ⟨0.647058824, 0.164705882, 0.164705882, 1.0⟩,
   float_macro.mk ⟨"Burlywood", 222, 184, 135, 255⟩ "SG_BURLYWOOD" ⟨0.870588235, 0.721568627, 0.529411765, 1.0⟩,
   float_macro.mk ⟨"Cadet Blue", 95, 158, 160, 255⟩ "SG_CADET_BLUE" ⟨0.37254902, 0.619607843, 0.62745098, 1.0⟩,
   float_macro.mk ⟨"Chartreuse", 127, 255, 0, 255⟩ "SG_CHARTREUSE" ⟨0.498039216, 1.0, 0.0, 1.0⟩,
   float_macro.mk ⟨"Chocolate", 210, 105, 30, 255⟩ "SG_CHOCOLATE" ⟨0.823529412, 0.411764706, 0.117647059, 1.0⟩,
   float_macro.mk ⟨"Coral", 255, 127, 80, 255⟩ "SG_CORAL" ⟨1.0, 0.498039216, 0.31372549, 1.0⟩,
   float_macro.mk ⟨"Cornflower Blue", 100, 149, 237, 255⟩ "SG_CORNFLOWER_BLUE" ⟨0.392156863, 0.584313725, 0.929411765, 1.0⟩,
   float_macro.mk ⟨"Cornsilk", 255, 248, 220, 255⟩ "SG_CORNSILK" ⟨1.0, 0.97254902, 0.862745098, 1.0⟩,
   float_macro.mk ⟨"Crimson", 220, 20, 60, 255⟩ "SG_CRIMSON" ⟨0.862745098, 0.0784313725, 0.235294118, 1.0⟩,
   float_macro.mk ⟨"Cyan", 0, 255, 255, 255⟩ "SG_CYAN" ⟨0.0, 1.0, 1.0, 1.0⟩,
   float_macro.mk ⟨"Dark Blue", 0, 0, 139, 255⟩ "SG_DARK_BLUE" ⟨0.0, 0.0, 0.545098039, 1.0⟩,
   float_macro.mk ⟨"Dark Cyan", 0, 139, 139, 255⟩ "SG_DARK_CYAN" ⟨0.0, 0.545098039, 0.545098039, 1.0⟩,
   float_macro.mk ⟨"Dark Goldenrod", 184, 134, 11, 255⟩ "SG_DARK_GOLDENROD" ⟨0.721568627, 0.525490196, 0.0431372549, 1.0⟩,
   float_macro.mk ⟨"Dark Gray", 169, 169, 169, 255⟩ "SG_DARK_GRAY" ⟨0.662745098, 0.662745098, 0.662745098, 1.0⟩,
   float_macro.mk ⟨"Dark Green", 0, 100, 0, 255⟩ "SG_DARK_GREEN" ⟨0.0, 0.392156863, 0.0, 1.0⟩,
   float_macro.mk ⟨"Dark Khaki", 189, 183, 107, 255⟩ "SG_DARK_KHAKI" ⟨0.741176471, 0.717647059, 0.419607843, 1.0⟩,
   float_macro.mk ⟨"Dark Magenta", 139, 0, 139, 255⟩ "SG_DARK_MAGENTA" ⟨0.545098039, 0.0, 0.545098039, 1.0⟩,
   float_macro.mk ⟨"Dark Olive Green", 85, 107, 47, 255⟩ "SG_DARK_OLIVE_GREEN" ⟨0.333333333, 0.419607843, 0.184313725, 1.0⟩,
   float_macro.mk ⟨"Dark Orange", 255, 140, 0, 255⟩ "SG_DARK_ORANGE" ⟨1.0, 0.549019608, 0.0, 1.0⟩,
   float_macro.mk ⟨"Dark Orchid", 153, 50, 204, 255⟩ "SG_DARK_ORCHID" ⟨0.6, 0.196078431, 0.8, 1.0⟩,
   float_macro.mk ⟨"Dark Red", 139, 0, 0, 255⟩ "SG_DARK_RED" ⟨0.545098039, 0.0, 0.0, 1.0⟩,
   float_macro.mk ⟨"Dark Salmon", 233, 150, 122, 255⟩ "SG_DARK_SALMON" ⟨0.91372549, 0.588235294, 0.478431373, 1.0⟩,
   float_macro.mk ⟨"Dark Sea Green", 143, 188, 143, 255⟩ "SG_DARK_SEA_GREEN" ⟨0.560784314, 0.737254902, 0.560784314, 1.0⟩,
   float_macro.mk ⟨"Dark Slate Blue", 72, 61, 139, 255⟩ "SG_DARK_SLATE_BLUE" ⟨0.282352941, 0.239215686, 0.545098039, 1.0⟩,
   float_macro.mk ⟨"Dark Slate Gray", 47, 79, 79, 255⟩ "SG_DARK_SLATE_GRAY" ⟨0.184313725, 0.309803922, 0.309803922, 1.0⟩,
   float_macro.mk ⟨"Dark Turquoise", 0, 206, 209, 255⟩ "SG_DARK_TURQUOISE" ⟨0.0, 0.807843137, 0.819607843, 1.0⟩,
   float_macro.mk ⟨"Dark Violet", 148, 0, 211, 255⟩ "SG_DARK_VIOLET" ⟨0.580392157, 0.0, 0.82745098, 1.0⟩,
   float_macro.mk ⟨"Deep Pink", 255, 20, 147, 255⟩ "SG_DEEP_PINK" ⟨1.0, 0.0784313725, 0.576470588, 1.0⟩,
   float_macro.mk ⟨"Deep Sky Blue", 0, 191, 255, 255⟩ "SG_DEEP_SKY_BLUE" ⟨0.0, 0.749019608, 1.0, 1.0⟩,
   float_macro.mk ⟨"Dim Gray", 105, 105, 105, 255⟩ "SG_DIM_GRAY" ⟨0.411764706, 0.411764706, 0.411764706, 1.0⟩,
   float_macro.mk ⟨"Dodger Blue", 30, 144, 255, 255⟩ "SG_DODGER_BLUE" ⟨0.117647059, 0.564705882, 1.0, 1.0⟩,
   float_macro.mk ⟨"Firebrick", 178, 34, 34, 255⟩ "SG_FIREBRICK" ⟨0.698039216, 0.133333333, 0.133333333, 1.0⟩,
   float_macro.mk ⟨"Floral White", 255, 250, 240, 255⟩ "SG_FLORAL_WHITE" ⟨1.0, 0.980392157, 0.941176471, 1.0⟩,
   float_macro.mk ⟨"Forest Green", 34, 139, 34, 255⟩ "SG_FOREST_GREEN" ⟨0.133333333, 0.545098039, 0.133333333, 1.0⟩,
   float_macro.mk ⟨"Fuchsia", 255, 0, 255, 255⟩ "SG_FUCHSIA" ⟨1.0, 0.0, 1.0, 1.0⟩,
   float_macro.mk ⟨"Gainsboro", 220, 220, 220, 255⟩ "SG_GAINSBORO" ⟨0.862745098, 0.862745098, 0.862745098, 1.0⟩,
   float_macro.mk ⟨"Ghost White", 248, 248, 255, 255⟩ "SG_GHOST_WHITE" ⟨0.97254902, 0.97254902, 1.0, 1.0⟩,
   float_macro.mk ⟨"Gold", 255, 215, 0, 255⟩ "SG_GOLD" ⟨1.0, 0.843137255, 0.0, 1.0⟩,
   float_macro.mk ⟨"Goldenrod", 218, 165, 32, 255⟩ "SG_GOLDENROD" ⟨0.854901961, 0.647058824, 0.125490196, 1.0⟩,
   float_macro.mk ⟨"Gray", 190, 190, 190, 255⟩ "SG_GRAY" ⟨0.745098039, 0.745098039, 0.745098039, 1.0⟩,
   float_macro.mk ⟨"Web Gray", 128, 128, 128, 255⟩ "SG_WEB_GRAY" ⟨0.501960784, 0.501960784, 0.501960784, 1.0⟩,
   float_macro.mk ⟨"Green", 0, 255, 0, 255⟩ "SG_GREEN" ⟨0.0, 1.0, 0.0, 1.0⟩,
   float_macro.mk ⟨"Web Green", 0, 128, 0, 255⟩ "SG_WEB_GREEN" ⟨0.0, 0.501960784, 0.0, 1.0⟩,
   float_macro.mk ⟨"Green Yellow", 173, 255, 47, 255⟩ "SG_GREEN_YELLOW" ⟨0.678431373, 1.0, 0.184313725, 1.0⟩,
   float_macro.mk ⟨"Honeydew", 240, 255, 240, 255⟩ "SG_HONEYDEW" ⟨0.941176471, 1.0, 0.941176471, 1.0⟩,
   float_macro.mk ⟨"Hot Pink", 255, 105, 180, 255⟩ "SG_HOT_PINK" ⟨1.0, 0.411764706, 0.705882353, 1.0⟩,
   float_macro.mk ⟨"Indian Red", 205, 92, 92, 255⟩ "SG_INDIAN_RED" ⟨0.803921569, 0.360784314, 0.360784314, 1.0⟩,
   float_macro.mk ⟨"Indigo", 75, 0, 130, 255⟩ "SG_INDIGO" ⟨0.294117647, 0.0, 0.509803922, 1.0⟩,
   float_macro.mk ⟨"Ivory", 255, 255, 240, 255⟩ "SG_IVORY" ⟨1.0, 1.0, 0.941176471, 1.0⟩,
   float_macro.mk ⟨"Khaki", 240, 230, 140, 255⟩ "SG_KHAKI" ⟨0.941176471, 0.901960784, 0.549019608, 1.0⟩,
   float_macro.mk ⟨"Lavender", 230, 230, 250, 255⟩ "SG_LAVENDER" ⟨0.901960784, 0.901960784, 0.980392157, 1.0⟩,
   float_macro.mk ⟨"Lavender Blush", 255, 240, 245, 255⟩ "SG_LAVENDER_BLUSH" ⟨1.0, 0.941176471, 0.960784314, 1.0⟩,
   float_macro.mk ⟨"Lawn Green", 124, 252, 0, 255⟩ "SG_LAWN_GREEN" ⟨0.48627451, 0.988235294, 0.0, 1.0⟩,
   float_macro.mk ⟨"Lemon Chiffon", 255, 250, 205, 255⟩ "SG_LEMON_CHIFFON" ⟨1.0, 0.980392157, 0.803921569, 1.0⟩,
   float_macro.mk ⟨"Light Blue", 173, 216, 230, 255⟩ "SG_LIGHT_BLUE" ⟨0.678431373, 0.847058824, 0.901960784, 1.0⟩,
   float_macro.mk ⟨"Light Coral", 240, 128, 128, 255⟩ "SG_LIGHT_CORAL" ⟨0.941176471, 0.501960784, 0.501960784, 1.0⟩,
   float_macro.mk ⟨"Light Cyan", 224, 255, 255, 255⟩ "SG_LIGHT_CYAN" ⟨0.878431373, 1.0, 1.0, 1.0⟩,
   float_macro.mk ⟨"Light Goldenrod", 250, 250, 210, 255⟩ "SG_LIGHT_GOLDENROD" ⟨0.980392157, 0.980392157, 0.823529412, 1.0⟩,
   float_macro.mk ⟨"Light Gray", 211, 211, 211, 255⟩ "SG_LIGHT_GRAY" ⟨0.82745098, 0.82745098, 0.82745098, 1.0⟩,
   float_macro.mk ⟨"Light Green", 144, 238, 144, 255⟩ "SG_LIGHT_GREEN" ⟨0.564705882, 0.933333333, 0.564705882, 1.0⟩,
   float_macro.mk ⟨"Light Pink", 255, 182, 193, 255⟩ "SG_LIGHT_PINK" ⟨1.0, 0.71372549, 0.756862745, 1.0⟩,
   float_macro.mk ⟨"Light Salmon", 255, 160, 122, 255⟩ "SG_LIGHT_SALMON" ⟨1.0, 0.62745098, 0.478431373, 1.0⟩,
   float_macro.mk ⟨"Light Sea Green", 32, 178, 170, 255⟩ "SG_LIGHT_SEA_GREEN" ⟨0.125490196, 0.698039216, 0.666666667, 1.0⟩,
   float_macro.mk ⟨"Light Sky Blue", 135, 206, 250, 255⟩ "SG_LIGHT_SKY_BLUE" ⟨0.529411765, 0.807843137, 0.980392157, 1.0⟩,
   float_macro.mk ⟨"Light Slate Gray", 119, 136, 153, 255⟩ "SG_LIGHT_SLATE_GRAY" ⟨0.466666667, 0.533333333, 0.6, 1.0⟩,
   float_macro.mk ⟨"Light Steel Blue", 176, 196, 222, 255⟩ "SG_LIGHT_STEEL_BLUE" ⟨0.690196078, 0.768627451, 0.870588235, 1.0⟩,
   float_macro.mk ⟨"Light Yellow", 255, 255, 224, 255⟩ "SG_LIGHT_YELLOW" ⟨1.0, 1.0, 0.878431373, 1.0⟩,
   float_macro.mk ⟨"Lime", 0, 255, 0, 255⟩ "SG_LIME" ⟨0.0, 1.0, 0.0, 1.0⟩,
   float_macro.mk ⟨"Lime Green", 50, 205, 50, 255⟩ "SG_LIME_GREEN" ⟨0.196078431, 0.803921569, 0.196078431, 1.0⟩,
   float_macro.mk ⟨"Linen", 250, 240, 230, 255⟩ "SG_LINEN" ⟨0.980392157, 0.941176471, 0.901960784, 1.0⟩,
   float_macro.mk ⟨"Magenta", 255, 0, 255, 255⟩ "SG_MAGENTA" ⟨1.0, 0.0, 1.0, 1.0⟩,
   float_macro.mk ⟨"Maroon", 176, 48, 96, 255⟩ "SG_MAROON" ⟨0.690196078, 0.188235294, 0.376470588, 1.0⟩,
   float_macro.mk ⟨"Web Maroon", 128, 0, 0, 255⟩ "SG_WEB_MAROON" ⟨0.501960784, 0.0, 0.0, 1.0⟩,
   float_macro.mk ⟨"Medium Aquamarine", 102, 205, 170, 255⟩ "SG_MEDIUM_AQUAMARINE" ⟨0.4, 0.803921569, 0.666666667, 1.0⟩,
   float_macro.mk ⟨"Medium Blue", 0, 0, 205, 255⟩ "SG_MEDIUM_BLUE" ⟨0.0, 0.0, 0.803921569, 1.0⟩,
   float_macro.mk ⟨"Medium Orchid", 186, 85, 211, 255⟩ "SG_MEDIUM_ORCHID" ⟨0.729411765, 0.333333333, 0.82745098, 1.0⟩,
   float_macro.mk ⟨"Medium Purple", 147, 112, 219, 255⟩ "SG_MEDIUM_PURPLE" ⟨0.576470588, 0.439215686, 0.858823529, 1.0⟩,
   float_macro.mk ⟨"Medium Sea Green", 60, 179, 113, 255⟩ "SG_MEDIUM_SEA_GREEN" ⟨0.235294118, 0.701960784, 0.443137255, 1.0⟩,
   float_macro.mk ⟨"Medium Slate Blue", 123, 104, 238, 255⟩ "SG_MEDIUM_SLATE_BLUE" ⟨0.482352941, 0.407843137, 0.933333333, 1.0⟩,
   float_macro.mk ⟨"Medium Spring Green", 0, 250, 154, 255⟩ "SG_MEDIUM_SPRING_GREEN" ⟨0.0, 0.980392157, 0.603921569, 1.0⟩,
   float_macro.mk ⟨"Medium Turquoise", 72, 209, 204, 255⟩ "SG_MEDIUM_TURQUOISE" ⟨0.282352941, 0.819607843, 0.8, 1.0⟩,
   float_macro.mk ⟨"Medium Violet Red", 199, 21, 133, 255⟩ "SG_MEDIUM_VIOLET_RED" ⟨0.780392157, 0.0823529412, 0.521568627, 1.0⟩,
   float_macro.mk ⟨"Midnight Blue", 25, 25, 112, 255⟩ "SG_MIDNIGHT_BLUE" ⟨0.0980392157, 0.0980392157, 0.439215686, 1.0⟩,
   float_macro.mk ⟨"Mint Cream", 245, 255, 250, 255⟩ "SG_MINT_CREAM" ⟨0.960784314, 1.0, 0.980392157, 1.0⟩,
   float_macro.mk ⟨"Misty Rose", 255, 228, 225, 255⟩ "SG_MISTY_ROSE" ⟨1.0, 0.894117647, 0.882352941, 1.0⟩,
   float_macro.mk ⟨"Moccasin", 255, 228, 181, 255⟩ "SG_MOCCASIN" ⟨1.0, 0.894117647, 0.709803922, 1.0⟩,
   float_macro.mk ⟨"Navajo White", 255, 222, 173, 255⟩ "SG_NAVAJO_WHITE" ⟨1.0, 0.870588235, 0.678431373, 1.0⟩,
   float_macro.mk ⟨"Navy Blue", 0, 0, 128, 255⟩ "SG_NAVY_BLUE" ⟨0.0, 0.0, 0.501960784, 1.0⟩,
   float_macro.mk ⟨"Old Lace", 253, 245, 230, 255⟩ "SG_OLD_LACE" ⟨0.992156863, 0.960784314, 0.901960784, 1.0⟩,
   float_macro.mk ⟨"Olive", 128, 128, 0, 255⟩ "SG_OLIVE" ⟨0.501960784, 0.501960784, 0.0, 1.0⟩,
   float_macro.mk ⟨"Olive Drab", 107, 142, 35, 255⟩ "SG_OLIVE_DRAB" ⟨0.419607843, 0.556862745, 0.137254902, 1.0⟩,
   float_macro.mk ⟨"Orange", 255, 165, 0, 255⟩ "SG_ORANGE" ⟨1.0, 0.647058824, 0.0, 1.0⟩,
   float_macro.mk ⟨"Orange Red", 255, 69, 0, 255⟩ "SG_ORANGE_RED" ⟨1.0, 0.270588235, 0.0, 1.0⟩,
   float_macro.mk ⟨"Orchid", 218, 112, 214, 255⟩ "SG_ORCHID" ⟨0.854901961, 0.439215686, 0.839215686, 1.0⟩,
   float_macro.mk ⟨"Pale Goldenrod", 238, 232, 170, 255⟩ "SG_PALE_GOLDENROD" ⟨0.933333333, 0.909803922, 0.666666667, 1.0⟩,
   float_macro.mk ⟨"Pale Green", 152, 251, 152, 255⟩ "SG_PALE_GREEN" ⟨0.596078431, 0.984313725, 0.596078431, 1.0⟩,
   float_macro.mk ⟨"Pale Turquoise", 175, 238, 238, 255⟩ "SG_PALE_TURQUOISE" ⟨0.68627451, 0.933333333, 0.933333333, 1.0⟩,
   float_macro.mk ⟨"Pale Violet Red", 219, 112, 147, 255⟩ "SG_PALE_VIOLET_RED" ⟨0.858823529, 0.439215686, 0.576470588, 1.0⟩,
   float_macro.mk ⟨"Papaya Whip", 255, 239, 213, 255⟩ "SG_PAPAYA_WHIP" ⟨1.0, 0.937254902, 0.835294118, 1.0⟩,
   float_macro.mk ⟨"Peach Puff", 255, 218, 185, 255⟩ "SG_PEACH_PUFF" ⟨1.0, 0.854901961, 0.725490196, 1.0⟩,
   float_macro.mk ⟨"Peru", 205, 133, 63, 255⟩ "SG_PERU" ⟨0.803921569, 0.521568627, 0.247058824, 1.0⟩,
   float_macro.mk ⟨"Pink", 255, 192, 203, 255⟩ "SG_PINK" ⟨1.0, 0.752941176, 0.796078431, 1.0⟩,
   float_macro.mk ⟨"Plum", 221, 160, 221, 255⟩ "SG_PLUM" ⟨0.866666667, 0.62745098, 0.866666667, 1.0⟩,
   float_macro.mk ⟨"Powder Blue", 176, 224, 230, 255⟩ "SG_POWDER_BLUE" ⟨0.690196078, 0.878431373, 0.901960784, 1.0⟩,
   float_macro.mk ⟨"Purple", 160, 32, 240, 255⟩ "SG_PURPLE" ⟨0.62745098, 0.125490196, 0.941176471, 1.0⟩,
   float_macro.mk ⟨"Web Purple", 128, 0, 128, 255⟩ "SG_WEB_PURPLE" ⟨0.501960784, 0.0, 0.501960784, 1.0⟩,
   float_macro.mk ⟨"Rebecca Purple", 102, 51, 153, 255⟩ "SG_REBECCA_PURPLE" ⟨0.4, 0.2, 0.6, 1.0⟩,
   float_macro.mk ⟨"Red", 255, 0, 0, 255⟩ "SG_RED" ⟨1.0, 0.0, 0.0, 1.0⟩,
   float_macro.mk ⟨"Rosy Brown", 188, 143, 143, 255⟩ "SG_ROSY_BROWN" ⟨0.737254902, 0.560784314, 0.560784314, 1.0⟩,
   float_macro.mk ⟨"Royal Blue", 65, 105, 225, 255⟩ "SG_ROYAL_BLUE" ⟨0.254901961, 0.411764706, 0.882352941, 1.0⟩,
   float_macro.mk ⟨"Saddle Brown", 139, 69, 19, 255⟩ "SG_SADDLE_BROWN" ⟨0.545098039, 0.270588235, 0.0745098039, 1.0⟩,
   float_macro.mk ⟨"Salmon", 250, 128, 114, 255⟩ "SG_SALMON" ⟨0.980392157, 0.501960784, 0.447058824, 1.0⟩,
   float_macro.mk ⟨"Sandy Brown", 244, 164, 96, 255⟩ "SG_SANDY_BROWN" ⟨0.956862745, 0.643137255, 0.376470588, 1.0⟩,
   float_macro.mk ⟨"Sea Green", 46, 139, 87, 255⟩ "SG_SEA_GREEN" ⟨0.180392157, 0.545098039, 0.341176471, 1.0⟩,
   float_macro.mk ⟨"Seashell", 255, 245, 238, 255⟩ "SG_SEASHELL" ⟨1.0, 0.960784314, 0.933333333, 1.0⟩,
   float_macro.mk ⟨"Sienna", 160, 82, 45, 255⟩ "SG_SIENNA" ⟨0.62745098, 0.321568627, 0.176470588, 1.0⟩,
   float_macro.mk ⟨"Silver", 192, 192, 192, 255⟩ "SG_SILVER" ⟨0.752941176, 0.752941176, 0.752941176, 1.0⟩,
   float_macro.mk ⟨"Sky Blue", 135, 206, 235, 255⟩ "SG_SKY_BLUE" ⟨0.529411765, 0.807843137, 0.921568627, 1.0⟩,
   float_macro.mk ⟨"Slate Blue", 106, 90, 205, 255⟩ "SG_SLATE_BLUE" ⟨0.415686275, 0.352941176, 0.803921569, 1.0⟩,
   float_macro.mk ⟨"Slate Gray", 112, 128, 144, 255⟩ "SG_SLATE_GRAY" ⟨0.439215686, 0.501960784, 0.564705882, 1.0⟩,
   float_macro.mk ⟨"Snow", 255, 250, 250, 255⟩ "SG_SNOW" ⟨1.0, 0.980392157, 0.980392157, 1.0⟩,
   float_macro.mk ⟨"Spring Green", 0, 255, 127, 255⟩ "SG_SPRING_GREEN" ⟨0.0, 1.0, 0.498039216, 1.0⟩,
   float_macro.mk ⟨"Steel Blue", 70, 130, 180, 255⟩ "SG_STEEL_BLUE" ⟨0.274509804, 0.509803922, 0.705882353, 1.0⟩,
   float_macro.mk ⟨"Tan", 210, 180, 140, 255⟩ "SG_TAN" ⟨0.823529412, 0.705882353, 0.549019608, 1.0⟩,
   float_macro.mk ⟨"Teal", 0, 128, 128, 255⟩ "SG_TEAL" ⟨0.0, 0.501960784, 0.501960784, 1.0⟩,
   float_macro.mk ⟨"Thistle", 216, 191, 216, 255⟩ "SG_THISTLE" ⟨0.847058824, 0.749019608, 0.847058824, 1.0⟩,
   float_macro.mk ⟨"Tomato", 255, 99, 71, 255⟩ "SG_TOMATO" ⟨1.0, 0.388235294, 0.278431373, 1.0⟩,
   float_macro.mk ⟨"Transparent", 0, 0, 0, 0⟩ "SG_TRANSPARENT" ⟨0.0, 0.0, 0.0, 0.0⟩,
   float_macro.mk ⟨"Turquoise", 64, 224, 208, 255⟩ "SG_TURQUOISE" ⟨0.250980392, 0.878431373, 0.815686275, 1.0⟩,
   float_macro.mk ⟨"Violet", 238, 130, 238, 255⟩ "SG_VIOLET" ⟨0.933333333, 0.509803922, 0.933333333, 1.0⟩,
   float_macro.mk ⟨"Wheat", 245, 222, 179, 255⟩ "SG_WHEAT" ⟨0.960784314, 0.870588235, 0.701960784, 1.0⟩,
   float_macro.mk ⟨"White", 255, 255, 255, 255⟩ "SG_WHITE" ⟨1.0, 1.0, 1.0, 1.0⟩,
   float_macro.mk ⟨"White Smoke", 245, 245, 245, 255⟩ "SG_WHITE_SMOKE" ⟨0.960784314, 0.960784314, 0.960784314, 1.0⟩,
   float_macro.mk ⟨"Yellow", 255, 255, 0, 255⟩ "SG_YELLOW" ⟨1.0, 1.0, 0.0, 1.0⟩,
   float_macro.mk ⟨"Yellow Green", 154, 205, 50, 255⟩ "SG_YELLOW_GREEN" ⟨0.603921569, 0.803921569, 0.196078431, 1.0⟩]

/-- The typed constants `sg_<name>`, lines 428-719 of the header. -/
def typed_constants : List typed_constant :=
  [
   typed_constant.mk ⟨"Alice Blue", 240, 248, 255, 255⟩ "sg_alice_blue" "SG_ALICE_BLUE",
   typed_constant.mk ⟨"Antique White", 250, 235, 215, 255⟩ "sg_antique_white" "SG_ANTIQUE_WHITE",
   typed_constant.mk ⟨"Aqua", 0, 255, 255, 255⟩ "sg_aqua" "SG_AQUA",
   typed_constant.mk ⟨"Aquamarine", 127, 255, 212, 255⟩ "sg_aquamarine" "SG_AQUAMARINE",
   typed_constant.mk ⟨"Azure", 240, 255, 255, 255⟩ "sg_azure" "SG_AZURE",
   typed_constant.mk ⟨"Beige", 245, 245, 220, 255⟩ "sg_beige" "SG_BEIGE",
   typed_constant.mk ⟨"Bisque", 255, 228, 196, 255⟩ "sg_bisque" "SG_BISQUE",
   typed_constant.mk ⟨"Black", 0, 0, 0, 255⟩ "sg_black" "SG_BLACK",
   typed_constant.mk ⟨"Blanched Almond", 255, 235, 205, 255⟩ "sg_blanched_almond" "SG_BLANCHED_ALMOND",
   typed_constant.mk ⟨"Blue", 0, 0, 255, 255⟩ "sg_blue" "SG_BLUE",
   typed_constant.mk ⟨"Blue Violet", 138, 43, 226, 255⟩ "sg_blue_violet" "SG_BLUE_VIOLET",
   typed_constant.mk ⟨"Brown", 165, 42, 42, 255⟩ "sg_brown" "SG_BROWN",
   typed_constant.mk ⟨"Burlywood", 222, 184, 135, 255⟩ "sg_burlywood" "SG_BURLYWOOD",
   typed_constant.mk ⟨"Cadet Blue", 95, 158, 160, 255⟩ "sg_cadet_blue" "SG_CADET_BLUE",
   typed_constant.mk ⟨"Chartreuse", 127, 255, 0, 255⟩ "sg_chartreuse" "SG_CHARTREUSE",
   typed_constant.mk ⟨"Chocolate", 210, 105, 30, 255⟩ "sg_chocolate" "SG_CHOCOLATE",
   typed_constant.mk ⟨"Coral", 255, 127, 80, 255⟩ "sg_coral" "SG_CORAL",
   typed_constant.mk ⟨"Cornflower Blue", 100, 149, 237, 255⟩ "sg_cornflower_blue" "SG_CORNFLOWER_BLUE",
   typed_constant.mk ⟨"Cornsilk", 255, 248, 220, 255⟩ "sg_cornsilk" "SG_CORNSILK",
   typed_constant.mk ⟨"Crimson", 220, 20, 60, 255⟩ "sg_crimson" "SG_CRIMSON",
   typed_constant.mk ⟨"Cyan", 0, 255, 255, 255⟩ "sg_cyan" "SG_CYAN",
   typed_constant.mk ⟨"Dark Blue", 0, 0, 139, 255⟩ "sg_dark_blue" "SG_DARK_BLUE",
   typed_constant.mk ⟨"Dark Cyan", 0, 139, 139, 255⟩ "sg_dark_cyan" "SG_DARK_CYAN",
   typed_constant.mk ⟨"Dark Goldenrod", 184, 134, 11, 255⟩ "sg_dark_goldenrod" "SG_DARK_GOLDENROD",
   typed_constant.mk ⟨"Dark Gray", 169, 169, 169, 255⟩ "sg_dark_gray" "SG_DARK_GRAY",
   typed_constant.mk ⟨"Dark Green", 0, 100, 0, 255⟩ "sg_dark_green" "SG_DARK_GREEN",
   typed_constant.mk ⟨"Dark Khaki", 189, 183, 107, 255⟩ "sg_dark_khaki" "SG_DARK_KHAKI",
   typed_constant.mk ⟨"Dark Magenta", 139, 0, 139, 255⟩ "sg_dark_magenta" "SG_DARK_MAGENTA",
   typed_constant.mk ⟨"Dark Olive Green", 85, 107, 47, 255⟩ "sg_dark_olive_green" "SG_DARK_OLIVE_GREEN",
   typed_constant.mk ⟨"Dark Orange", 255, 140, 0, 255⟩ "sg_dark_orange" "SG_DARK_ORANGE",
   typed_constant.mk ⟨"Dark Orchid", 153, 50, 204, 255⟩ "sg_dark_orchid" "SG_DARK_ORCHID",
   typed_constant.mk ⟨"Dark Red", 139, 0, 0, 255⟩ "sg_dark_red" "SG_DARK_RED",
   typed_constant.mk ⟨"Dark Salmon", 233, 150, 122, 255⟩ "sg_dark_salmon" "SG_DARK_SALMON",
   typed_constant.mk ⟨"Dark Sea Green", 143, 188, 143, 255⟩ "sg_dark_sea_green" "SG_DARK_SEA_GREEN",
   typed_constant.mk ⟨"Dark Slate Blue", 72, 61, 139, 255⟩ "sg_dark_slate_blue" "SG_DARK_SLATE_BLUE",
   typed_constant.mk ⟨"Dark Slate Gray", 47, 79, 79, 255⟩ "sg_dark_slate_gray" "SG_DARK_SLATE_GRAY",
   typed_constant.mk ⟨"Dark Turquoise", 0, 206, 209, 255⟩ "sg_dark_turquoise" "SG_DARK_TURQUOISE",
   typed_constant.mk ⟨"Dark Violet", 148, 0, 211, 255⟩ "sg_dark_violet" "SG_DARK_VIOLET",
   typed_constant.mk ⟨"Deep Pink", 255, 20, 147, 255⟩ "sg_deep_pink" "SG_DEEP_PINK",
   typed_constant.mk ⟨"Deep Sky Blue", 0, 191, 255, 255⟩ "sg_deep_sky_blue" "SG_DEEP_SKY_BLUE",
   typed_constant.mk ⟨"Dim Gray", 105, 105, 105, 255⟩ "sg_dim_gray" "SG_DIM_GRAY",
   typed_constant.mk ⟨"Dodger Blue", 30, 144, 255, 255⟩ "sg_dodger_blue" "SG_DODGER_BLUE",
   typed_constant.mk ⟨"Firebrick", 178, 34, 34, 255⟩ "sg_firebrick" "SG_FIREBRICK",
   typed_constant.mk ⟨"Floral White", 255, 250, 240, 255⟩ "sg_floral_white" "SG_FLORAL_WHITE",
   typed_constant.mk ⟨"Forest Green", 34, 139, 34, 255⟩ "sg_forest_green" "SG_FOREST_GREEN",
   typed_constant.mk ⟨"Fuchsia", 255, 0, 255, 255⟩ "sg_fuchsia" "SG_FUCHSIA",
   typed_constant.mk ⟨"Gainsboro", 220, 220, 220, 255⟩ "sg_gainsboro" "SG_GAINSBORO",
   typed_constant.mk ⟨"Ghost White", 248, 248, 255, 255⟩ "sg_ghost_white" "SG_GHOST_WHITE",
   typed_constant.mk ⟨"Gold", 255, 215, 0, 255⟩ "sg_gold" "SG_GOLD",
   typed_constant.mk ⟨"Goldenrod", 218, 165, 32, 255⟩ "sg_goldenrod" "SG_GOLDENROD",
   typed_constant.mk ⟨"Gray", 190, 190, 190, 255⟩ "sg_gray" "SG_GRAY",
   typed_constant.mk ⟨"Web Gray", 128, 128, 128, 255⟩ "sg_web_gray" "SG_WEB_GRAY",
   typed_constant.mk ⟨"Green", 0, 255, 0, 255⟩ "sg_green" "SG_GREEN",
   typed_constant.mk ⟨"Web Green", 0, 128, 0, 255⟩ "sg_web_green" "SG_WEB_GREEN",
   typed_constant.mk ⟨"Green Yellow", 173, 255, 47, 255⟩ "sg_green_yellow" "SG_GREEN_YELLOW",
   typed_constant.mk ⟨"Honeydew", 240, 255, 240, 255⟩ "sg_honeydew" "SG_HONEYDEW",
   typed_constant.mk ⟨"Hot Pink", 255, 105, 180, 255⟩ "sg_hot_pink" "SG_HOT_PINK",
   typed_constant.mk ⟨"Indian Red", 205, 92, 92, 255⟩ "sg_indian_red" "SG_INDIAN_RED",
   typed_constant.mk ⟨"Indigo", 75, 0, 130, 255⟩ "sg_indigo" "SG_INDIGO",
   typed_constant.mk ⟨"Ivory", 255, 255, 240, 255⟩ "sg_ivory" "SG_IVORY",
   typed_constant.mk ⟨"Khaki", 240, 230, 140, 255⟩ "sg_khaki" "SG_KHAKI",
   typed_constant.mk ⟨"Lavender", 230, 230, 250, 255⟩ "sg_lavender" "SG_LAVENDER",
   typed_constant.mk ⟨"Lavender Blush", 255, 240, 245, 255⟩ "sg_lavender_blush" "SG_LAVENDER_BLUSH",
   typed_constant.mk ⟨"Lawn Green", 124, 252, 0, 255⟩ "sg_lawn_green" "SG_LAWN_GREEN",
   typed_constant.mk ⟨"Lemon Chiffon", 255, 250, 205, 255⟩ "sg_lemon_chiffon" "SG_LEMON_CHIFFON",
   typed_constant.mk ⟨"Light Blue", 173, 216, 230, 255⟩ "sg_light_blue" "SG_LIGHT_BLUE",
   typed_constant.mk ⟨"Light Coral", 240, 128, 128, 255⟩ "sg_light_coral" "SG_LIGHT_CORAL",
   typed_constant.mk ⟨"Light Cyan", 224, 255, 255, 255⟩ "sg_light_cyan" "SG_LIGHT_CYAN",
   typed_constant.mk ⟨"Light Goldenrod", 250, 250, 210, 255⟩ "sg_light_goldenrod" "SG_LIGHT_GOLDENROD",
   typed_constant.mk ⟨"Light Gray", 211, 211, 211, 255⟩ "sg_light_gray" "SG_LIGHT_GRAY",
   typed_constant.mk ⟨"Light Green", 144, 238, 144, 255⟩ "sg_light_green" "SG_LIGHT_GREEN",
   typed_constant.mk ⟨"Light Pink", 255, 182, 193, 255⟩ "sg_light_pink" "SG_LIGHT_PINK",
   typed_constant.mk ⟨"Light Salmon", 255, 160, 122, 255⟩ "sg_light_salmon" "SG_LIGHT_SALMON",
   typed_constant.mk ⟨"Light Sea Green", 32, 178, 170, 255⟩ "sg_light_sea_green" "SG_LIGHT_SEA_GREEN",
   typed_constant.mk ⟨"Light Sky Blue", 135, 206, 250, 255⟩ "sg_light_sky_blue" "SG_LIGHT_SKY_BLUE",
   typed_constant.mk ⟨"Light Slate Gray", 119, 136, 153, 255⟩ "sg_light_slate_gray" "SG_LIGHT_SLATE_GRAY",
   typed_constant.mk ⟨"Light Steel Blue", 176, 196, 222, 255⟩ "sg_light_steel_blue" "SG_LIGHT_STEEL_BLUE",
   typed_constant.mk ⟨"Light Yellow", 255, 255, 224, 255⟩ "sg_light_yellow" "SG_LIGHT_YELLOW",
   typed_constant.mk ⟨"Lime", 0, 255, 0, 255⟩ "sg_lime" "SG_LIME",
   typed_constant.mk ⟨"Lime Green", 50, 205, 50, 255⟩ "sg_lime_green" "SG_LIME_GREEN",
   typed_constant.mk ⟨"Linen", 250, 240, 230, 255⟩ "sg_linen" "SG_LINEN",
   typed_constant.mk ⟨"Magenta", 255, 0, 255, 255⟩ "sg_magenta" "SG_MAGENTA",
   typed_constant.mk ⟨"Maroon", 176, 48, 96, 255⟩ "sg_maroon" "SG_MAROON",
   typed_constant.mk ⟨"Web Maroon", 128, 0, 0, 255⟩ "sg_web_maroon" "SG_WEB_MAROON",
   typed_constant.mk ⟨"Medium Aquamarine", 102, 205, 170, 255⟩ "sg_medium_aquamarine" "SG_MEDIUM_AQUAMARINE",
   typed_constant.mk ⟨"Medium Blue", 0, 0, 205, 255⟩ "sg_medium_blue" "SG_MEDIUM_BLUE",
   typed_constant.mk ⟨"Medium Orchid", 186, 85, 211, 255⟩ "sg_medium_orchid" "SG_MEDIUM_ORCHID",
   typed_constant.mk ⟨"Medium Purple", 147, 112, 219, 255⟩ "sg_medium_purple" "SG_MEDIUM_PURPLE",
   typed_constant.mk ⟨"Medium Sea Green", 60, 179, 113, 255⟩ "sg_medium_sea_green" "SG_MEDIUM_SEA_GREEN",
   typed_constant.mk ⟨"Medium Slate Blue", 123, 104, 238, 255⟩ "sg_medium_slate_blue" "SG_MEDIUM_SLATE_BLUE",
   typed_constant.mk ⟨"Medium Spring Green", 0, 250, 154, 255⟩ "sg_medium_spring_green" "SG_MEDIUM_SPRING_GREEN",
   typed_constant.mk ⟨"Medium Turquoise", 72, 209, 204, 255⟩ "sg_medium_turquoise" "SG_MEDIUM_TURQUOISE",
   typed_constant.mk ⟨"Medium Violet Red", 199, 21, 133, 255⟩ "sg_medium_violet_red" "SG_MEDIUM_VIOLET_RED",
   typed_constant.mk ⟨"Midnight Blue", 25, 25, 112, 255⟩ "sg_midnight_blue" "SG_MIDNIGHT_BLUE",
   typed_constant.mk ⟨"Mint Cream", 245, 255, 250, 255⟩ "sg_mint_cream" "SG_MINT_CREAM",
   typed_constant.mk ⟨"Misty Rose", 255, 228, 225, 255⟩ "sg_misty_rose" "SG_MISTY_ROSE",
   typed_constant.mk ⟨"Moccasin", 255, 228, 181, 255⟩ "sg_moccasin" "SG_MOCCASIN",
   typed_constant.mk ⟨"Navajo White", 255, 222, 173, 255⟩ "sg_navajo_white" "SG_NAVAJO_WHITE",
   typed_constant.mk ⟨"Navy Blue", 0, 0, 128, 255⟩ "sg_navy_blue" "SG_NAVY_BLUE",
   typed_constant.mk ⟨"Old Lace", 253, 245, 230, 255⟩ "sg_old_lace" "SG_OLD_LACE",
   typed_constant.mk ⟨"Olive", 128, 128, 0, 255⟩ "sg_olive" "SG_OLIVE",
   typed_constant.mk ⟨"Olive Drab", 107, 142, 35, 255⟩ "sg_olive_drab" "SG_OLIVE_DRAB",
   typed_constant.mk ⟨"Orange", 255, 165, 0, 255⟩ "sg_orange" "SG_ORANGE",
   typed_constant.mk ⟨"Orange Red", 255, 69, 0, 255⟩ "sg_orange_red" "SG_ORANGE_RED",
   typed_constant.mk ⟨"Orchid", 218, 112, 214, 255⟩ "sg_orchid" "SG_ORCHID",
   typed_constant.mk ⟨"Pale Goldenrod", 238, 232, 170, 255⟩ "sg_pale_goldenrod" "SG_PALE_GOLDENROD",
   typed_constant.mk ⟨"Pale Green", 152, 251, 152, 255⟩ "sg_pale_green" "SG_PALE_GREEN",
   typed_constant.mk ⟨"Pale Turquoise", 175, 238, 238, 255⟩ "sg_pale_turquoise" "SG_PALE_TURQUOISE",
   typed_constant.mk ⟨"Pale Violet Red", 219, 112, 147, 255⟩ "sg_pale_violet_red" "SG_PALE_VIOLET_RED",
   typed_constant.mk ⟨"Papaya Whip", 255, 239, 213, 255⟩ "sg_papaya_whip" "SG_PAPAYA_WHIP",
   typed_constant.mk ⟨"Peach Puff", 255, 218, 185, 255⟩ "sg_peach_puff" "SG_PEACH_PUFF",
   typed_constant.mk ⟨"Peru", 205, 133, 63, 255⟩ "sg_peru" "SG_PERU",
   typed_constant.mk ⟨"Pink", 255, 192, 203, 255⟩ "sg_pink" "SG_PINK",
   typed_constant.mk ⟨"Plum", 221, 160, 221, 255⟩ "sg_plum" "SG_PLUM",
   typed_constant.mk ⟨"Powder Blue", 176, 224, 230, 255⟩ "sg_powder_blue" "SG_POWDER_BLUE",
   typed_constant.mk ⟨"Purple", 160, 32, 240, 255⟩ "sg_purple" "SG_PURPLE",
   typed_constant.mk ⟨"Web Purple", 128, 0, 128, 255⟩ "sg_web_purple" "SG_WEB_PURPLE",
   typed_constant.mk ⟨"Rebecca Purple", 102, 51, 153, 255⟩ "sg_rebecca_purple" "SG_REBECCA_PURPLE",
   typed_constant.mk ⟨"Red", 255, 0, 0, 255⟩ "sg_red" "SG_RED",
   typed_constant.mk ⟨"Rosy Brown", 188, 143, 143, 255⟩ "sg_rosy_brown" "SG_ROSY_BROWN",
   typed_constant.mk ⟨"Royal Blue", 65, 105, 225, 255⟩ "sg_royal_blue" "SG_ROYAL_BLUE",
   typed_constant.mk ⟨"Saddle Brown", 139, 69, 19, 255⟩ "sg_saddle_brown" "SG_SADDLE_BROWN",
   typed_constant.mk ⟨"Salmon", 250, 128, 114, 255⟩ "sg_salmon" "SG_SALMON",
   typed_constant.mk ⟨"Sandy Brown", 244, 164, 96, 255⟩ "sg_sandy_brown" "SG_SANDY_BROWN",
   typed_constant.mk ⟨"Sea Green", 46, 139, 87, 255⟩ "sg_sea_green" "SG_SEA_GREEN",
   typed_constant.mk ⟨"Seashell", 255, 245, 238, 255⟩ "sg_seashell" "SG_SEASHELL",
   typed_constant.mk ⟨"Sienna", 160, 82, 45, 255⟩ "sg_sienna" "SG_SIENNA",
   typed_constant.mk ⟨"Silver", 192, 192, 192, 255⟩ "sg_silver" "SG_SILVER",
   typed_constant.mk ⟨"Sky Blue", 135, 206, 235, 255⟩ "sg_sky_blue" "SG_SKY_BLUE",
   typed_constant.mk ⟨"Slate Blue", 106, 90, 205, 255⟩ "sg_slate_blue" "SG_SLATE_BLUE",
   typed_constant.mk ⟨"Slate Gray", 112, 128, 144, 255⟩ "sg_slate_gray" "SG_SLATE_GRAY",
   typed_constant.mk ⟨"Snow", 255, 250, 250, 255⟩ "sg_snow" "SG_SNOW",
   typed_constant.mk ⟨"Spring Green", 0, 255, 127, 255⟩ "sg_spring_green" "SG_SPRING_GREEN",
   typed_constant.mk ⟨"Steel Blue", 70, 130, 180, 255⟩ "sg_steel_blue" "SG_STEEL_BLUE",
   typed_constant.mk ⟨"Tan", 210, 180, 140, 255⟩ "sg_tan" "SG_TAN",
   typed_constant.mk ⟨"Teal", 0, 128, 128, 255⟩ "sg_teal" "SG_TEAL",
   typed_constant.mk ⟨"Thistle", 216, 191, 216, 255⟩ "sg_thistle" "SG_THISTLE",
   typed_constant.mk ⟨"Tomato", 255, 99, 71, 255⟩ "sg_tomato" "SG_TOMATO",
   typed_constant.mk ⟨"Transparent", 0, 0, 0, 0⟩ "sg_transparent" "SG_TRANSPARENT",
   typed_constant.mk ⟨"Turquoise", 64, 224, 208, 255⟩ "sg_turquoise" "SG_TURQUOISE",
   typed_constant.mk ⟨"Violet", 238, 130, 238, 255⟩ "sg_violet" "SG_VIOLET",
   typed_constant.mk ⟨"Wheat", 245, 222, 179, 255⟩ "sg_wheat" "SG_WHEAT",
   typed_constant.mk ⟨"White", 255, 255, 255, 255⟩ "sg_white" "SG_WHITE",
   typed_constant.mk ⟨"White Smoke", 245, 245, 245, 255⟩ "sg_white_smoke" "SG_WHITE_SMOKE",
   typed_constant.mk ⟨"Yellow", 255, 255, 0, 255⟩ "sg_yellow" "SG_YELLOW",
   typed_constant.mk ⟨"Yellow Green", 154, 205, 50, 255⟩ "sg_yellow_green" "SG_YELLOW_GREEN"]

/-- The packed macros `SG_<NAME>_RGBA32`, lines 721-1012 of the header. -/
def packed_macros : List packed_macro :=
  [
   packed_macro.mk ⟨"Alice Blue", 240, 248, 255, 255⟩ "SG_ALICE_BLUE_RGBA32" 0xF0F8FFFF,
   packed_macro.mk ⟨"Antique White", 250, 235, 215, 255⟩ "SG_ANTIQUE_WHITE_RGBA32" 0xFAEBD7FF,
   packed_macro.mk ⟨"Aqua", 0, 255, 255, 255⟩ "SG_AQUA_RGBA32" 0x00FFFFFF,
   packed_macro.mk ⟨"Aquamarine", 127, 255, 212, 255⟩ "SG_AQUAMARINE_RGBA32" 0x7FFFD4FF,
   packed_macro.mk ⟨"Azure", 240, 255, 255, 255⟩ "SG_AZURE_RGBA32" 0xF0FFFFFF,
   packed_macro.mk ⟨"Beige", 245, 245, 220, 255⟩ "SG_BEIGE_RGBA32" 0xF5F5DCFF,
   packed_macro.mk ⟨"Bisque", 255, 228, 196, 255⟩ "SG_BISQUE_RGBA32" 0xFFE4C4FF,
   packed_macro.mk ⟨"Black", 0, 0, 0, 255⟩ "SG_BLACK_RGBA32" 0x000000FF,
   packed_macro.mk ⟨"Blanched Almond", 255, 235, 205, 255⟩ "SG_BLANCHED_ALMOND_RGBA32" 0xFFEBCDFF,
   packed_macro.mk ⟨"Blue", 0, 0, 255, 255⟩ "SG_BLUE_RGBA32" 0x0000FFFF,
   packed_macro.mk ⟨"Blue Violet", 138, 43, 226, 255⟩ "SG_BLUE_VIOLET_RGBA32" 0x8A2BE2FF,
   packed_macro.mk ⟨"Brown", 165, 42, 42, 255⟩ "SG_BROWN_RGBA32" 0xA52A2AFF,
   packed_macro.mk ⟨"Burlywood", 222, 184, 135, 255⟩ "SG_BURLYWOOD_RGBA32" 0xDEB887FF,
   packed_macro.mk ⟨"Cadet Blue", 95, 158, 160, 255⟩ "SG_CADET_BLUE_RGBA32" 0x5F9EA0FF,
   packed_macro.mk ⟨"Chartreuse", 127, 255, 0, 255⟩ "SG_CHARTREUSE_RGBA32" 0x7FFF00FF,
   packed_macro.mk ⟨"Chocolate", 210, 105, 30, 255⟩ "SG_CHOCOLATE_RGBA32" 0xD2691EFF,
   packed_macro.mk ⟨"Coral", 255, 127, 80, 255⟩ "SG_CORAL_RGBA32" 0xFF7F50FF,
   packed_macro.mk ⟨"Cornflower Blue", 100, 149, 237, 255⟩ "SG_CORNFLOWER_BLUE_RGBA32" 0x6495EDFF,
   packed_macro.mk ⟨"Cornsilk", 255, 248, 220, 255⟩ "SG_CORNSILK_RGBA32" 0xFFF8DCFF,
   packed_macro.mk ⟨"Crimson", 220, 20, 60, 255⟩ "SG_CRIMSON_RGBA32" 0xDC143CFF,
   packed_macro.mk ⟨"Cyan", 0, 255, 255, 255⟩ "SG_CYAN_RGBA32" 0x00FFFFFF,
   packed_macro.mk ⟨"Dark Blue", 0, 0, 139, 255⟩ "SG_DARK_BLUE_RGBA32" 0x00008BFF,
   packed_macro.mk ⟨"Dark Cyan", 0, 139, 139, 255⟩ "SG_DARK_CYAN_RGBA32" 0x008B8BFF,
   packed_macro.mk ⟨"Dark Goldenrod", 184, 134, 11, 255⟩ "SG_DARK_GOLDENROD_RGBA32" 0xB8860BFF,
   packed_macro.mk ⟨"Dark Gray", 169, 169, 169, 255⟩ "SG_DARK_GRAY_RGBA32" 0xA9A9A9FF,
   packed_macro.mk ⟨"Dark Green", 0, 100, 0, 255⟩ "SG_DARK_GREEN_RGBA32" 0x006400FF,
   packed_macro.mk ⟨"Dark Khaki", 189, 183, 107, 255⟩ "SG_DARK_KHAKI_RGBA32" 0xBDB76BFF,
   packed_macro.mk ⟨"Dark Magenta", 139, 0, 139, 255⟩ "SG_DARK_MAGENTA_RGBA32" 0x8B008BFF,
   packed_macro.mk ⟨"Dark Olive Green", 85, 107, 47, 255⟩ "SG_DARK_OLIVE_GREEN_RGBA32" 0x556B2FFF,
   packed_macro.mk ⟨"Dark Orange", 255, 140, 0, 255⟩ "SG_DARK_ORANGE_RGBA32" 0xFF8C00FF,
   packed_macro.mk ⟨"Dark Orchid", 153, 50, 204, 255⟩ "SG_DARK_ORCHID_RGBA32" 0x9932CCFF,
   packed_macro.mk ⟨"Dark Red", 139, 0, 0, 255⟩ "SG_DARK_RED_RGBA32" 0x8B0000FF,
   packed_macro.mk ⟨"Dark Salmon", 233, 150, 122, 255⟩ "SG_DARK_SALMON_RGBA32" 0xE9967AFF,
   packed_macro.mk ⟨"Dark Sea Green", 143, 188, 143, 255⟩ "SG_DARK_SEA_GREEN_RGBA32" 0x8FBC8FFF,
   packed_macro.mk ⟨"Dark Slate Blue", 72, 61, 139, 255⟩ "SG_DARK_SLATE_BLUE_RGBA32" 0x483D8BFF,
   packed_macro.mk ⟨"Dark Slate Gray", 47, 79, 79, 255⟩ "SG_DARK_SLATE_GRAY_RGBA32" 0x2F4F4FFF,
   packed_macro.mk ⟨"Dark Turquoise", 0, 206, 209, 255⟩ "SG_DARK_TURQUOISE_RGBA32" 0x00CED1FF,
   packed_macro.mk ⟨"Dark Violet", 148, 0, 211, 255⟩ "SG_DARK_VIOLET_RGBA32" 0x9400D3FF,
   packed_macro.mk ⟨"Deep Pink", 255, 20, 147, 255⟩ "SG_DEEP_PINK_RGBA32" 0xFF1493FF,
   packed_macro.mk ⟨"Deep Sky Blue", 0, 191, 255, 255⟩ "SG_DEEP_SKY_BLUE_RGBA32" 0x00BFFFFF,
   packed_macro.mk ⟨"Dim Gray", 105, 105, 105, 255⟩ "SG_DIM_GRAY_RGBA32" 0x696969FF,
   packed_macro.mk ⟨"Dodger Blue", 30, 144, 255, 255⟩ "SG_DODGER_BLUE_RGBA32" 0x1E90FFFF,
   packed_macro.mk ⟨"Firebrick", 178, 34, 34, 255⟩ "SG_FIREBRICK_RGBA32" 0xB22222FF,
   packed_macro.mk ⟨"Floral White", 255, 250, 240, 255⟩ "SG_FLORAL_WHITE_RGBA32" 0xFFFAF0FF,
   packed_macro.mk ⟨"Forest Green", 34, 139, 34, 255⟩ "SG_FOREST_GREEN_RGBA32" 0x228B22FF,
   packed_macro.mk ⟨"Fuchsia", 255, 0, 255, 255⟩ "SG_FUCHSIA_RGBA32" 0xFF00FFFF,
   packed_macro.mk ⟨"Gainsboro", 220, 220, 220, 255⟩ "SG_GAINSBORO_RGBA32" 0xDCDCDCFF,
   packed_macro.mk ⟨"Ghost White", 248, 248, 255, 255⟩ "SG_GHOST_WHITE_RGBA32" 0xF8F8FFFF,
   packed_macro.mk ⟨"Gold", 255, 215, 0, 255⟩ "SG_GOLD_RGBA32" 0xFFD700FF,
   packed_macro.mk ⟨"Goldenrod", 218, 165, 32, 255⟩ "SG_GOLDENROD_RGBA32" 0xDAA520FF,
   packed_macro.mk ⟨"Gray", 190, 190, 190, 255⟩ "SG_GRAY_RGBA32" 0xBEBEBEFF,
   packed_macro.mk ⟨"Web Gray", 128, 128, 128, 255⟩ "SG_WEB_GRAY_RGBA32" 0x808080FF,
   packed_macro.mk ⟨"Green", 0, 255, 0, 255⟩ "SG_GREEN_RGBA32" 0x00FF00FF,
   packed_macro.mk ⟨"Web Green", 0, 128, 0, 255⟩ "SG_WEB_GREEN_RGBA32" 0x008000FF,
   packed_macro.mk ⟨"Green Yellow", 173, 255, 47, 255⟩ "SG_GREEN_YELLOW_RGBA32" 0xADFF2FFF,
   packed_macro.mk ⟨"Honeydew", 240, 255, 240, 255⟩ "SG_HONEYDEW_RGBA32" 0xF0FFF0FF,
   packed_macro.mk ⟨"Hot Pink", 255, 105, 180, 255⟩ "SG_HOT_PINK_RGBA32" 0xFF69B4FF,
   packed_macro.mk ⟨"Indian Red", 205, 92, 92, 255⟩ "SG_INDIAN_RED_RGBA32" 0xCD5C5CFF,
   packed_macro.mk ⟨"Indigo", 75, 0, 130, 255⟩ "SG_INDIGO_RGBA32" 0x4B0082FF,
   packed_macro.mk ⟨"Ivory", 255, 255, 240, 255⟩ "SG_IVORY_RGBA32" 0xFFFFF0FF,
   packed_macro.mk ⟨"Khaki", 240, 230, 140, 255⟩ "SG_KHAKI_RGBA32" 0xF0E68CFF,
   packed_macro.mk ⟨"Lavender", 230, 230, 250, 255⟩ "SG_LAVENDER_RGBA32" 0xE6E6FAFF,
   packed_macro.mk ⟨"Lavender Blush", 255, 240, 245, 255⟩ "SG_LAVENDER_BLUSH_RGBA32" 0xFFF0F5FF,
   packed_macro.mk ⟨"Lawn Green", 124, 252, 0, 255⟩ "SG_LAWN_GREEN_RGBA32" 0x7CFC00FF,
   packed_macro.mk ⟨"Lemon Chiffon", 255, 250, 205, 255⟩ "SG_LEMON_CHIFFON_RGBA32" 0xFFFACDFF,
   packed_macro.mk ⟨"Light Blue", 173, 216, 230, 255⟩ "SG_LIGHT_BLUE_RGBA32" 0xADD8E6FF,
   packed_macro.mk ⟨"Light Coral", 240, 128, 128, 255⟩ "SG_LIGHT_CORAL_RGBA32" 0xF08080FF,
   packed_macro.mk ⟨"Light Cyan", 224, 255, 255, 255⟩ "SG_LIGHT_CYAN_RGBA32" 0xE0FFFFFF,
   packed_macro.mk ⟨"Light Goldenrod", 250, 250, 210, 255⟩ "SG_LIGHT_GOLDENROD_RGBA32" 0xFAFAD2FF,
   packed_macro.mk ⟨"Light Gray", 211, 211, 211, 255⟩ "SG_LIGHT_GRAY_RGBA32" 0xD3D3D3FF,
   packed_macro.mk ⟨"Light Green", 144, 238, 144, 255⟩ "SG_LIGHT_GREEN_RGBA32" 0x90EE90FF,
   packed_macro.mk ⟨"Light Pink", 255, 182, 193, 255⟩ "SG_LIGHT_PINK_RGBA32" 0xFFB6C1FF,
   packed_macro.mk ⟨"Light Salmon", 255, 160, 122, 255⟩ "SG_LIGHT_SALMON_RGBA32" 0xFFA07AFF,
   packed_macro.mk ⟨"Light Sea Green", 32, 178, 170, 255⟩ "SG_LIGHT_SEA_GREEN_RGBA32" 0x20B2AAFF,
   packed_macro.mk ⟨"Light Sky Blue", 135, 206, 250, 255⟩ "SG_LIGHT_SKY_BLUE_RGBA32" 0x87CEFAFF,
   packed_macro.mk ⟨"Light Slate Gray", 119, 136, 153, 255⟩ "SG_LIGHT_SLATE_GRAY_RGBA32" 0x778899FF,
   packed_macro.mk ⟨"Light Steel Blue", 176, 196, 222, 255⟩ "SG_LIGHT_STEEL_BLUE_RGBA32" 0xB0C4DEFF,
   packed_macro.mk ⟨"Light Yellow", 255, 255, 224, 255⟩ "SG_LIGHT_YELLOW_RGBA32" 0xFFFFE0FF,
   packed_macro.mk ⟨"Lime", 0, 255, 0, 255⟩ "SG_LIME_RGBA32" 0x00FF00FF,
   packed_macro.mk ⟨"Lime Green", 50, 205, 50, 255⟩ "SG_LIME_GREEN_RGBA32" 0x32CD32FF,
   packed_macro.mk ⟨"Linen", 250, 240, 230, 255⟩ "SG_LINEN_RGBA32" 0xFAF0E6FF,
   packed_macro.mk ⟨"Magenta", 255, 0, 255, 255⟩ "SG_MAGENTA_RGBA32" 0xFF00FFFF,
   packed_macro.mk ⟨"Maroon", 176, 48, 96, 255⟩ "SG_MAROON_RGBA32" 0xB03060FF,
   packed_macro.mk ⟨"Web Maroon", 128, 0, 0, 255⟩ "SG_WEB_MAROON_RGBA32" 0x800000FF,
   packed_macro.mk ⟨"Medium Aquamarine", 102, 205, 170, 255⟩ "SG_MEDIUM_AQUAMARINE_RGBA32" 0x66CDAAFF,
   packed_macro.mk ⟨"Medium Blue", 0, 0, 205, 255⟩ "SG_MEDIUM_BLUE_RGBA32" 0x0000CDFF,
   packed_macro.mk ⟨"Medium Orchid", 186, 85, 211, 255⟩ "SG_MEDIUM_ORCHID_RGBA32" 0xBA55D3FF,
   packed_macro.mk ⟨"Medium Purple", 147, 112, 219, 255⟩ "SG_MEDIUM_PURPLE_RGBA32" 0x9370DBFF,
   packed_macro.mk ⟨"Medium Sea Green", 60, 179, 113, 255⟩ "SG_MEDIUM_SEA_GREEN_RGBA32" 0x3CB371FF,
   packed_macro.mk ⟨"Medium Slate Blue", 123, 104, 238, 255⟩ "SG_MEDIUM_SLATE_BLUE_RGBA32" 0x7B68EEFF,
   packed_macro.mk ⟨"Medium Spring Green", 0, 250, 154, 255⟩ "SG_MEDIUM_SPRING_GREEN_RGBA32" 0x00FA9AFF,
   packed_macro.mk ⟨"Medium Turquoise", 72, 209, 204, 255⟩ "SG_MEDIUM_TURQUOISE_RGBA32" 0x48D1CCFF,
   packed_macro.mk ⟨"Medium Violet Red", 199, 21, 133, 255⟩ "SG_MEDIUM_VIOLET_RED_RGBA32" 0xC71585FF,
   packed_macro.mk ⟨"Midnight Blue", 25, 25, 112, 255⟩ "SG_MIDNIGHT_BLUE_RGBA32" 0x191970FF,
   packed_macro.mk ⟨"Mint Cream", 245, 255, 250, 255⟩ "SG_MINT_CREAM_RGBA32" 0xF5FFFAFF,
   packed_macro.mk ⟨"Misty Rose", 255, 228, 225, 255⟩ "SG_MISTY_ROSE_RGBA32" 0xFFE4E1FF,
   packed_macro.mk ⟨"Moccasin", 255, 228, 181, 255⟩ "SG_MOCCASIN_RGBA32" 0xFFE4B5FF,
   packed_macro.mk ⟨"Navajo White", 255, 222, 173, 255⟩ "SG_NAVAJO_WHITE_RGBA32" 0xFFDEADFF,
   packed_macro.mk ⟨"Navy Blue", 0, 0, 128, 255⟩ "SG_NAVY_BLUE_RGBA32" 0x000080FF,
   packed_macro.mk ⟨"Old Lace", 253, 245, 230, 255⟩ "SG_OLD_LACE_RGBA32" 0xFDF5E6FF,
   packed_macro.mk ⟨"Olive", 128, 128, 0, 255⟩ "SG_OLIVE_RGBA32" 0x808000FF,
   packed_macro.mk ⟨"Olive Drab", 107, 142, 35, 255⟩ "SG_OLIVE_DRAB_RGBA32" 0x6B8E23FF,
   packed_macro.mk ⟨"Orange", 255, 165, 0, 255⟩ "SG_ORANGE_RGBA32" 0xFFA500FF,
   packed_macro.mk ⟨"Orange Red", 255, 69, 0, 255⟩ "SG_ORANGE_RED_RGBA32" 0xFF4500FF,
   packed_macro.mk ⟨"Orchid", 218, 112, 214, 255⟩ "SG_ORCHID_RGBA32" 0xDA70D6FF,
   packed_macro.mk ⟨"Pale Goldenrod", 238, 232, 170, 255⟩ "SG_PALE_GOLDENROD_RGBA32" 0xEEE8AAFF,
   packed_macro.mk ⟨"Pale Green", 152, 251, 152, 255⟩ "SG_PALE_GREEN_RGBA32" 0x98FB98FF,
   packed_macro.mk ⟨"Pale Turquoise", 175, 238, 238, 255⟩ "SG_PALE_TURQUOISE_RGBA32" 0xAFEEEEFF,
   packed_macro.mk ⟨"Pale Violet Red", 219, 112, 147, 255⟩ "SG_PALE_VIOLET_RED_RGBA32" 0xDB7093FF,
   packed_macro.mk ⟨"Papaya Whip", 255, 239, 213, 255⟩ "SG_PAPAYA_WHIP_RGBA32" 0xFFEFD5FF,
   packed_macro.mk ⟨"Peach Puff", 255, 218, 185, 255⟩ "SG_PEACH_PUFF_RGBA32" 0xFFDAB9FF,
   packed_macro.mk ⟨"Peru", 205, 133, 63, 255⟩ "SG_PERU_RGBA32" 0xCD853FFF,
   packed_macro.mk ⟨"Pink", 255, 192, 203, 255⟩ "SG_PINK_RGBA32" 0xFFC0CBFF,
   packed_macro.mk ⟨"Plum", 221, 160, 221, 255⟩ "SG_PLUM_RGBA32" 0xDDA0DDFF,
   packed_macro.mk ⟨"Powder Blue", 176, 224, 230, 255⟩ "SG_POWDER_BLUE_RGBA32" 0xB0E0E6FF,
   packed_macro.mk ⟨"Purple", 160, 32, 240, 255⟩ "SG_PURPLE_RGBA32" 0xA020F0FF,
   packed_macro.mk ⟨"Web Purple", 128, 0, 128, 255⟩ "SG_WEB_PURPLE_RGBA32" 0x800080FF,
   packed_macro.mk ⟨"Rebecca Purple", 102, 51, 153, 255⟩ "SG_REBECCA_PURPLE_RGBA32" 0x663399FF,
   packed_macro.mk ⟨"Red", 255, 0, 0, 255⟩ "SG_RED_RGBA32" 0xFF0000FF,
   packed_macro.mk ⟨"Rosy Brown", 188, 143, 143, 255⟩ "SG_ROSY_BROWN_RGBA32" 0xBC8F8FFF,
   packed_macro.mk ⟨"Royal Blue", 65, 105, 225, 255⟩ "SG_ROYAL_BLUE_RGBA32" 0x4169E1FF,
   packed_macro.mk ⟨"Saddle Brown", 139, 69, 19, 255⟩ "SG_SADDLE_BROWN_RGBA32" 0x8B4513FF,
   packed_macro.mk ⟨"Salmon", 250, 128, 114, 255⟩ "SG_SALMON_RGBA32" 0xFA8072FF,
   packed_macro.mk ⟨"Sandy Brown", 244, 164, 96, 255⟩ "SG_SANDY_BROWN_RGBA32" 0xF4A460FF,
   packed_macro.mk ⟨"Sea Green", 46, 139, 87, 255⟩ "SG_SEA_GREEN_RGBA32" 0x2E8B57FF,
   packed_macro.mk ⟨"Seashell", 255, 245, 238, 255⟩ "SG_SEASHELL_RGBA32" 0xFFF5EEFF,
   packed_macro.mk ⟨"Sienna", 160, 82, 45, 255⟩ "SG_SIENNA_RGBA32" 0xA0522DFF,
   packed_macro.mk ⟨"Silver", 192, 192, 192, 255⟩ "SG_SILVER_RGBA32" 0xC0C0C0FF,
   packed_macro.mk ⟨"Sky Blue", 135, 206, 235, 255⟩ "SG_SKY_BLUE_RGBA32" 0x87CEEBFF,
   packed_macro.mk ⟨"Slate Blue", 106, 90, 205, 255⟩ "SG_SLATE_BLUE_RGBA32" 0x6A5ACDFF,
   packed_macro.mk ⟨"Slate Gray", 112, 128, 144, 255⟩ "SG_SLATE_GRAY_RGBA32" 0x708090FF,
   packed_macro.mk ⟨"Snow", 255, 250, 250, 255⟩ "SG_SNOW_RGBA32" 0xFFFAFAFF,
   packed_macro.mk ⟨"Spring Green", 0, 255, 127, 255⟩ "SG_SPRING_GREEN_RGBA32" 0x00FF7FFF,
   packed_macro.mk ⟨"Steel Blue", 70, 130, 180, 255⟩ "SG_STEEL_BLUE_RGBA32" 0x4682B4FF,
   packed_macro.mk ⟨"Tan", 210, 180, 140, 255⟩ "SG_TAN_RGBA32" 0xD2B48CFF,
   packed_macro.mk ⟨"Teal", 0, 128, 128, 255⟩ "SG_TEAL_RGBA32" 0x008080FF,
   packed_macro.mk ⟨"Thistle", 216, 191, 216, 255⟩ "SG_THISTLE_RGBA32" 0xD8BFD8FF,
   packed_macro.mk ⟨"Tomato", 255, 99, 71, 255⟩ "SG_TOMATO_RGBA32" 0xFF6347FF,
   packed_macro.mk ⟨"Transparent", 0, 0, 0, 0⟩ "SG_TRANSPARENT_RGBA32" 0x00000000,
   packed_macro.mk ⟨"Turquoise", 64, 224, 208, 255⟩ "SG_TURQUOISE_RGBA32" 0x40E0D0FF,
   packed_macro.mk ⟨"Violet", 238, 130, 238, 255⟩ "SG_VIOLET_RGBA32" 0xEE82EEFF,
   packed_macro.mk ⟨"Wheat", 245, 222, 179, 255⟩ "SG_WHEAT_RGBA32" 0xF5DEB3FF,
   packed_macro.mk ⟨"White", 255, 255, 255, 255⟩ "SG_WHITE_RGBA32" 0xFFFFFFFF,
   packed_macro.mk ⟨"White Smoke", 245, 245, 245, 255⟩ "SG_WHITE_SMOKE_RGBA32" 0xF5F5F5FF,
   packed_macro.mk ⟨"Yellow", 255, 255, 0, 255⟩ "SG_YELLOW_RGBA32" 0xFFFF00FF,
   packed_macro.mk ⟨"Yellow Green", 154, 205, 50, 255⟩ "SG_YELLOW_GREEN_RGBA32" 0x9ACD32FF]

/-- Expansion of the float macro `name`: the brace list of its definition. -/
def float_macro_value (name : String) : Option sg_color :=
  (float_macros.find? (fun m => m.name == name)).map (fun m => m.value)

/-- Expansion of the packed macro `name`: the 32-bit literal of its definition. -/
def packed_macro_value (name : String) : Option Nat :=
  (packed_macros.find? (fun m => m.name == name)).map (fun m => m.value)

/-- The value of the typed constant `name`: its initialiser is a float macro,
which the preprocessor expands. -/
def typed_constant_value (name : String) : Option sg_color :=
  (typed_constants.find? (fun c => c.name == name)).bind (fun c => float_macro_value c.init)

/-- One colour of the palette in its three forms: the float macro, the typed
constant and the packed macro that stand at the same position of their runs. -/
structure palette_row where
  macro_f : float_macro
  const_t : typed_constant
  macro_p : packed_macro

/-- The palette read row by row: the n-th float macro with the n-th typed
constant and the n-th packed macro. -/
def palette_rows : List palette_row :=
  List.zipWith3 palette_row.mk float_macros typed_constants packed_macros

/-- The upper-case form of an identifier, character by character. -/
def upper_case (s : String) : String := String.mk (s.data.map Char.toUpper)

/-- The lower-case form of an identifier, character by character. -/
def lower_case (s : String) : String := String.mk (s.data.map Char.toLower)

/-- The identifier stem of a comment title: upper case with every blank (code 32)
replaced by an underscore (code 95), so that "Alice Blue" gives "ALICE_BLUE". -/
def title_stem (title : String) : String :=
  String.mk (title.data.map (fun c => if c = Char.ofNat 32 then Char.ofNat 95 else c.toUpper))

/-- An identifier read as a number in base 2^21, one digit per character: a key
that tells two identifiers apart. -/
def name_key (s : String) : Nat :=
  s.data.foldl (fun acc c => acc * 2 ^ 21 + c.toNat) 0

/-- A color whose four channels all lie in `[0, 1]`. -/
def unit_range (c : sg_color) : Prop :=
  (0 ≤ c.r ∧ c.r ≤ 1) ∧ (0 ≤ c.g ∧ c.g ≤ 1) ∧ (0 ≤ c.b ∧ c.b ≤ 1) ∧ (0 ≤ c.a ∧ c.a ≤ 1)

instance (c : sg_color) : Decidable (unit_range c) := by
  unfold unit_range
  infer_instance

/-! ## Calls on a memory

The three functions that take `const sg_color*` arguments, statement by
statement on an explicit memory: `result` is the address of the local
`sg_color result;` of the body, every `ptr->ch` is a read of the memory at `ptr`,
and every `result.ch = e;` is a write of one channel at `result`. -/

/-- The memory a call runs in: the `sg_color` object at each address.  Address 0
is the null pointer. -/
def memory : Type := Nat → sg_color

/-- The assignment `p->r = v`. -/
def store_r (m : memory) (p : Nat) (v : ℚ) : memory :=
  fun q => if q = p then { m q with r := v } else m q

/-- The assignment `p->g = v`. -/
def store_g (m : memory) (p : Nat) (v : ℚ) : memory :=
  fun q => if q = p then { m q with g := v } else m q

/-- The assignment `p->b = v`. -/
def store_b (m : memory) (p : Nat) (v : ℚ) : memory :=
  fun q => if q = p then { m q with b := v } else m q

/-- The assignment `p->a = v`. -/
def store_a (m : memory) (p : Nat) (v : ℚ) : memory :=
  fun q => if q = p then { m q with a := v } else m q

/-- The body of `sg_color_lerp` on a memory: the two assertions, the clamp of
`amount`, the four channel assignments to `result` in source order, and the
return of `result` by value together with the memory after the call. -/
def sg_color_lerp_call (m : memory) (result color_a color_b : Nat) (amount : ℚ) :
    Option (sg_color × memory) :=
  if color_a = 0 then none
  else if color_b = 0 then none
  else
    let amount := _sg_color_clamp amount 0 1
    let m1 := store_r m result (_sg_color_lerp (m color_a).r (m color_b).r amount)
    let m2 := store_g m1 result (_sg_color_lerp (m1 color_a).g (m1 color_b).g amount)
    let m3 := store_b m2 result (_sg_color_lerp (m2 color_a).b (m2 color_b).b amount)
    let m4 := store_a m3 result (_sg_color_lerp (m3 color_a).a (m3 color_b).a amount)
    some (m4 result, m4)

/-- The body of `sg_color_lerp_precise` on a memory, as `sg_color_lerp_call`. -/
def sg_color_lerp_precise_call (m : memory) (result color_a color_b : Nat) (amount : ℚ) :
    Option (sg_color × memory) :=
  if color_a = 0 then none
  else if color_b = 0 then none
  else
    let amount := _sg_color_clamp amount 0 1
    let m1 := store_r m result (_sg_color_lerp_precise (m color_a).r (m color_b).r amount)
    let m2 := store_g m1 result (_sg_color_lerp_precise (m1 color_a).g (m1 color_b).g amount)
    let m3 := store_b m2 result (_sg_color_lerp_precise (m2 color_a).b (m2 color_b).b amount)
    let m4 := store_a m3 result (_sg_color_lerp_precise (m3 color_a).a (m3 color_b).a amount)
    some (m4 result, m4)

/-- The body of `sg_color_multiply` on a memory: the assertion, the four channel
assignments to `result`, and the return of `result` by value. -/
def sg_color_multiply_call (m : memory) (result color : Nat) (scale : ℚ) :
    Option (sg_color × memory) :=
  if color = 0 then none
  else
    let m1 := store_r m result ((m color).r * scale)
    let m2 := store_g m1 result ((m1 color).g * scale)
    let m3 := store_b m2 result ((m2 color).b * scale)
    let m4 := store_a m3 result ((m3 color).a * scale)
    some (m4 result, m4)

/-- The body of `sg_make_color_4b` on a memory: the four channel assignments to
`result` and the return of `result` by value. -/
def sg_make_color_4b_call (m : memory) (result r g b a : Nat) : sg_color × memory :=
  let m1 := store_r m result ((uint8_t r : ℚ) / 255)
  let m2 := store_g m1 result ((uint8_t g : ℚ) / 255)
  let m3 := store_b m2 result ((uint8_t b : ℚ) / 255)
  let m4 := store_a m3 result ((uint8_t a : ℚ) / 255)
  (m4 result, m4)

/-- The body of `sg_make_color_1i` on a memory: the call of `sg_make_color_4b`
on the four extracted bytes. -/
def sg_make_color_1i_call (m : memory) (result rgba : Nat) : sg_color × memory :=
  let rgba := uint32_t rgba
  sg_make_color_4b_call m result
    (uint8_t (rgba >>> 24))
    (uint8_t (rgba >>> 16))
    (uint8_t (rgba >>> 8))
    (uint8_t (rgba >>> 0))

/-- A memory for worked examples: red at address 1 and blue everywhere else. -/
def red_blue_memory : memory :=
  fun q => if q = 1 then ⟨1, 0, 0, 1⟩ else ⟨0, 0, 1, 1⟩

/-! ## The binary32 reading

The same functions read with IEEE-754 binary32 arithmetic, for the properties
that depend on rounding, overflow or NaN.

* a `float` is a `binary32`: NaN, one of the two infinities, or a finite value
  given by its rational.  The rational of a float is on the binary32 grid
  (`representable`: 24 significant bits, exponents from -126 to 127, subnormals
  in steps of `2^-149`); the theorems assume this of their arguments (`finite`,
  `is_number`) and every operation returns such a value;
* every arithmetic operation computes the exact result and rounds it to the
  nearest binary32 value, ties to even, overflowing to an infinity (`round32`);
  each operation of the source rounds on its own (no wider intermediate
  precision and no fused multiply-add);
* the two zeros are one value: they compare equal in C, and this header has no
  operation whose numeric result depends on the sign of a zero;
* a comparison with NaN is false. -/

/-- A binary32 value: NaN, an infinity with its sign, or a finite value. -/
inductive binary32 where
  | nan : binary32
  | inf (negative : Bool) : binary32
  | fin (q : ℚ) : binary32
  deriving DecidableEq

namespace binary32

/-- Rounding of a rational to the nearest integer, ties to the even one. -/
def rne (k : ℚ) : ℤ :=
  if k - ⌊k⌋ < 1 / 2 then ⌊k⌋
  else if 1 / 2 < k - ⌊k⌋ then ⌊k⌋ + 1
  else if ⌊k⌋ % 2 = 0 then ⌊k⌋
  else ⌊k⌋ + 1

/-- The binary logarithm of a natural number, rounded down, computed by halving
(`fuel` bounds the number of halvings). -/
def log2_fuel : Nat → Nat → Nat
  | 0, _ => 0
  | fuel + 1, n => if n < 2 then 0 else log2_fuel fuel (n / 2) + 1

/-- The binary logarithm of a natural number, rounded down (0 at 0). -/
def nat_log2 (n : Nat) : Nat := log2_fuel n n

/-- The binary exponent of a nonzero rational: the `e` with `2^e ≤ |x| < 2^(e+1)`. -/
def ilog2 (x : ℚ) : ℤ :=
  if (2 : ℚ) ^ ((nat_log2 x.num.natAbs : ℤ) - (nat_log2 x.den : ℤ)) ≤ |x| then
    (nat_log2 x.num.natAbs : ℤ) - (nat_log2 x.den : ℤ)
  else (nat_log2 x.num.natAbs : ℤ) - (nat_log2 x.den : ℤ) - 1

/-- The exponent of the unit in the last place at `x`: 24 significant bits, and
the subnormal spacing `2^-149` below `2^-126`. -/
def quantum_exp (x : ℚ) : ℤ := max (ilog2 x) (-126) - 23

/-- The multiple of the unit in the last place nearest to `x`, ties to even. -/
def nearest (x : ℚ) : ℚ := (rne (x / 2 ^ quantum_exp x) : ℚ) * 2 ^ quantum_exp x

/-- Rounding of an exact result to binary32: to nearest, ties to even, an
infinity from `2^128` on. -/
def round32 (x : ℚ) : binary32 :=
  if (2 : ℚ) ^ (128 : ℤ) ≤ |nearest x| then inf (decide (x < 0))
  else fin (nearest x)

/-- A rational that is a binary32 value. -/
def representable (q : ℚ) : Prop := round32 q = fin q

instance (q : ℚ) : Decidable (representable q) := by
  unfold representable
  infer_instance

/-- A finite binary32 value: neither NaN nor an infinity, and on the grid. -/
def finite : binary32 → Prop
  | fin q => representable q
  | _ => False

instance (x : binary32) : Decidable (finite x) := by
  cases x <;> unfold finite <;> infer_instance

/-- A binary32 value other than NaN: an infinity or a finite value. -/
def is_number : binary32 → Prop
  | nan => False
  | inf _ => True
  | fin q => representable q

instance (x : binary32) : Decidable (is_number x) := by
  cases x <;> unfold is_number <;> infer_instance

/-- The rational value of a finite binary32 value (0 for the others). -/
def to_rat : binary32 → ℚ
  | fin q => q
  | _ => 0

/-- Negation. -/
def neg : binary32 → binary32
  | nan => nan
  | inf s => inf (!s)
  | fin x => fin (-x)

/-- Addition. -/
def add : binary32 → binary32 → binary32
  | nan, _ => nan
  | _, nan => nan
  | inf s, inf t => if s = t then inf s else nan
  | inf s, fin _ => inf s
  | fin _, inf t => inf t
  | fin x, fin y => round32 (x + y)

/-- Subtraction. -/
def sub (x y : binary32) : binary32 := add x (neg y)

/-- Multiplication. -/
def mul : binary32 → binary32 → binary32
  | nan, _ => nan
  | _, nan => nan
  | inf s, inf t => inf (xor s t)
  | inf s, fin y => if y = 0 then nan else inf (xor s (decide (y < 0)))
  | fin x, inf t => if x = 0 then nan else inf (xor (decide (x < 0)) t)
  | fin x, fin y => round32 (x * y)

/-- Division. -/
def div : binary32 → binary32 → binary32
  | nan, _ => nan
  | _, nan => nan
  | inf _, inf _ => nan
  | inf s, fin y => inf (xor s (decide (y < 0)))
  | fin _, inf _ => fin 0
  | fin x, fin y =>
    if y = 0 then (if x = 0 then nan else inf (decide (x < 0)))
    else round32 (x / y)

/-- The comparison `x < y` of C: false when either side is NaN. -/
def lt : binary32 → binary32 → Bool
  | nan, _ => false
  | _, nan => false
  | inf s, inf t => s && !t
  | inf s, fin _ => s
  | fin _, inf t => !t
  | fin x, fin y => decide (x < y)

/-- The comparison `x <= y` of C: false when either side is NaN. -/
def le : binary32 → binary32 → Bool
  | nan, _ => false
  | _, nan => false
  | inf s, inf t => s || !t
  | inf s, fin _ => s
  | fin _, inf t => !t
  | fin x, fin y => decide (x ≤ y)

/-- Conversion of an unsigned integer to `float`. -/
def of_nat (n : Nat) : binary32 := round32 (n : ℚ)

/-- A finite binary32 value in the closed unit interval: `0 <= x && x <= 1`. -/
def in_unit_range (x : binary32) : Prop :=
  x.finite ∧ (fin 0).le x = true ∧ x.le (fin 1) = true

instance (x : binary32) : Decidable (in_unit_range x) := by
  unfold in_unit_range
  infer_instance

end binary32

namespace F32

/-- Modelled from the spec: the `sg_color` type of sokol_gfx.h, four binary32
channels. -/
structure sg_color where
  r : binary32
  g : binary32
  b : binary32
  a : binary32
  deriving DecidableEq

/-- The helper `_sg_color_clamp(v, low, high)`:
`if (v < low) return low; else if (v > high) return high; return v;` -/
def _sg_color_clamp (v low high : binary32) : binary32 :=
  if v.lt low then low
  else if high.lt v then high
  else v

/-- The helper `_sg_color_lerp(a, b, amount)`: `a + (b - a) * amount`. -/
def _sg_color_lerp (a b amount : binary32) : binary32 :=
  a.add ((b.sub a).mul amount)

/-- The helper `_sg_color_lerp_precise(a, b, amount)`:
`((1.0f - amount) * a) + (b * amount)`. -/
def _sg_color_lerp_precise (a b amount : binary32) : binary32 :=
  (((binary32.fin 1).sub amount).mul a).add (b.mul amount)

/-- The constructor `sg_make_color_4b(r, g, b, a)`: each `uint8_t` argument is
converted to `float` and divided by `255.0f`. -/
def sg_make_color_4b (r g b a : Nat) : sg_color :=
  { r := (binary32.of_nat (uint8_t r)).div (binary32.fin 255)
    g := (binary32.of_nat (uint8_t g)).div (binary32.fin 255)
    b := (binary32.of_nat (uint8_t b)).div (binary32.fin 255)
    a := (binary32.of_nat (uint8_t a)).div (binary32.fin 255) }

/-- The constructor `sg_make_color_1i(rgba)`. -/
def sg_make_color_1i (rgba : Nat) : sg_color :=
  let rgba := uint32_t rgba
  sg_make_color_4b
    (uint8_t (rgba >>> 24))
    (uint8_t (rgba >>> 16))
    (uint8_t (rgba >>> 8))
    (uint8_t (rgba >>> 0))

/-- The function `sg_color_lerp(color_a, color_b, amount)`. -/
def sg_color_lerp (color_a color_b : Option sg_color) (amount : binary32) :
    Option sg_color :=
  match color_a, color_b with
  | some ca, some cb =>
    let amount := _sg_color_clamp amount (binary32.fin 0) (binary32.fin 1)
    some
      { r := _sg_color_lerp ca.r cb.r amount
        g := _sg_color_lerp ca.g cb.g amount
        b := _sg_color_lerp ca.b cb.b amount
        a := _sg_color_lerp ca.a cb.a amount }
  | _, _ => none

/-- The function `sg_color_lerp_precise(color_a, color_b, amount)`. -/
def sg_color_lerp_precise (color_a color_b : Option sg_color) (amount : binary32) :
    Option sg_color :=
  match color_a, color_b with
  | some ca, some cb =>
    let amount := _sg_color_clamp amount (binary32.fin 0) (binary32.fin 1)
    some
      { r := _sg_color_lerp_precise ca.r cb.r amount
        g := _sg_color_lerp_precise ca.g cb.g amount
        b := _sg_color_lerp_precise ca.b cb.b amount
        a := _sg_color_lerp_precise ca.a cb.a amount }
  | _, _ => none

/-- The function `sg_color_multiply(color, scale)`. -/
def sg_color_multiply (color : Option sg_color) (scale : binary32) : Option sg_color :=
  match color with
  | some c =>
    some
      { r := c.r.mul scale
        g := c.g.mul scale
        b := c.b.mul scale
        a := c.a.mul scale }
  | none => none

/-- A color whose four channels are finite binary32 values. -/
def finite_color (c : sg_color) : Prop :=
  c.r.finite ∧ c.g.finite ∧ c.b.finite ∧ c.a.finite

instance (c : sg_color) : Decidable (finite_color c) := by
  unfold finite_color
  infer_instance

/-- A color whose four channels are finite and lie in the closed unit interval. -/
def unit_range (c : sg_color) : Prop :=
  c.r.in_unit_range ∧ c.g.in_unit_range ∧ c.b.in_unit_range ∧ c.a.in_unit_range

instance (c : sg_color) : Decidable (unit_range c) := by
  unfold unit_range
  infer_instance

/-- The exact channel differences `b - a` of two colors with finite channels. -/
def differences (a b : sg_color) : List ℚ :=
  [b.r.to_rat - a.r.to_rat, b.g.to_rat - a.g.to_rat,
   b.b.to_rat - a.b.to_rat, b.a.to_rat - a.a.to_rat]

/-- The exact channel values of a color with finite channels. -/
def channels (c : sg_color) : List ℚ :=
  [c.r.to_rat, c.g.to_rat, c.b.to_rat, c.a.to_rat]

/-- Modelled from the spec: the per-channel midpoint `(a + b) / 2` of two colors
with finite channels, as the binary32 value nearest to it. -/
def midpoint (a b : sg_color) : sg_color :=
  { r := binary32.round32 ((a.r.to_rat + b.r.to_rat) / 2)
    g := binary32.round32 ((a.g.to_rat + b.g.to_rat) / 2)
    b := binary32.round32 ((a.b.to_rat + b.b.to_rat) / 2)
    a := binary32.round32 ((a.a.to_rat + b.a.to_rat) / 2) }

/-- Modelled from the spec: the error of a computed color against the intended
one, the largest distance between corresponding channels; `none` when a channel
of either color is not finite. -/
def endpoint_error (computed target : sg_color) : Option ℚ :=
  if finite_color computed ∧ finite_color target then
    some (max (max |computed.r.to_rat - target.r.to_rat| |computed.g.to_rat - target.g.to_rat|)
      (max |computed.b.to_rat - target.b.to_rat| |computed.a.to_rat - target.a.to_rat|))
  else none

/-- Modelled from the spec: the comparison "not larger than" of two errors, an
undefined error counting as larger than every defined one. -/
def error_le : Option ℚ → Option ℚ → Prop
  | some x, some y => x ≤ y
  | some _, none => True
  | none, _ => False

/-- Modelled from the spec: two channels are the same up to a tolerance when
both are finite and their distance is at most the tolerance. -/
def close (x y : binary32) (tolerance : ℚ) : Prop :=
  match x, y with
  | binary32.fin p, binary32.fin q => |p - q| ≤ tolerance
  | _, _ => False

instance (x y : binary32) (tolerance : ℚ) : Decidable (close x y tolerance) := by
  unfold close
  split <;> infer_instance

/-- The float constant of a float macro: each decimal literal with the `f`
suffix is the binary32 value nearest to it. -/
def literal (c : SokolColor.sg_color) : sg_color :=
  { r := binary32.round32 c.r
    g := binary32.round32 c.g
    b := binary32.round32 c.b
    a := binary32.round32 c.a }

/-- The binary32 constant of a palette row and `sg_make_color_1i` of the packed
word of the row are the same color up to `2^-24` on every channel. -/
def row_close (row : palette_row) : Prop :=
  close (literal row.macro_f.value).r (sg_make_color_1i row.macro_p.value).r (1 / 2 ^ 24) ∧
  close (literal row.macro_f.value).g (sg_make_color_1i row.macro_p.value).g (1 / 2 ^ 24) ∧
  close (literal row.macro_f.value).b (sg_make_color_1i row.macro_p.value).b (1 / 2 ^ 24) ∧
  close (literal row.macro_f.value).a (sg_make_color_1i row.macro_p.value).a (1 / 2 ^ 24)

instance (row : palette_row) : Decidable (row_close row) := by
  unfold row_close
  infer_instance

end F32

/-! ## Helper lemmas -/

/-- On bytes the `uint8_t` conversion changes nothing. -/
theorem uint8_t_of_lt {n : Nat} (h : n < 256) : uint8_t n = n := by
  unfold uint8_t
  exact Nat.mod_eq_of_lt (by norm_num; exact h)

/-- The clamp of the source to `[0, 1]` is the usual `max 0 (min 1 v)`. -/
theorem clamp_unit_eq_max_min (v : ℚ) : _sg_color_clamp v 0 1 = max 0 (min 1 v) := by
  unfold _sg_color_clamp
  split_ifs with h0 h1
  · rw [min_eq_right (by linarith), max_eq_left (by linarith)]
  · rw [min_eq_left (by linarith), max_eq_right (by norm_num)]
  · rw [min_eq_right (by linarith), max_eq_right (by linarith)]

/-- Clamping to `[0, 1]` twice is clamping once. -/
theorem clamp_unit_idem (v : ℚ) :
    _sg_color_clamp (_sg_color_clamp v 0 1) 0 1 = _sg_color_clamp v 0 1 := by
  unfold _sg_color_clamp
  split_ifs <;> first | rfl | linarith

/-- The amount `0.0f` is left alone by the clamp to `[0, 1]`. -/
theorem clamp_unit_zero : _sg_color_clamp 0 0 1 = 0 := by
  norm_num [_sg_color_clamp]

/-- The amount `1.0f` is left alone by the clamp to `[0, 1]`. -/
theorem clamp_unit_one : _sg_color_clamp 1 0 1 = 1 := by
  norm_num [_sg_color_clamp]

/-- The shift-and-truncate byte extraction of the source, `(uint8_t)(x >> k)`, is
the base-256 digit `x / 2^k % 256`. -/
theorem uint8_t_shiftRight (x k : Nat) : uint8_t (x >>> k) = x / 2 ^ k % 256 := by
  unfold uint8_t
  rw [Nat.shiftRight_eq_div_pow]
  norm_num

/-- The clamped amount lies in `[0, 1]`. -/
theorem clamp_unit_mem (v : ℚ) : 0 ≤ _sg_color_clamp v 0 1 ∧ _sg_color_clamp v 0 1 ≤ 1 := by
  unfold _sg_color_clamp
  split_ifs with h0 h1
  · exact ⟨le_refl 0, zero_le_one⟩
  · exact ⟨zero_le_one, le_refl 1⟩
  · exact ⟨not_lt.mp h0, not_lt.mp h1⟩

/-- A value below `2^i` is or-ed into a word shifted left by `i` by adding it. -/
theorem shiftLeft_or_eq_add (x : Nat) {y i : Nat} (h : y < 2 ^ i) :
    (x <<< i) ||| y = x * 2 ^ i + y := by
  rw [Nat.shiftLeft_eq, Nat.mul_comm, ← Nat.mul_add_lt_is_or h]

/-- Packing four bytes with shifts and ors is the base-256 sum. -/
theorem pack_eq_sum {r g b a : Nat} (hg : g < 256) (hb : b < 256) (ha : a < 256) :
    (r <<< 24) ||| (g <<< 16) ||| (b <<< 8) ||| a
      = r * 2 ^ 24 + g * 2 ^ 16 + b * 2 ^ 8 + a := by
  have hb8 : b <<< 8 < 2 ^ 16 := by
    rw [Nat.shiftLeft_eq]; omega
  have hg16 : g <<< 16 < 2 ^ 24 := by
    rw [Nat.shiftLeft_eq]; omega
  have s1 : (r <<< 24) ||| (g <<< 16) = (r * 2 ^ 8 + g) <<< 16 := by
    rw [shiftLeft_or_eq_add r hg16, Nat.shiftLeft_eq, Nat.shiftLeft_eq]; ring
  have s2 : (r <<< 24) ||| (g <<< 16) ||| (b <<< 8) = (r * 2 ^ 16 + g * 2 ^ 8 + b) <<< 8 := by
    rw [s1, shiftLeft_or_eq_add _ hb8, Nat.shiftLeft_eq, Nat.shiftLeft_eq]; ring
  rw [s2, shiftLeft_or_eq_add _ (show a < 2 ^ 8 by omega)]; ring

/-- The byte constructor tells bytes apart channel by channel. -/
theorem byte_channel_inj {r s : Nat} (hr : r < 256) (hs : s < 256)
    (h : (uint8_t r : ℚ) / 255 = (uint8_t s : ℚ) / 255) : r = s := by
  rw [uint8_t_of_lt hr, uint8_t_of_lt hs] at h
  have h255 : (255 : ℚ) ≠ 0 := by norm_num
  have := (div_left_inj' h255).mp h
  exact_mod_cast this

/-- The byte constructor is injective on bytes. -/
theorem sg_make_color_4b_inj {r g b a r2 g2 b2 a2 : Nat}
    (hr : r < 256) (hg : g < 256) (hb : b < 256) (ha : a < 256)
    (hr2 : r2 < 256) (hg2 : g2 < 256) (hb2 : b2 < 256) (ha2 : a2 < 256)
    (h : sg_make_color_4b r g b a = sg_make_color_4b r2 g2 b2 a2) :
    r = r2 ∧ g = g2 ∧ b = b2 ∧ a = a2 := by
  simp only [sg_make_color_4b, sg_color.mk.injEq] at h
  exact ⟨byte_channel_inj hr hr2 h.1, byte_channel_inj hg hg2 h.2.1,
    byte_channel_inj hb hb2 h.2.2.1, byte_channel_inj ha ha2 h.2.2.2⟩

/-- On a 32-bit word the packed constructor is the byte constructor on the four
base-256 digits. -/
theorem sg_make_color_1i_digits {x : Nat} (hx : x < 2 ^ 32) :
    sg_make_color_1i x
      = sg_make_color_4b (x / 2 ^ 24 % 256) (x / 2 ^ 16 % 256) (x / 2 ^ 8 % 256) (x % 256) := by
  have h32 : uint32_t x = x := Nat.mod_eq_of_lt hx
  simp only [sg_make_color_1i, h32, uint8_t_shiftRight, pow_zero, Nat.div_one]

/-- With equal endpoints `_sg_color_lerp_precise` returns the endpoint. -/
theorem lerp_precise_channel_self (x s : ℚ) : _sg_color_lerp_precise x x s = x := by
  unfold _sg_color_lerp_precise
  ring

/-- An amount of `[0, 1]` is its own clamp. -/
theorem clamp_unit_of_mem {t : ℚ} (h0 : 0 ≤ t) (h1 : t ≤ 1) : _sg_color_clamp t 0 1 = t := by
  unfold _sg_color_clamp
  rw [if_neg (not_lt.mpr h0), if_neg (not_lt.mpr h1)]

/-- The clamp to `[0, 1]` is monotone. -/
theorem clamp_unit_mono {s t : ℚ} (h : s ≤ t) : _sg_color_clamp s 0 1 ≤ _sg_color_clamp t 0 1 := by
  rw [clamp_unit_eq_max_min, clamp_unit_eq_max_min]
  exact max_le_max (le_refl 0) (min_le_min (le_refl 1) h)

/-- A channel of `_sg_color_lerp` is monotone in the amount in the direction of
the second endpoint, and for an amount of `[0, 1]` lies between the endpoints. -/
theorem lerp_channel_between {x y s u : ℚ} (hs0 : 0 ≤ s) (hsu : s ≤ u) (hu1 : u ≤ 1) :
    (x ≤ y → _sg_color_lerp x y s ≤ _sg_color_lerp x y u) ∧
    (y ≤ x → _sg_color_lerp x y u ≤ _sg_color_lerp x y s) ∧
    min x y ≤ _sg_color_lerp x y s ∧ _sg_color_lerp x y s ≤ max x y := by
  unfold _sg_color_lerp
  have hs1 : s ≤ 1 := le_trans hsu hu1
  refine ⟨?_, ?_, ?_, ?_⟩
  · intro h
    nlinarith [mul_nonneg (sub_nonneg.mpr h) (sub_nonneg.mpr hsu)]
  · intro h
    nlinarith [mul_nonneg (sub_nonneg.mpr h) (sub_nonneg.mpr hsu)]
  · rcases le_total x y with h | h
    · rw [min_eq_left h]
      nlinarith [mul_nonneg (sub_nonneg.mpr h) hs0]
    · rw [min_eq_right h]
      nlinarith [mul_nonneg (sub_nonneg.mpr h) (sub_nonneg.mpr hs1)]
  · rcases le_total x y with h | h
    · rw [max_eq_right h]
      nlinarith [mul_nonneg (sub_nonneg.mpr h) (sub_nonneg.mpr hs1)]
    · rw [max_eq_left h]
      nlinarith [mul_nonneg (sub_nonneg.mpr h) hs0]

/-! ## Rounding to binary32 -/

namespace binary32

/-- With enough fuel the halving loop computes the binary logarithm. -/
theorem log2_fuel_eq (fuel : Nat) : ∀ n : Nat, n ≤ fuel → log2_fuel fuel n = Nat.log 2 n := by
  induction fuel with
  | zero =>
    intro n hn
    have : n = 0 := by omega
    subst this
    simp [log2_fuel]
  | succ k ih =>
    intro n hn
    by_cases h : n < 2
    · have e : log2_fuel (k + 1) n = 0 := by
        simp only [log2_fuel, if_pos h]
      rw [e, Nat.log_of_lt h]
    · have e : log2_fuel (k + 1) n = log2_fuel k (n / 2) + 1 := by
        simp only [log2_fuel, if_neg h]
      have h2 : 2 ≤ n := by omega
      rw [e, ih (n / 2) (by omega), Nat.log_of_one_lt_of_le (by norm_num) h2]

/-- The computed binary logarithm is the binary logarithm of Mathlib. -/
theorem nat_log2_eq (n : Nat) : nat_log2 n = Nat.log 2 n :=
  log2_fuel_eq n n le_rfl

/-- A nonzero number is at least two to its binary logarithm. -/
theorem nat_log2_le {n : Nat} (h : n ≠ 0) : 2 ^ nat_log2 n ≤ n := by
  rw [nat_log2_eq]
  exact Nat.pow_log_le_self 2 h

/-- A number is below two to its binary logarithm plus one. -/
theorem lt_nat_log2 (n : Nat) : n < 2 ^ (nat_log2 n + 1) := by
  rw [nat_log2_eq]
  exact Nat.lt_pow_succ_log_self (by norm_num) n

/-- The binary exponent e of a nonzero rational x satisfies `2^e ≤ |x| < 2^(e+1)`. -/
theorem ilog2_spec {x : ℚ} (hx : x ≠ 0) :
    (2 : ℚ) ^ ilog2 x ≤ |x| ∧ |x| < (2 : ℚ) ^ (ilog2 x + 1) := by
  have hn : x.num.natAbs ≠ 0 := by
    simpa using hx
  have hd : x.den ≠ 0 := x.den_nz
  have habs : |x| = (x.num.natAbs : ℚ) / (x.den : ℚ) := by
    have h1 : x = (x.num : ℚ) / (x.den : ℚ) := (Rat.num_div_den x).symm
    have h2 : (0 : ℚ) < (x.den : ℚ) := by exact_mod_cast x.den_pos
    conv_lhs => rw [h1]
    rw [abs_div, abs_of_pos h2, Nat.cast_natAbs, Int.cast_abs]
  have hdpos : (0 : ℚ) < (x.den : ℚ) := by exact_mod_cast x.den_pos
  have a1 : ((2 : ℚ) ^ nat_log2 x.num.natAbs) ≤ (x.num.natAbs : ℚ) := by
    exact_mod_cast nat_log2_le hn
  have a2 : (x.num.natAbs : ℚ) < (2 : ℚ) ^ (nat_log2 x.num.natAbs + 1) := by
    exact_mod_cast lt_nat_log2 x.num.natAbs
  have b1 : ((2 : ℚ) ^ nat_log2 x.den) ≤ (x.den : ℚ) := by
    exact_mod_cast nat_log2_le hd
  have b2 : (x.den : ℚ) < (2 : ℚ) ^ (nat_log2 x.den + 1) := by
    exact_mod_cast lt_nat_log2 x.den
  have two : (0 : ℚ) < 2 := by norm_num
  have two0 : (2 : ℚ) ≠ 0 := by norm_num
  unfold ilog2
  split_ifs with h
  · refine ⟨h, ?_⟩
    rw [habs, div_lt_iff₀ hdpos]
    have e : (2 : ℚ) ^ ((nat_log2 x.num.natAbs : ℤ) - (nat_log2 x.den : ℤ) + 1)
        * (2 : ℚ) ^ nat_log2 x.den = (2 : ℚ) ^ (nat_log2 x.num.natAbs + 1) := by
      rw [← zpow_natCast, ← zpow_natCast, ← zpow_add₀ two0]
      congr 1
      push_cast
      ring
    calc (x.num.natAbs : ℚ) < (2 : ℚ) ^ (nat_log2 x.num.natAbs + 1) := a2
      _ = (2 : ℚ) ^ ((nat_log2 x.num.natAbs : ℤ) - (nat_log2 x.den : ℤ) + 1)
            * (2 : ℚ) ^ nat_log2 x.den := e.symm
      _ ≤ _ := by
        apply mul_le_mul_of_nonneg_left b1
        positivity
  · push_neg at h
    refine ⟨?_, by simpa using h⟩
    rw [habs, le_div_iff₀ hdpos]
    have e : (2 : ℚ) ^ ((nat_log2 x.num.natAbs : ℤ) - (nat_log2 x.den : ℤ) - 1)
        * (2 : ℚ) ^ (nat_log2 x.den + 1) = (2 : ℚ) ^ nat_log2 x.num.natAbs := by
      rw [← zpow_natCast, ← zpow_natCast, ← zpow_add₀ two0]
      congr 1
      push_cast
      ring
    calc (2 : ℚ) ^ ((nat_log2 x.num.natAbs : ℤ) - (nat_log2 x.den : ℤ) - 1) * (x.den : ℚ)
        ≤ (2 : ℚ) ^ ((nat_log2 x.num.natAbs : ℤ) - (nat_log2 x.den : ℤ) - 1)
            * (2 : ℚ) ^ (nat_log2 x.den + 1) := by
          apply mul_le_mul_of_nonneg_left b2.le
          positivity
      _ = (2 : ℚ) ^ nat_log2 x.num.natAbs := e
      _ ≤ _ := a1

/-- The binary exponent is the only e with `2^e ≤ |x| < 2^(e+1)`. -/
theorem ilog2_unique {x : ℚ} {e : ℤ} (h1 : (2 : ℚ) ^ e ≤ |x|) (h2 : |x| < (2 : ℚ) ^ (e + 1)) :
    ilog2 x = e := by
  have hx : x ≠ 0 := by
    intro h
    rw [h, abs_zero] at h1
    have : (0 : ℚ) < (2 : ℚ) ^ e := by positivity
    linarith
  obtain ⟨s1, s2⟩ := ilog2_spec hx
  have two : (1 : ℚ) < 2 := by norm_num
  have c1 : ilog2 x < e + 1 := (zpow_lt_zpow_iff_right₀ two).1 (lt_of_le_of_lt s1 h2)
  have c2 : e < ilog2 x + 1 := (zpow_lt_zpow_iff_right₀ two).1 (lt_of_le_of_lt h1 s2)
  omega

/-- The binary exponent is monotone in the absolute value. -/
theorem ilog2_mono {x y : ℚ} (hx : x ≠ 0) (h : |x| ≤ |y|) : ilog2 x ≤ ilog2 y := by
  have hy : y ≠ 0 := by
    intro h0
    rw [h0, abs_zero] at h
    exact hx (abs_eq_zero.1 (le_antisymm h (abs_nonneg x)))
  obtain ⟨s1, _⟩ := ilog2_spec hx
  obtain ⟨_, t2⟩ := ilog2_spec hy
  have two : (1 : ℚ) < 2 := by norm_num
  have c1 : ilog2 x < ilog2 y + 1 :=
    (zpow_lt_zpow_iff_right₀ two).1 (lt_of_le_of_lt s1 (lt_of_le_of_lt h t2))
  omega

/-- The binary exponent does not depend on the sign. -/
theorem ilog2_neg (x : ℚ) : ilog2 (-x) = ilog2 x := by
  unfold ilog2
  simp [Rat.neg_num, Rat.neg_den]

end binary32

namespace binary32

/-- Rounding to the nearest integer gives the floor or the floor plus one. -/
theorem rne_cases (k : ℚ) : rne k = ⌊k⌋ ∨ rne k = ⌊k⌋ + 1 := by
  unfold rne
  split_ifs <;> simp

/-- Rounding to the nearest integer fixes the integers. -/
theorem rne_int (m : ℤ) : rne (m : ℚ) = m := by
  unfold rne
  simp

/-- The nearest integer is not below the floor. -/
theorem floor_le_rne (k : ℚ) : ⌊k⌋ ≤ rne k := by
  rcases rne_cases k with h | h <;> omega

/-- The nearest integer is not above the floor plus one. -/
theorem rne_le_floor_succ (k : ℚ) : rne k ≤ ⌊k⌋ + 1 := by
  rcases rne_cases k with h | h <;> omega

/-- Rounding to the nearest integer, ties to even, is monotone. -/
theorem rne_mono {k l : ℚ} (h : k ≤ l) : rne k ≤ rne l := by
  have hf : ⌊k⌋ ≤ ⌊l⌋ := Int.floor_mono h
  rcases lt_or_eq_of_le hf with hlt | heq
  · calc rne k ≤ ⌊k⌋ + 1 := rne_le_floor_succ k
      _ ≤ ⌊l⌋ := hlt
      _ ≤ rne l := floor_le_rne l
  · unfold rne
    rw [← heq]
    split_ifs <;> first | omega | (exfalso; linarith)

/-- Rounding to the nearest integer moves a rational by at most one half. -/
theorem rne_err (k : ℚ) : |(rne k : ℚ) - k| ≤ 1 / 2 := by
  have h0 : (⌊k⌋ : ℚ) ≤ k := Int.floor_le k
  have h1 : k < (⌊k⌋ : ℚ) + 1 := Int.lt_floor_add_one k
  unfold rne
  rw [abs_le]
  split_ifs <;> push_cast <;> constructor <;> linarith

/-- Rounding to the nearest integer, ties to even, commutes with negation. -/
theorem rne_neg (k : ℚ) : rne (-k) = -rne k := by
  have h0 : (⌊k⌋ : ℚ) ≤ k := Int.floor_le k
  have h1 : k < (⌊k⌋ : ℚ) + 1 := Int.lt_floor_add_one k
  rcases eq_or_lt_of_le h0 with he | hl
  · have e : k = ((⌊k⌋ : ℤ) : ℚ) := he.symm
    rw [e, ← Int.cast_neg, rne_int, rne_int]
  · have hfl : ⌊-k⌋ = -⌊k⌋ - 1 := by
      rw [Int.floor_eq_iff]
      push_cast
      constructor <;> linarith
    unfold rne
    rw [hfl]
    push_cast
    split_ifs <;> first | omega | (exfalso; linarith)

/-- The nearest integer of a nonnegative rational is nonnegative. -/
theorem rne_nonneg {k : ℚ} (h : 0 ≤ k) : 0 ≤ rne k := by
  have := rne_mono h
  rwa [show ((0 : ℚ)) = ((0 : ℤ) : ℚ) by simp, rne_int] at this

end binary32

namespace binary32

/-- The unit in the last place does not depend on the sign. -/
theorem quantum_exp_neg (x : ℚ) : quantum_exp (-x) = quantum_exp x := by
  unfold quantum_exp
  rw [ilog2_neg]

/-- The unit in the last place is positive. -/
theorem quantum_pos (x : ℚ) : (0 : ℚ) < (2 : ℚ) ^ quantum_exp x := by
  positivity

/-- Rounding to the nearest binary32 value commutes with negation. -/
theorem nearest_neg (x : ℚ) : nearest (-x) = -nearest x := by
  unfold nearest
  rw [quantum_exp_neg, neg_div, rne_neg]
  push_cast
  ring

/-- Zero rounds to zero. -/
theorem nearest_zero : nearest 0 = 0 := by
  unfold nearest
  rw [zero_div, show ((0 : ℚ)) = ((0 : ℤ) : ℚ) by simp, rne_int]
  simp

/-- A nonnegative rational rounds to a nonnegative value. -/
theorem nearest_nonneg {x : ℚ} (h : 0 ≤ x) : 0 ≤ nearest x := by
  unfold nearest
  have h1 : 0 ≤ rne (x / 2 ^ quantum_exp x) := rne_nonneg (div_nonneg h (quantum_pos x).le)
  have h2 : (0 : ℚ) ≤ (rne (x / 2 ^ quantum_exp x) : ℚ) := by exact_mod_cast h1
  exact mul_nonneg h2 (quantum_pos x).le

/-- A nonpositive rational rounds to a nonpositive value. -/
theorem nearest_nonpos {x : ℚ} (h : x ≤ 0) : nearest x ≤ 0 := by
  have := nearest_nonneg (neg_nonneg.2 h)
  rw [nearest_neg] at this
  linarith

/-- A multiple of `2^e` is an integer multiple of every unit in the last place `2^q` with `q ≤
e`. -/
theorem grid_div (x : ℚ) (m : ℤ) {e : ℤ} (he : quantum_exp x ≤ e) :
    (m : ℚ) * 2 ^ e / 2 ^ quantum_exp x
      = ((m * 2 ^ (e - quantum_exp x).toNat : ℤ) : ℚ) := by
  have two0 : (2 : ℚ) ≠ 0 := by norm_num
  push_cast
  rw [mul_div_assoc, ← zpow_sub₀ two0, ← zpow_natCast, Int.toNat_of_nonneg (by omega)]

/-- Rounding does not jump over a grid point above: if `x ≤ m * 2^e` and the unit in the last
place at x divides `2^e`, then x rounds to at most `m * 2^e`. -/
theorem nearest_le_of_grid {x : ℚ} (m : ℤ) {e : ℤ} (he : quantum_exp x ≤ e)
    (h : x ≤ (m : ℚ) * 2 ^ e) : nearest x ≤ (m : ℚ) * 2 ^ e := by
  unfold nearest
  have h1 : x / 2 ^ quantum_exp x ≤ (m : ℚ) * 2 ^ e / 2 ^ quantum_exp x :=
    div_le_div_of_nonneg_right h (quantum_pos x).le
  have h2 := rne_mono h1
  rw [grid_div x m he, rne_int] at h2
  have h3 : (rne (x / 2 ^ quantum_exp x) : ℚ)
      ≤ ((m * 2 ^ (e - quantum_exp x).toNat : ℤ) : ℚ) := by exact_mod_cast h2
  rw [← grid_div x m he] at h3
  calc (rne (x / 2 ^ quantum_exp x) : ℚ) * 2 ^ quantum_exp x
      ≤ ((m : ℚ) * 2 ^ e / 2 ^ quantum_exp x) * 2 ^ quantum_exp x :=
        mul_le_mul_of_nonneg_right h3 (quantum_pos x).le
    _ = (m : ℚ) * 2 ^ e := div_mul_cancel₀ _ (ne_of_gt (quantum_pos x))

/-- Rounding does not jump over a grid point below: if `m * 2^e ≤ x` and the unit in the last
place at x divides `2^e`, then x rounds to at least `m * 2^e`. -/
theorem le_nearest_of_grid {x : ℚ} (m : ℤ) {e : ℤ} (he : quantum_exp x ≤ e)
    (h : (m : ℚ) * 2 ^ e ≤ x) : (m : ℚ) * 2 ^ e ≤ nearest x := by
  unfold nearest
  have h1 : (m : ℚ) * 2 ^ e / 2 ^ quantum_exp x ≤ x / 2 ^ quantum_exp x :=
    div_le_div_of_nonneg_right h (quantum_pos x).le
  have h2 := rne_mono h1
  rw [grid_div x m he, rne_int] at h2
  have h3 : ((m * 2 ^ (e - quantum_exp x).toNat : ℤ) : ℚ)
      ≤ (rne (x / 2 ^ quantum_exp x) : ℚ) := by exact_mod_cast h2
  rw [← grid_div x m he] at h3
  calc (m : ℚ) * 2 ^ e
      = ((m : ℚ) * 2 ^ e / 2 ^ quantum_exp x) * 2 ^ quantum_exp x :=
        (div_mul_cancel₀ _ (ne_of_gt (quantum_pos x))).symm
    _ ≤ (rne (x / 2 ^ quantum_exp x) : ℚ) * 2 ^ quantum_exp x :=
        mul_le_mul_of_nonneg_right h3 (quantum_pos x).le

/-- A multiple of its own unit in the last place rounds to itself. -/
theorem nearest_eq_self_of_grid {x : ℚ} (m : ℤ) {e : ℤ} (he : quantum_exp x ≤ e)
    (h : x = (m : ℚ) * 2 ^ e) : nearest x = x := by
  apply le_antisymm
  · calc nearest x ≤ (m : ℚ) * 2 ^ e := nearest_le_of_grid m he h.le
      _ = x := h.symm
  · calc x = (m : ℚ) * 2 ^ e := h
      _ ≤ nearest x := le_nearest_of_grid m he h.ge

/-- Rounding to the nearest binary32 value is monotone on the positive rationals. -/
theorem nearest_mono_pos {x y : ℚ} (hx : 0 < x) (h : x ≤ y) : nearest x ≤ nearest y := by
  have hy : 0 < y := lt_of_lt_of_le hx h
  have hx0 : x ≠ 0 := ne_of_gt hx
  have hy0 : y ≠ 0 := ne_of_gt hy
  have hle : ilog2 x ≤ ilog2 y := by
    apply ilog2_mono hx0
    rw [abs_of_pos hx, abs_of_pos hy]
    exact h
  obtain ⟨_, sx⟩ := ilog2_spec hx0
  obtain ⟨sy, _⟩ := ilog2_spec hy0
  rw [abs_of_pos hx] at sx
  rw [abs_of_pos hy] at sy
  by_cases hq : quantum_exp x = quantum_exp y
  · unfold nearest
    rw [hq]
    have h1 : x / 2 ^ quantum_exp y ≤ y / 2 ^ quantum_exp y :=
      div_le_div_of_nonneg_right h (quantum_pos y).le
    have h2 : (rne (x / 2 ^ quantum_exp y) : ℚ) ≤ (rne (y / 2 ^ quantum_exp y) : ℚ) := by
      exact_mod_cast rne_mono h1
    exact mul_le_mul_of_nonneg_right h2 (quantum_pos y).le
  · have c1 : ilog2 x < ilog2 y := by
      unfold quantum_exp at hq
      by_contra hc
      have : ilog2 x = ilog2 y := by omega
      rw [this] at hq
      exact hq rfl
    have c2 : -126 < ilog2 y := by
      unfold quantum_exp at hq
      by_contra hc
      have e1 : max (ilog2 x) (-126) = -126 := max_eq_right (by omega)
      have e2 : max (ilog2 y) (-126) = -126 := max_eq_right (by omega)
      rw [e1, e2] at hq
      exact hq rfl
    have qx : quantum_exp x ≤ ilog2 y := by
      unfold quantum_exp
      have : max (ilog2 x) (-126) ≤ ilog2 y := max_le (by omega) (by omega)
      omega
    have qy : quantum_exp y ≤ ilog2 y := by
      unfold quantum_exp
      have : max (ilog2 y) (-126) = ilog2 y := max_eq_left (by omega)
      omega
    have g1 : x ≤ ((1 : ℤ) : ℚ) * 2 ^ ilog2 y := by
      have : (2 : ℚ) ^ (ilog2 x + 1) ≤ (2 : ℚ) ^ ilog2 y :=
        zpow_le_zpow_right₀ (by norm_num) (by omega)
      push_cast
      linarith
    have g2 : ((1 : ℤ) : ℚ) * 2 ^ ilog2 y ≤ y := by
      push_cast
      linarith
    exact le_trans (nearest_le_of_grid 1 qx g1) (le_nearest_of_grid 1 qy g2)

/-- Rounding to the nearest binary32 value is monotone. -/
theorem nearest_mono {x y : ℚ} (h : x ≤ y) : nearest x ≤ nearest y := by
  rcases lt_trichotomy 0 x with hx | hx | hx
  · exact nearest_mono_pos hx h
  · rw [← hx, nearest_zero]
    exact nearest_nonneg (by linarith)
  · rcases le_or_lt 0 y with hy | hy
    · exact le_trans (nearest_nonpos hx.le) (nearest_nonneg hy)
    · have := nearest_mono_pos (neg_pos.2 hy) (neg_le_neg h)
      rw [nearest_neg, nearest_neg] at this
      linarith

/-- Rounding moves a rational by at most half a unit in the last place. -/
theorem nearest_err (x : ℚ) : |nearest x - x| ≤ 2 ^ quantum_exp x / 2 := by
  have e : nearest x - x
      = ((rne (x / 2 ^ quantum_exp x) : ℚ) - x / 2 ^ quantum_exp x) * 2 ^ quantum_exp x := by
    unfold nearest
    rw [sub_mul, div_mul_cancel₀ _ (ne_of_gt (quantum_pos x))]
  rw [e, abs_mul, abs_of_pos (quantum_pos x)]
  have := rne_err (x / 2 ^ quantum_exp x)
  calc |(rne (x / 2 ^ quantum_exp x) : ℚ) - x / 2 ^ quantum_exp x| * 2 ^ quantum_exp x
      ≤ 1 / 2 * 2 ^ quantum_exp x := mul_le_mul_of_nonneg_right this (quantum_pos x).le
    _ = 2 ^ quantum_exp x / 2 := by ring

/-- The unit in the last place is at least `2^-149` and at least `2^(e-23)` for the binary
exponent e. -/
theorem quantum_exp_ge (x : ℚ) : -149 ≤ quantum_exp x ∧ ilog2 x - 23 ≤ quantum_exp x := by
  unfold quantum_exp
  have h1 := le_max_left (ilog2 x) (-126)
  have h2 := le_max_right (ilog2 x) (-126)
  constructor <;> omega

/-- The significand of a rounded value has at most 24 bits, or is `2^24`. -/
theorem rne_scaled_bound {x : ℚ} (hx : x ≠ 0) :
    -(2 : ℤ) ^ 24 ≤ rne (x / 2 ^ quantum_exp x) ∧ rne (x / 2 ^ quantum_exp x) ≤ (2 : ℤ) ^ 24 := by
  obtain ⟨_, s2⟩ := ilog2_spec hx
  obtain ⟨_, q2⟩ := quantum_exp_ge x
  have two0 : (2 : ℚ) ≠ 0 := by norm_num
  have hk : |x / 2 ^ quantum_exp x| ≤ (2 : ℚ) ^ (24 : ℤ) := by
    rw [abs_div, abs_of_pos (quantum_pos x), div_le_iff₀ (quantum_pos x), ← zpow_add₀ two0]
    have : (2 : ℚ) ^ (ilog2 x + 1) ≤ (2 : ℚ) ^ (24 + quantum_exp x) :=
      zpow_le_zpow_right₀ (by norm_num) (by omega)
    linarith
  rw [abs_le] at hk
  have e : (2 : ℚ) ^ (24 : ℤ) = (((2 : ℤ) ^ 24 : ℤ) : ℚ) := by norm_num
  rw [e] at hk
  constructor
  · have := rne_mono hk.1
    rwa [← Int.cast_neg, rne_int] at this
  · have := rne_mono hk.2
    rwa [rne_int] at this

/-- Rounding to the nearest binary32 value is idempotent. -/
theorem nearest_idem (x : ℚ) : nearest (nearest x) = nearest x := by
  by_cases hx : x = 0
  · rw [hx, nearest_zero, nearest_zero]
  obtain ⟨b1, b2⟩ := rne_scaled_bound hx
  obtain ⟨q1, q2⟩ := quantum_exp_ge x
  have two0 : (2 : ℚ) ≠ 0 := by norm_num
  have hy : nearest x = (rne (x / 2 ^ quantum_exp x) : ℚ) * 2 ^ quantum_exp x := rfl
  generalize hm : rne (x / 2 ^ quantum_exp x) = m at hy b1 b2
  by_cases hm0 : m = 0
  · rw [hy, hm0]
    simp [nearest_zero]
  by_cases hbig : m = 2 ^ 24 ∨ m = -2 ^ 24
  · have habs : |nearest x| = (2 : ℚ) ^ (quantum_exp x + 24) := by
      rw [hy, abs_mul, abs_of_pos (quantum_pos x), zpow_add₀ two0]
      rcases hbig with h | h <;> rw [h] <;> norm_num <;> ring
    have hl : ilog2 (nearest x) = quantum_exp x + 24 := by
      apply ilog2_unique
      · rw [habs]
      · rw [habs]
        exact zpow_lt_zpow_right₀ (by norm_num) (by omega)
    have hq : quantum_exp (nearest x) ≤ quantum_exp x + 24 := by
      have hqy : quantum_exp (nearest x) = max (ilog2 (nearest x)) (-126) - 23 := rfl
      rw [hl] at hqy
      have : max (quantum_exp x + 24) (-126) = quantum_exp x + 24 := max_eq_left (by omega)
      omega
    rcases hbig with h | h
    · apply nearest_eq_self_of_grid 1 hq
      rw [hy, h, zpow_add₀ two0]
      norm_num
      ring
    · apply nearest_eq_self_of_grid (-1) hq
      rw [hy, h, zpow_add₀ two0]
      norm_num
      ring
  · push_neg at hbig
    have hlt : |m| < 2 ^ 24 := by
      rw [abs_lt]
      constructor <;> omega
    have hny : nearest x ≠ 0 := by
      rw [hy]
      have : (m : ℚ) ≠ 0 := by exact_mod_cast hm0
      exact mul_ne_zero this (ne_of_gt (quantum_pos x))
    have habs : |nearest x| < (2 : ℚ) ^ (quantum_exp x + 24) := by
      rw [hy, abs_mul, abs_of_pos (quantum_pos x), zpow_add₀ two0, mul_comm]
      apply mul_lt_mul_of_pos_left _ (quantum_pos x)
      have : ((|m| : ℤ) : ℚ) < (((2 : ℤ) ^ 24 : ℤ) : ℚ) := by exact_mod_cast hlt
      rw [Int.cast_abs] at this
      calc |(m : ℚ)| < (((2 : ℤ) ^ 24 : ℤ) : ℚ) := this
        _ = (2 : ℚ) ^ (24 : ℤ) := by norm_num
    obtain ⟨s1, _⟩ := ilog2_spec hny
    have hl : ilog2 (nearest x) < quantum_exp x + 24 :=
      (zpow_lt_zpow_iff_right₀ (by norm_num : (1 : ℚ) < 2)).1 (lt_of_le_of_lt s1 habs)
    have hq : quantum_exp (nearest x) ≤ quantum_exp x := by
      have hqx : quantum_exp x = max (ilog2 x) (-126) - 23 := rfl
      have hqy : quantum_exp (nearest x) = max (ilog2 (nearest x)) (-126) - 23 := rfl
      have h1 := le_max_right (ilog2 x) (-126)
      have : max (ilog2 (nearest x)) (-126) ≤ max (ilog2 x) (-126) :=
        max_le (by omega) h1
      omega
    exact nearest_eq_self_of_grid m hq hy

end binary32

namespace binary32

/-- Below the overflow threshold `round32` returns the nearest value. -/
theorem round32_of_lt {x : ℚ} (h : |nearest x| < (2 : ℚ) ^ (128 : ℤ)) :
    round32 x = fin (nearest x) := by
  unfold round32
  rw [if_neg (not_le.2 h)]

/-- A binary32 value rounds to itself. -/
theorem nearest_of_representable {q : ℚ} (h : representable q) : nearest q = q := by
  unfold representable round32 at h
  split_ifs at h
  exact fin.inj h

/-- On a binary32 value `round32` is the identity. -/
theorem round32_of_representable {q : ℚ} (h : representable q) : round32 q = fin q := h

/-- The negation of a binary32 value is a binary32 value. -/
theorem representable_neg {q : ℚ} (h : representable q) : representable (-q) := by
  have hn := nearest_of_representable h
  unfold representable round32 at h ⊢
  rw [nearest_neg, hn, abs_neg]
  rw [hn] at h
  split_ifs at h with hc
  rw [if_neg hc]

/-- Zero is a binary32 value. -/
theorem representable_zero : representable 0 := by decide!

/-- One is a binary32 value. -/
theorem representable_one : representable 1 := by decide!

/-- One half is a binary32 value. -/
theorem representable_half : representable (1 / 2) := by decide!

/-- Two rounds to itself. -/
theorem nearest_two : nearest 2 = 2 := by decide!

/-- One rounds to itself. -/
theorem nearest_one : nearest 1 = 1 := by decide!

/-- The rational `1 + 2^-25` rounds to 1. -/
theorem nearest_one_add : nearest (1 + 1 / 2 ^ 25) = 1 := by decide!

/-- A rational of `[-2, 2]` rounds into `[-2, 2]`. -/
theorem nearest_abs_le_two {x : ℚ} (h1 : -2 ≤ x) (h2 : x ≤ 2) : |nearest x| ≤ 2 := by
  rw [abs_le]
  constructor
  · have := nearest_mono h1
    rw [nearest_neg, nearest_two] at this
    exact this
  · have := nearest_mono h2
    rw [nearest_two] at this
    exact this

/-- On `[-2, 2]` rounding does not overflow. -/
theorem round32_small {x : ℚ} (h1 : -2 ≤ x) (h2 : x ≤ 2) : round32 x = fin (nearest x) := by
  apply round32_of_lt
  have := nearest_abs_le_two h1 h2
  have : (2 : ℚ) < (2 : ℚ) ^ (128 : ℤ) := by norm_num
  linarith

/-- A rational of `[-2, 2]` rounds to a binary32 value. -/
theorem representable_nearest {x : ℚ} (h1 : -2 ≤ x) (h2 : x ≤ 2) :
    representable (nearest x) := by
  unfold representable
  have hb := nearest_abs_le_two h1 h2
  rw [abs_le] at hb
  rw [round32_small hb.1 hb.2, nearest_idem]

/-- On `[0, 1]` rounding adds at most `2^-25`. -/
theorem nearest_le_add {x : ℚ} (h0 : 0 ≤ x) (h1 : x ≤ 1) : nearest x ≤ x + 1 / 2 ^ 25 := by
  rcases eq_or_lt_of_le h1 with h | h
  · rw [h, nearest_one]
    norm_num
  rcases eq_or_lt_of_le h0 with h' | h'
  · rw [← h', nearest_zero]
    norm_num
  have hx : x ≠ 0 := ne_of_gt h'
  obtain ⟨s1, _⟩ := ilog2_spec hx
  rw [abs_of_pos h'] at s1
  have hl : ilog2 x < 0 := by
    have : (2 : ℚ) ^ ilog2 x < (2 : ℚ) ^ (0 : ℤ) := by
      rw [zpow_zero]
      linarith
    exact (zpow_lt_zpow_iff_right₀ (by norm_num : (1 : ℚ) < 2)).1 this
  have hq : quantum_exp x ≤ -24 := by
    have hqx : quantum_exp x = max (ilog2 x) (-126) - 23 := rfl
    have : max (ilog2 x) (-126) ≤ -1 := max_le (by omega) (by omega)
    omega
  have hp : (2 : ℚ) ^ quantum_exp x ≤ (2 : ℚ) ^ (-24 : ℤ) :=
    zpow_le_zpow_right₀ (by norm_num) hq
  have he := nearest_err x
  rw [abs_le] at he
  have e24 : (2 : ℚ) ^ (-24 : ℤ) / 2 = 1 / 2 ^ 25 := by norm_num
  have h3 : (2 : ℚ) ^ quantum_exp x / 2 ≤ 1 / 2 ^ 25 := by
    rw [← e24]
    exact div_le_div_of_nonneg_right hp (by norm_num)
  have h4 := he.2
  generalize (2 : ℚ) ^ quantum_exp x / 2 = u at h3 h4
  generalize (1 : ℚ) / 2 ^ 25 = v at h3 ⊢
  linarith

end binary32

namespace F32

open binary32

/-- A finite value is in the unit range when it is a binary32 value of `[0, 1]`. -/
theorem in_unit_range_fin (r : ℚ) :
    (fin r).in_unit_range ↔ representable r ∧ 0 ≤ r ∧ r ≤ 1 := by
  simp [in_unit_range, binary32.finite, binary32.le]

/-- A channel in the unit range is a finite binary32 value of `[0, 1]`. -/
theorem in_unit_range_cases {x : binary32} (h : x.in_unit_range) :
    ∃ q, x = fin q ∧ representable q ∧ 0 ≤ q ∧ q ≤ 1 := by
  cases x with
  | nan => exact absurd h.1 (by simp [binary32.finite])
  | inf s => exact absurd h.1 (by simp [binary32.finite])
  | fin q => exact ⟨q, rfl, (in_unit_range_fin q).1 h⟩

/-- A finite channel is given by a rational that is a binary32 value. -/
theorem finite_cases {x : binary32} (h : x.finite) : ∃ q, x = fin q ∧ representable q := by
  cases x with
  | nan => exact absurd h (by simp [binary32.finite])
  | inf s => exact absurd h (by simp [binary32.finite])
  | fin q => exact ⟨q, rfl, h⟩

/-- The clamp to `(0, 1)` of an amount other than NaN is in the unit range. -/
theorem clamp_unit_in_range {t : binary32} (h : t.is_number) :
    (_sg_color_clamp t (fin 0) (fin 1)).in_unit_range := by
  cases t with
  | nan => exact absurd h (by simp [is_number])
  | inf s =>
    cases s
    · have e : _sg_color_clamp (inf false) (fin 0) (fin 1) = fin 1 := by
        simp [_sg_color_clamp, binary32.lt]
      rw [e, in_unit_range_fin]
      exact ⟨representable_one, by norm_num, le_rfl⟩
    · have e : _sg_color_clamp (inf true) (fin 0) (fin 1) = fin 0 := by
        simp [_sg_color_clamp, binary32.lt]
      rw [e, in_unit_range_fin]
      exact ⟨representable_zero, le_rfl, by norm_num⟩
  | fin q =>
    have hq : representable q := h
    by_cases h0 : q < 0
    · have e : _sg_color_clamp (fin q) (fin 0) (fin 1) = fin 0 := by
        simp [_sg_color_clamp, binary32.lt, h0]
      rw [e, in_unit_range_fin]
      exact ⟨representable_zero, le_rfl, by norm_num⟩
    · by_cases h1 : 1 < q
      · have e : _sg_color_clamp (fin q) (fin 0) (fin 1) = fin 1 := by
          simp [_sg_color_clamp, binary32.lt, h0, h1]
        rw [e, in_unit_range_fin]
        exact ⟨representable_one, by norm_num, le_rfl⟩
      · have e : _sg_color_clamp (fin q) (fin 0) (fin 1) = fin q := by
          simp [_sg_color_clamp, binary32.lt, h0, h1]
        rw [e, in_unit_range_fin]
        exact ⟨hq, not_lt.1 h0, not_lt.1 h1⟩

/-- Subtraction of finite values rounds the exact difference. -/
theorem sub_fin (x y : ℚ) : (fin x).sub (fin y) = round32 (x + -y) := rfl

/-- Multiplication of finite values rounds the exact product. -/
theorem mul_fin (x y : ℚ) : (fin x).mul (fin y) = round32 (x * y) := rfl

/-- Addition of finite values rounds the exact sum. -/
theorem add_fin (x y : ℚ) : (fin x).add (fin y) = round32 (x + y) := rfl

/-- A channel interpolated by `_sg_color_lerp` in binary32 between two values of `[0, 1]` with
an amount of `[0, 1]` is in the unit range. -/
theorem lerp_channel_unit {a b s : ℚ} (ha : representable a) (ha0 : 0 ≤ a) (ha1 : a ≤ 1)
    (hb0 : 0 ≤ b) (hb1 : b ≤ 1) (hs0 : 0 ≤ s) (hs1 : s ≤ 1) :
    (_sg_color_lerp (fin a) (fin b) (fin s)).in_unit_range := by
  have hd : round32 (b + -a) = fin (nearest (b + -a)) :=
    round32_small (by linarith) (by linarith)
  have hdd : nearest (nearest (b + -a)) = nearest (b + -a) := nearest_idem _
  have hna : nearest (-a) = -a := nearest_of_representable (representable_neg ha)
  have hdl : -a ≤ nearest (b + -a) := by
    have := @nearest_mono (-a) (b + -a) (by linarith)
    rwa [hna] at this
  have hdu : nearest (b + -a) ≤ 1 := by
    have := @nearest_mono (b + -a) 1 (by linarith)
    rwa [nearest_one] at this
  have hde : 0 ≤ b + -a → nearest (b + -a) ≤ b + -a + 1 / 2 ^ 25 := fun h =>
    nearest_le_add h (by linarith)
  have hd0 : 0 ≤ b + -a → 0 ≤ nearest (b + -a) := nearest_nonneg
  have hd1 : b + -a ≤ 0 → nearest (b + -a) ≤ 0 := nearest_nonpos
  generalize nearest (b + -a) = d at hd hdd hdl hdu hde hd0 hd1
  have hps : -a ≤ d * s ∧ d * s ≤ 1 ∧ (0 ≤ d → 0 ≤ d * s ∧ d * s ≤ d)
      ∧ (d ≤ 0 → d * s ≤ 0) := by
    refine ⟨?_, ?_, ?_, ?_⟩
    · rcases le_total 0 d with h | h
      · have := mul_nonneg h hs0
        linarith
      · nlinarith
    · rcases le_total 0 d with h | h
      · nlinarith
      · nlinarith
    · intro h
      exact ⟨mul_nonneg h hs0, by nlinarith⟩
    · intro h
      nlinarith
  obtain ⟨hp1, hp2, hp3, hp4⟩ := hps
  have hp : round32 (d * s) = fin (nearest (d * s)) :=
    round32_small (by linarith) (by linarith)
  have hpl : -a ≤ nearest (d * s) := by
    have := nearest_mono hp1
    rwa [hna] at this
  have hpu : 0 ≤ d → nearest (d * s) ≤ d := fun h => by
    have := nearest_mono (hp3 h).2
    rwa [hdd] at this
  have hpn : d ≤ 0 → nearest (d * s) ≤ 0 := fun h => nearest_nonpos (hp4 h)
  generalize nearest (d * s) = p at hp hpl hpu hpn
  have hsum : 0 ≤ a + p ∧ a + p ≤ 1 + 1 / 2 ^ 25 := by
    refine ⟨by linarith, ?_⟩
    rcases le_total a b with hab | hab
    · have h1 := hde (by linarith)
      have h2 := hpu (hd0 (by linarith))
      linarith
    · have h2 := hpn (hd1 (by linarith))
      have : (0 : ℚ) ≤ 1 / 2 ^ 25 := by norm_num
      linarith
  have hr : round32 (a + p) = fin (nearest (a + p)) :=
    round32_small (by linarith) (by
      have : (1 : ℚ) / 2 ^ 25 ≤ 1 := by norm_num
      linarith [hsum.2])
  have hr1 : nearest (a + p) ≤ 1 := by
    have := nearest_mono hsum.2
    rwa [nearest_one_add] at this
  have hrr : representable (nearest (a + p)) :=
    representable_nearest (by linarith) (by
      have : (1 : ℚ) / 2 ^ 25 ≤ 1 := by norm_num
      linarith [hsum.2])
  unfold _sg_color_lerp
  rw [sub_fin, hd, mul_fin, hp, add_fin, hr, in_unit_range_fin]
  exact ⟨hrr, nearest_nonneg hsum.1, hr1⟩

/-- A channel interpolated by `_sg_color_lerp_precise` in binary32 between two values of `[0,
1]` with a binary32 amount of `[0, 1]` is in the unit range. -/
theorem lerp_precise_channel_unit {a b s : ℚ} (hs : representable s)
    (ha0 : 0 ≤ a) (ha1 : a ≤ 1) (hb0 : 0 ≤ b) (hb1 : b ≤ 1) (hs0 : 0 ≤ s) (hs1 : s ≤ 1) :
    (_sg_color_lerp_precise (fin a) (fin b) (fin s)).in_unit_range := by
  have hu : round32 (1 + -s) = fin (nearest (1 + -s)) :=
    round32_small (by linarith) (by linarith)
  have huu : nearest (nearest (1 + -s)) = nearest (1 + -s) := nearest_idem _
  have hu0 : 0 ≤ nearest (1 + -s) := nearest_nonneg (by linarith)
  have hu1 : nearest (1 + -s) ≤ 1 := by
    have := @nearest_mono (1 + -s) 1 (by linarith)
    rwa [nearest_one] at this
  have hue : nearest (1 + -s) ≤ 1 + -s + 1 / 2 ^ 25 :=
    nearest_le_add (by linarith) (by linarith)
  generalize nearest (1 + -s) = u at hu huu hu0 hu1 hue
  have hua : 0 ≤ u * a ∧ u * a ≤ u := ⟨mul_nonneg hu0 ha0, by nlinarith⟩
  have hp1 : round32 (u * a) = fin (nearest (u * a)) :=
    round32_small (by linarith [hua.1]) (by linarith [hua.2])
  have hp1n : 0 ≤ nearest (u * a) := nearest_nonneg hua.1
  have hp1u : nearest (u * a) ≤ u := by
    have := nearest_mono hua.2
    rwa [huu] at this
  generalize nearest (u * a) = p1 at hp1 hp1n hp1u
  have hbs : 0 ≤ b * s ∧ b * s ≤ s := ⟨mul_nonneg hb0 hs0, by nlinarith⟩
  have hp2 : round32 (b * s) = fin (nearest (b * s)) :=
    round32_small (by linarith [hbs.1]) (by linarith [hbs.2])
  have hp2n : 0 ≤ nearest (b * s) := nearest_nonneg hbs.1
  have hp2u : nearest (b * s) ≤ s := by
    have := nearest_mono hbs.2
    rwa [nearest_of_representable hs] at this
  generalize nearest (b * s) = p2 at hp2 hp2n hp2u
  have hsum : 0 ≤ p1 + p2 ∧ p1 + p2 ≤ 1 + 1 / 2 ^ 25 := ⟨by linarith, by linarith⟩
  have hsmall : p1 + p2 ≤ 2 := by
    have : (1 : ℚ) / 2 ^ 25 ≤ 1 := by norm_num
    linarith [hsum.2]
  have hr : round32 (p1 + p2) = fin (nearest (p1 + p2)) :=
    round32_small (by linarith [hsum.1]) hsmall
  have hr1 : nearest (p1 + p2) ≤ 1 := by
    have := nearest_mono hsum.2
    rwa [nearest_one_add] at this
  have hrr : representable (nearest (p1 + p2)) :=
    representable_nearest (by linarith [hsum.1]) hsmall
  unfold _sg_color_lerp_precise
  rw [sub_fin, hu, mul_fin, hp1, mul_fin, hp2, add_fin, hr, in_unit_range_fin]
  exact ⟨hrr, nearest_nonneg hsum.1, hr1⟩

end F32

namespace F32

open binary32

/-- A color with finite channels is given by four rationals that are binary32 values. -/
theorem finite_color_cases {c : sg_color} (h : finite_color c) :
    ∃ r g b a, c = ⟨fin r, fin g, fin b, fin a⟩ ∧
      representable r ∧ representable g ∧ representable b ∧ representable a := by
  obtain ⟨cr, cg, cb, ca⟩ := c
  obtain ⟨h1, h2, h3, h4⟩ := h
  obtain ⟨r, e1, r1⟩ := finite_cases h1
  obtain ⟨g, e2, r2⟩ := finite_cases h2
  obtain ⟨b, e3, r3⟩ := finite_cases h3
  obtain ⟨a, e4, r4⟩ := finite_cases h4
  simp only at e1 e2 e3 e4
  subst e1 e2 e3 e4
  exact ⟨r, g, b, a, rfl, r1, r2, r3, r4⟩

/-- A color in the unit range is given by four binary32 values of `[0, 1]`. -/
theorem unit_range_cases {c : sg_color} (h : unit_range c) :
    ∃ r g b a, c = ⟨fin r, fin g, fin b, fin a⟩ ∧
      (representable r ∧ 0 ≤ r ∧ r ≤ 1) ∧ (representable g ∧ 0 ≤ g ∧ g ≤ 1) ∧
      (representable b ∧ 0 ≤ b ∧ b ≤ 1) ∧ (representable a ∧ 0 ≤ a ∧ a ≤ 1) := by
  obtain ⟨cr, cg, cb, ca⟩ := c
  obtain ⟨h1, h2, h3, h4⟩ := h
  obtain ⟨r, e1, r1⟩ := in_unit_range_cases h1
  obtain ⟨g, e2, r2⟩ := in_unit_range_cases h2
  obtain ⟨b, e3, r3⟩ := in_unit_range_cases h3
  obtain ⟨a, e4, r4⟩ := in_unit_range_cases h4
  simp only at e1 e2 e3 e4
  subst e1 e2 e3 e4
  exact ⟨r, g, b, a, rfl, r1, r2, r3, r4⟩

/-- The clamp to `(0, 1)` of 0 is 0. -/
theorem clamp_zero : _sg_color_clamp (fin 0) (fin 0) (fin 1) = fin 0 := by decide!

/-- The clamp to `(0, 1)` of 1 is 1. -/
theorem clamp_one : _sg_color_clamp (fin 1) (fin 0) (fin 1) = fin 1 := by decide!

/-- The clamp to `(0, 1)` of 1/2 is 1/2. -/
theorem clamp_half : _sg_color_clamp (fin (1 / 2)) (fin 0) (fin 1) = fin (1 / 2) := by decide!

/-- The clamp to `(0, 1)` of an amount other than NaN is finite. -/
theorem clamp_unit_fin {t : binary32} (h : t ≠ nan) :
    ∃ s, _sg_color_clamp t (fin 0) (fin 1) = fin s := by
  cases t with
  | nan => exact absurd rfl h
  | inf s =>
    cases s
    · exact ⟨1, by simp [_sg_color_clamp, binary32.lt]⟩
    · exact ⟨0, by simp [_sg_color_clamp, binary32.lt]⟩
  | fin q =>
    unfold _sg_color_clamp
    split_ifs
    · exact ⟨0, rfl⟩
    · exact ⟨1, rfl⟩
    · exact ⟨q, rfl⟩

/-- Zero rounds to zero in binary32. -/
theorem round32_zero : round32 0 = fin 0 := representable_zero

/-- A rounded value that is finite is given by a rational. -/
theorem round32_fin {d : ℚ} (h : (round32 d).finite) : ∃ q, round32 d = fin q := by
  obtain ⟨q, e, _⟩ := finite_cases h
  exact ⟨q, e⟩

/-- At the amount 0 `_sg_color_lerp` returns a when `b - a` does not overflow. -/
theorem lerp_channel_zero {a b : ℚ} (ha : representable a) (h : ∃ q, round32 (b - a) = fin q) :
    _sg_color_lerp (fin a) (fin b) (fin 0) = fin a := by
  obtain ⟨q, hq⟩ := h
  unfold _sg_color_lerp
  rw [sub_fin, ← sub_eq_add_neg, hq, mul_fin, mul_zero, round32_zero, add_fin, add_zero]
  exact ha

/-- At the amount 1 `_sg_color_lerp` returns b when `b - a` is a binary32 value. -/
theorem lerp_channel_one {a b : ℚ} (hb : representable b) (h : representable (b - a)) :
    _sg_color_lerp (fin a) (fin b) (fin 1) = fin b := by
  unfold _sg_color_lerp
  rw [sub_fin, ← sub_eq_add_neg, round32_of_representable h, mul_fin, mul_one,
    round32_of_representable h, add_fin, add_sub_cancel]
  exact hb

/-- At the amount 1/2 `_sg_color_lerp` returns the rounded midpoint when `b - a` and its half
are binary32 values. -/
theorem lerp_channel_half {a b : ℚ} (h1 : representable (b - a))
    (h2 : representable ((b - a) / 2)) :
    _sg_color_lerp (fin a) (fin b) (fin (1 / 2)) = round32 ((a + b) / 2) := by
  unfold _sg_color_lerp
  rw [sub_fin, ← sub_eq_add_neg, round32_of_representable h1, mul_fin,
    show (b - a) * (1 / 2) = (b - a) / 2 by ring, round32_of_representable h2, add_fin]
  congr 1
  ring

/-- At the amount 0 `_sg_color_lerp_precise` returns a. -/
theorem lerp_precise_channel_zero {a b : ℚ} (ha : representable a) :
    _sg_color_lerp_precise (fin a) (fin b) (fin 0) = fin a := by
  unfold _sg_color_lerp_precise
  rw [sub_fin, show (1 : ℚ) + -0 = 1 by norm_num, round32_of_representable representable_one,
    mul_fin, one_mul, round32_of_representable ha, mul_fin, mul_zero, round32_zero, add_fin,
    add_zero]
  exact ha

/-- At the amount 1 `_sg_color_lerp_precise` returns b. -/
theorem lerp_precise_channel_one {a b : ℚ} (hb : representable b) :
    _sg_color_lerp_precise (fin a) (fin b) (fin 1) = fin b := by
  unfold _sg_color_lerp_precise
  rw [sub_fin, show (1 : ℚ) + -1 = 0 by norm_num, round32_zero, mul_fin, zero_mul,
    round32_zero, mul_fin, mul_one, round32_of_representable hb, add_fin, zero_add]
  exact hb

/-- At the amount 1/2 `_sg_color_lerp_precise` returns the rounded midpoint when the halves of a
and b are binary32 values. -/
theorem lerp_precise_channel_half {a b : ℚ} (h1 : representable (a / 2))
    (h2 : representable (b / 2)) :
    _sg_color_lerp_precise (fin a) (fin b) (fin (1 / 2)) = round32 ((a + b) / 2) := by
  unfold _sg_color_lerp_precise
  rw [sub_fin, show (1 : ℚ) + -(1 / 2) = 1 / 2 by norm_num,
    round32_of_representable representable_half, mul_fin,
    show (1 : ℚ) / 2 * a = a / 2 by ring, round32_of_representable h1, mul_fin,
    show b * (1 / 2) = b / 2 by ring, round32_of_representable h2, add_fin]
  congr 1
  ring

/-- With equal finite endpoints `_sg_color_lerp` returns the endpoint, in binary32. -/
theorem lerp_channel_same {a s : ℚ} (ha : representable a) :
    _sg_color_lerp (fin a) (fin a) (fin s) = fin a := by
  unfold _sg_color_lerp
  rw [sub_fin, add_neg_cancel, round32_zero, mul_fin, zero_mul, round32_zero, add_fin,
    add_zero]
  exact ha

/-- A finite value times 0 is 0. -/
theorem mul_zero_fin (x : ℚ) : (fin x).mul (fin 0) = fin 0 := by
  rw [mul_fin, mul_zero, round32_zero]

/-- A color with finite channels is at distance 0 from itself. -/
theorem endpoint_error_self {c : sg_color} (h : finite_color c) :
    endpoint_error c c = some 0 := by
  unfold endpoint_error
  rw [if_pos ⟨h, h⟩]
  simp

/-- The error 0 is not larger than any error. -/
theorem error_le_zero (e : Option ℚ) (h : ∀ x, e = some x → 0 ≤ x) : error_le (some 0) e := by
  cases e with
  | none => trivial
  | some y => exact h y rfl

/-- A defined endpoint error is nonnegative. -/
theorem endpoint_error_nonneg (c d : sg_color) :
    ∀ x, endpoint_error c d = some x → 0 ≤ x := by
  intro x hx
  unfold endpoint_error at hx
  split_ifs at hx
  cases hx
  exact le_max_of_le_left (le_max_of_le_left (abs_nonneg _))

end F32

namespace F32

open binary32

/-- If `y <= x` then `x < y` is false. -/
theorem lt_false_of_le (x y : binary32) (_ : x ≠ nan) (h : y.le x = true) :
    x.lt y = false := by
  cases x with
  | nan => cases y <;> simp [binary32.le] at h
  | inf s =>
    cases y with
    | nan => simp [binary32.le] at h
    | inf t => cases s <;> cases t <;> simp [binary32.le, binary32.lt] at h ⊢
    | fin q => cases s <;> simp [binary32.le, binary32.lt] at h ⊢
  | fin p =>
    cases y with
    | nan => simp [binary32.le] at h
    | inf t => cases t <;> simp [binary32.le, binary32.lt] at h ⊢
    | fin q =>
      simp only [binary32.le, decide_eq_true_eq] at h
      simp only [binary32.lt, decide_eq_false_iff_not, not_lt]
      exact h

/-- For values other than NaN, if `x < y` is false then `y <= x`. -/
theorem le_of_lt_false {x y : binary32} (hx : x ≠ nan) (hy : y ≠ nan)
    (h : x.lt y = false) : y.le x = true := by
  cases x with
  | nan => exact absurd rfl hx
  | inf s =>
    cases y with
    | nan => exact absurd rfl hy
    | inf t => cases s <;> cases t <;> simp [binary32.le, binary32.lt] at h ⊢
    | fin q => cases s <;> simp [binary32.le, binary32.lt] at h ⊢
  | fin p =>
    cases y with
    | nan => exact absurd rfl hy
    | inf t => cases t <;> simp [binary32.le, binary32.lt] at h ⊢
    | fin q =>
      simp only [binary32.lt, decide_eq_false_iff_not, not_lt] at h
      simp only [binary32.le, decide_eq_true_eq]
      exact h

/-- A value other than NaN is `<=` itself. -/
theorem le_refl_of_number {x : binary32} (hx : x ≠ nan) : x.le x = true := by
  cases x with
  | nan => exact absurd rfl hx
  | inf s => cases s <;> simp [binary32.le]
  | fin p => simp [binary32.le]

/-- The left side of a true `<=` is not NaN. -/
theorem ne_nan_of_le_left {x y : binary32} (h : x.le y = true) : x ≠ nan := by
  intro e
  rw [e] at h
  simp [binary32.le] at h

/-- The right side of a true `<=` is not NaN. -/
theorem ne_nan_of_le_right {x y : binary32} (h : x.le y = true) : y ≠ nan := by
  intro e
  rw [e] at h
  cases x <;> simp [binary32.le] at h

/-- The clamp returns v when `low <= v <= high`. -/
theorem clamp_of_le {v low high : binary32} (hv : v ≠ nan) (h1 : low.le v = true)
    (h2 : v.le high = true) : _sg_color_clamp v low high = v := by
  unfold _sg_color_clamp
  rw [lt_false_of_le v low hv h1, lt_false_of_le high v (ne_nan_of_le_right h2) h2]
  simp

/-- For `low <= high` the clamp of a value other than NaN lies between low and high. -/
theorem clamp_between {v low high : binary32} (hv : v ≠ nan) (h : low.le high = true) :
    low.le (_sg_color_clamp v low high) = true ∧
      (_sg_color_clamp v low high).le high = true := by
  have hl := ne_nan_of_le_left h
  have hh := ne_nan_of_le_right h
  unfold _sg_color_clamp
  cases e1 : v.lt low with
  | true =>
    simp only [if_true]
    exact ⟨le_refl_of_number hl, h⟩
  | false =>
    cases e2 : high.lt v with
    | true =>
      simp only [Bool.false_eq_true, if_false, if_true]
      exact ⟨h, le_refl_of_number hh⟩
    | false =>
      simp only [Bool.false_eq_true, if_false]
      exact ⟨le_of_lt_false hv hl e1, le_of_lt_false hh hv e2⟩

end F32

namespace F32

/-- A property of the first n and of the remaining elements of a list holds for all of them. -/
theorem forall_mem_of_take_drop {α : Type} {P : α → Prop} (n : Nat) (l : List α)
    (h1 : ∀ x ∈ l.take n, P x) (h2 : ∀ x ∈ l.drop n, P x) : ∀ x ∈ l, P x := by
  intro x hx
  rw [← List.take_append_drop n l] at hx
  rcases List.mem_append.1 hx with h | h
  · exact h1 x h
  · exact h2 x h

set_option maxRecDepth 100000 in
/-- The rows 1 to 40 of the palette agree in binary32 up to `2^-24`. -/
theorem rows_close_1 : ∀ row ∈ palette_rows.take 40, row_close row := by
  decide!

set_option maxRecDepth 100000 in
/-- The rows 41 to 80 of the palette agree in binary32 up to `2^-24`. -/
theorem rows_close_2 : ∀ row ∈ (palette_rows.drop 40).take 40, row_close row := by
  decide!

set_option maxRecDepth 100000 in
/-- The rows 81 to 120 of the palette agree in binary32 up to `2^-24`. -/
theorem rows_close_3 : ∀ row ∈ ((palette_rows.drop 40).drop 40).take 40, row_close row := by
  decide!

set_option maxRecDepth 100000 in
/-- The rows 121 to 146 of the palette agree in binary32 up to `2^-24`. -/
theorem rows_close_4 : ∀ row ∈ ((palette_rows.drop 40).drop 40).drop 40, row_close row := by
  decide!

/-- Every row of the palette agrees in binary32 up to `2^-24`. -/
theorem rows_close : ∀ row ∈ palette_rows, row_close row :=
  forall_mem_of_take_drop 40 _ rows_close_1
    (forall_mem_of_take_drop 40 _ rows_close_2
      (forall_mem_of_take_drop 40 _ rows_close_3 rows_close_4))

end F32

/-! ## Constructors -/

/-- C1: for all bytes r, g, b, a in 0..255, `sg_make_color_4b(r, g, b, a)` is the
color whose red, green, blue and alpha channels are r/255, g/255, b/255 and
a/255, in that field order. -/
theorem sg_make_color_4b_channels (r g b a : Nat)
    (hr : r < 256) (hg : g < 256) (hb : b < 256) (ha : a < 256) :
    (sg_make_color_4b r g b a).r = (r : ℚ) / 255 ∧
    (sg_make_color_4b r g b a).g = (g : ℚ) / 255 ∧
    (sg_make_color_4b r g b a).b = (b : ℚ) / 255 ∧
    (sg_make_color_4b r g b a).a = (a : ℚ) / 255 := by
  simp only [sg_make_color_4b, uint8_t_of_lt hr, uint8_t_of_lt hg, uint8_t_of_lt hb,
    uint8_t_of_lt ha, and_self]

/-- Witness for C1 at the bytes of cornflower blue, 0x64 0x95 0xED 0xFF. -/
theorem sg_make_color_4b_channels_witness :
    (100 < 256 ∧ 149 < 256 ∧ 237 < 256 ∧ 255 < 256) ∧
    ((sg_make_color_4b 100 149 237 255).r = ((100 : Nat) : ℚ) / 255 ∧
     (sg_make_color_4b 100 149 237 255).g = ((149 : Nat) : ℚ) / 255 ∧
     (sg_make_color_4b 100 149 237 255).b = ((237 : Nat) : ℚ) / 255 ∧
     (sg_make_color_4b 100 149 237 255).a = ((255 : Nat) : ℚ) / 255) :=
  ⟨by decide,
   sg_make_color_4b_channels 100 149 237 255 (by decide) (by decide) (by decide) (by decide)⟩

/-- C2: for every 32-bit word x, `sg_make_color_1i(x)` is `sg_make_color_4b`
applied to the four bytes of x taken most-significant first: red is bits 31..24
(`x / 2^24`), green bits 23..16, blue bits 15..8 and alpha bits 7..0; these four
bytes are the base-256 digits of x. -/
theorem sg_make_color_1i_eq_4b (x : Nat) (hx : x < 2 ^ 32) :
    sg_make_color_1i x
      = sg_make_color_4b (x / 2 ^ 24 % 256) (x / 2 ^ 16 % 256) (x / 2 ^ 8 % 256) (x % 256) ∧
    x = (x / 2 ^ 24 % 256) * 2 ^ 24 + (x / 2 ^ 16 % 256) * 2 ^ 16
          + (x / 2 ^ 8 % 256) * 2 ^ 8 + x % 256 := by
  constructor
  · have h32 : uint32_t x = x := Nat.mod_eq_of_lt hx
    simp only [sg_make_color_1i, h32, uint8_t_shiftRight, pow_zero, Nat.div_one]
  · omega

/-- Witness for C2 at the packed word 0x6495EDFF. -/
theorem sg_make_color_1i_eq_4b_witness :
    0x6495EDFF < 2 ^ 32 ∧
    (sg_make_color_1i 0x6495EDFF
      = sg_make_color_4b (0x6495EDFF / 2 ^ 24 % 256) (0x6495EDFF / 2 ^ 16 % 256)
          (0x6495EDFF / 2 ^ 8 % 256) (0x6495EDFF % 256) ∧
    0x6495EDFF = (0x6495EDFF / 2 ^ 24 % 256) * 2 ^ 24 + (0x6495EDFF / 2 ^ 16 % 256) * 2 ^ 16
          + (0x6495EDFF / 2 ^ 8 % 256) * 2 ^ 8 + 0x6495EDFF % 256) :=
  ⟨by decide, sg_make_color_1i_eq_4b 0x6495EDFF (by decide)⟩

/-! ## Interpolation -/

/-- C4: for all colors a, b and every amount t outside [0,1],
`sg_color_lerp(a, b, t)` is `sg_color_lerp(a, b, clamp(t, 0, 1))`; every t < 0
gives the result of t = 0 and every t > 1 the result of t = 1. -/
theorem sg_color_lerp_outside_unit (a b : sg_color) (t : ℚ) (ht : t < 0 ∨ 1 < t) :
    sg_color_lerp (some a) (some b) t
      = sg_color_lerp (some a) (some b) (max 0 (min 1 t)) ∧
    (t < 0 → sg_color_lerp (some a) (some b) t = sg_color_lerp (some a) (some b) 0) ∧
    (1 < t → sg_color_lerp (some a) (some b) t = sg_color_lerp (some a) (some b) 1) := by
  rcases ht with h | h
  · have hc : _sg_color_clamp t 0 1 = 0 := by
      unfold _sg_color_clamp
      rw [if_pos h]
    have hm : max 0 (min 1 t) = 0 := by
      rw [← clamp_unit_eq_max_min, hc]
    refine ⟨?_, fun _ => ?_, fun h1 => absurd h1 (by linarith)⟩
    · simp only [sg_color_lerp, hm, hc, clamp_unit_zero]
    · simp only [sg_color_lerp, hc, clamp_unit_zero]
  · have hc : _sg_color_clamp t 0 1 = 1 := by
      unfold _sg_color_clamp
      rw [if_neg (by linarith), if_pos h]
    have hm : max 0 (min 1 t) = 1 := by
      rw [← clamp_unit_eq_max_min, hc]
    refine ⟨?_, fun h0 => absurd h0 (by linarith), fun _ => ?_⟩
    · simp only [sg_color_lerp, hm, hc, clamp_unit_one]
    · simp only [sg_color_lerp, hc, clamp_unit_one]

/-- Witness for C4 at red, blue and the amount -3. -/
theorem sg_color_lerp_outside_unit_witness :
    ((-3 : ℚ) < 0 ∨ 1 < (-3 : ℚ)) ∧
    (sg_color_lerp (some ⟨1, 0, 0, 1⟩) (some ⟨0, 0, 1, 1⟩) (-3)
      = sg_color_lerp (some ⟨1, 0, 0, 1⟩) (some ⟨0, 0, 1, 1⟩) (max 0 (min 1 (-3))) ∧
    ((-3 : ℚ) < 0 → sg_color_lerp (some ⟨1, 0, 0, 1⟩) (some ⟨0, 0, 1, 1⟩) (-3)
      = sg_color_lerp (some ⟨1, 0, 0, 1⟩) (some ⟨0, 0, 1, 1⟩) 0) ∧
    (1 < (-3 : ℚ) → sg_color_lerp (some ⟨1, 0, 0, 1⟩) (some ⟨0, 0, 1, 1⟩) (-3)
      = sg_color_lerp (some ⟨1, 0, 0, 1⟩) (some ⟨0, 0, 1, 1⟩) 1)) :=
  ⟨Or.inl (by norm_num),
   sg_color_lerp_outside_unit ⟨1, 0, 0, 1⟩ ⟨0, 0, 1, 1⟩ (-3) (Or.inl (by norm_num))⟩

/-- C5: for all colors a, b and every amount t, each channel of
`sg_color_lerp(a, b, t)` is `a_ch + (b_ch - a_ch) * t'` with t' the amount
clamped to [0,1]; the alpha channel is interpolated like the colour channels. -/
theorem sg_color_lerp_formula (a b : sg_color) (t : ℚ) :
    sg_color_lerp (some a) (some b) t = some
      { r := a.r + (b.r - a.r) * max 0 (min 1 t)
        g := a.g + (b.g - a.g) * max 0 (min 1 t)
        b := a.b + (b.b - a.b) * max 0 (min 1 t)
        a := a.a + (b.a - a.a) * max 0 (min 1 t) } := by
  simp only [sg_color_lerp, _sg_color_lerp, clamp_unit_eq_max_min]

/-- C6: for all colors a, b and every amount t, each channel of
`sg_color_lerp_precise(a, b, t)` is `(1 - t') * a_ch + t' * b_ch` with t' the
amount clamped to [0,1]. -/
theorem sg_color_lerp_precise_formula (a b : sg_color) (t : ℚ) :
    sg_color_lerp_precise (some a) (some b) t = some
      { r := (1 - max 0 (min 1 t)) * a.r + max 0 (min 1 t) * b.r
        g := (1 - max 0 (min 1 t)) * a.g + max 0 (min 1 t) * b.g
        b := (1 - max 0 (min 1 t)) * a.b + max 0 (min 1 t) * b.b
        a := (1 - max 0 (min 1 t)) * a.a + max 0 (min 1 t) * b.a } := by
  simp only [sg_color_lerp_precise, _sg_color_lerp_precise, clamp_unit_eq_max_min,
    mul_comm]

/-- C8: with exact channel arithmetic `sg_color_lerp_precise` and `sg_color_lerp`
differ only in the formula, not in the value: for all colors a, b and every
amount t, inside or outside [0,1], they return the same color. -/
theorem sg_color_lerp_eq_lerp_precise (a b : sg_color) (t : ℚ) :
    sg_color_lerp (some a) (some b) t = sg_color_lerp_precise (some a) (some b) t := by
  simp only [sg_color_lerp, sg_color_lerp_precise, _sg_color_lerp, _sg_color_lerp_precise,
    Option.some.injEq, sg_color.mk.injEq]
  refine ⟨?_, ?_, ?_, ?_⟩ <;> ring

/-! ## Scaling -/

/-- C9: for every color c and every scale s, `sg_color_multiply(c, s)` is the
color with channels c.r*s, c.g*s, c.b*s, c.a*s (alpha included), with no clamp
on the scale or on the result; in particular white scaled by 2 is {2,2,2,2}. -/
theorem sg_color_multiply_formula (c : sg_color) (s : ℚ) :
    sg_color_multiply (some c) s = some ⟨c.r * s, c.g * s, c.b * s, c.a * s⟩ ∧
    sg_color_multiply (some ⟨1, 1, 1, 1⟩) 2 = some ⟨2, 2, 2, 2⟩ := by
  constructor
  · rfl
  · simp only [sg_color_multiply, one_mul]

/-- C10: for every color c, `sg_color_multiply(c, 1)` is c. -/
theorem sg_color_multiply_one (c : sg_color) :
    sg_color_multiply (some c) 1 = some c := by
  simp only [sg_color_multiply, mul_one]

/-! ## The palette -/

set_option maxRecDepth 100000 in
/-- C12: named-constant round trip.  The palette has 146 entries, and for every
entry and every channel, the float constant's channel times 255 rounded to the
nearest integer is the corresponding byte of the entry's `SG_<NAME>_RGBA32`
constant: red the most significant byte, alpha the least significant. -/
theorem palette_round_trip :
    (float_macros.length = 146 ∧ packed_macros.length = 146 ∧ palette_rows.length = 146) ∧
    ∀ row ∈ palette_rows,
      row.macro_p.name = row.macro_f.name ++ "_RGBA32" ∧
      round (row.macro_f.value.r * 255) = ((row.macro_p.value / 2 ^ 24 % 256 : Nat) : ℤ) ∧
      round (row.macro_f.value.g * 255) = ((row.macro_p.value / 2 ^ 16 % 256 : Nat) : ℤ) ∧
      round (row.macro_f.value.b * 255) = ((row.macro_p.value / 2 ^ 8 % 256 : Nat) : ℤ) ∧
      round (row.macro_f.value.a * 255) = ((row.macro_p.value % 256 : Nat) : ℤ) := by
  decide!

set_option maxRecDepth 100000 in
/-- C13: the documented example constants have the documented values: red is
{1.0, 0.0, 0.0, 1.0} and 0xFF0000FF, green {0.0, 1.0, 0.0, 1.0} and 0x00FF00FF,
blue {0.0, 0.0, 1.0, 1.0} and 0x0000FFFF, cornflower blue
{0.392156863, 0.584313725, 0.929411765, 1.0} and 0x6495EDFF, as float macro, as
typed constant and as packed macro. -/
theorem documented_examples :
    (float_macro_value "SG_RED" = some ⟨1.0, 0.0, 0.0, 1.0⟩ ∧
      typed_constant_value "sg_red" = some ⟨1.0, 0.0, 0.0, 1.0⟩ ∧
      packed_macro_value "SG_RED_RGBA32" = some 0xFF0000FF) ∧
    (float_macro_value "SG_GREEN" = some ⟨0.0, 1.0, 0.0, 1.0⟩ ∧
      typed_constant_value "sg_green" = some ⟨0.0, 1.0, 0.0, 1.0⟩ ∧
      packed_macro_value "SG_GREEN_RGBA32" = some 0x00FF00FF) ∧
    (float_macro_value "SG_BLUE" = some ⟨0.0, 0.0, 1.0, 1.0⟩ ∧
      typed_constant_value "sg_blue" = some ⟨0.0, 0.0, 1.0, 1.0⟩ ∧
      packed_macro_value "SG_BLUE_RGBA32" = some 0x0000FFFF) ∧
    (float_macro_value "SG_CORNFLOWER_BLUE"
        = some ⟨0.392156863, 0.584313725, 0.929411765, 1.0⟩ ∧
      typed_constant_value "sg_cornflower_blue"
        = some ⟨0.392156863, 0.584313725, 0.929411765, 1.0⟩ ∧
      packed_macro_value "SG_CORNFLOWER_BLUE_RGBA32" = some 0x6495EDFF) := by
  decide!

set_option maxRecDepth 100000 in
/-- C14: every palette entry other than transparent has alpha 1.0 in its float
constant and alpha byte 0xFF, the low byte, in its packed constant; transparent
is the only entry with another alpha, and it is fully transparent black: float
{0, 0, 0, 0} and packed 0x00000000. -/
theorem palette_alpha :
    (∀ f ∈ float_macros, f.name ≠ "SG_TRANSPARENT" → f.value.a = 1.0) ∧
    (∀ p ∈ packed_macros, p.name ≠ "SG_TRANSPARENT_RGBA32" → p.value % 256 = 0xFF) ∧
    float_macros.filter (fun f => f.value.a ≠ 1.0)
      = [ float_macro.mk ⟨"Transparent", 0, 0, 0, 0⟩ "SG_TRANSPARENT" ⟨0, 0, 0, 0⟩] ∧
    packed_macros.filter (fun p => p.value % 256 ≠ 0xFF)
      = [ packed_macro.mk ⟨"Transparent", 0, 0, 0, 0⟩ "SG_TRANSPARENT_RGBA32" 0x00000000] ∧
    typed_constant_value "sg_transparent" = some ⟨0, 0, 0, 0⟩ := by
  decide!

set_option maxRecDepth 100000 in
/-- C15: the table reproduces the documented name-to-RGB pairs.  For every
entry the packed constant is `(R << 24) | (G << 16) | (B << 8) | A` for the
bytes `{ R, G, B, A }` of the comment above its definition, and the same
comment, with the same colour title and bytes, stands above the float macro, the
typed constant and the packed macro of that colour name. -/
theorem palette_documented_bytes :
    (float_macros.length = 146 ∧ typed_constants.length = 146 ∧
      packed_macros.length = 146 ∧ palette_rows.length = 146) ∧
    ∀ row ∈ palette_rows,
      (row.macro_p.comment.R < 256 ∧ row.macro_p.comment.G < 256 ∧
        row.macro_p.comment.B < 256 ∧ row.macro_p.comment.A < 256) ∧
      row.macro_p.value
        = (row.macro_p.comment.R <<< 24) ||| (row.macro_p.comment.G <<< 16)
            ||| (row.macro_p.comment.B <<< 8) ||| row.macro_p.comment.A ∧
      (row.macro_f.comment = row.macro_p.comment ∧
        row.const_t.comment = row.macro_p.comment) ∧
      (row.macro_f.name = "SG_" ++ title_stem row.macro_p.comment.title ∧
        row.const_t.name = "sg_" ++ lower_case (title_stem row.macro_p.comment.title) ∧
        row.macro_p.name = "SG_" ++ title_stem row.macro_p.comment.title ++ "_RGBA32") := by
  decide!

set_option maxRecDepth 100000 in
/-- C16: every colour name is exposed in all three forms under the naming
convention.  Each run has 146 definitions with pairwise distinct names; the
float macro names are upper case with the `SG_` head; name for name the typed
constants are their lower-case forms and the packed macros their forms with
`_RGBA32` appended; and every typed constant is initialised from the float
macro of its own name. -/
theorem palette_names :
    (float_macros.length = 146 ∧ typed_constants.length = 146 ∧
      packed_macros.length = 146 ∧ palette_rows.length = 146) ∧
    ((float_macros.map (fun f => f.name)).Nodup ∧
      (typed_constants.map (fun c => c.name)).Nodup ∧
      (packed_macros.map (fun p => p.name)).Nodup) ∧
    ∀ row ∈ palette_rows,
      (row.macro_f.name = upper_case row.macro_f.name ∧
        row.macro_f.name.data.take 3 = "SG_".data) ∧
      row.const_t.name = lower_case row.macro_f.name ∧
      row.macro_p.name = row.macro_f.name ++ "_RGBA32" ∧
      (row.const_t.init = row.macro_f.name ∧ row.const_t.init = upper_case row.const_t.name) := by
  refine ⟨by decide!, ⟨?_, ?_, ?_⟩, by decide!⟩
  · exact List.Nodup.of_map name_key (by decide!)
  · exact List.Nodup.of_map name_key (by decide!)
  · exact List.Nodup.of_map name_key (by decide!)

/-! ## Failure, range and frame -/

/-- C17: the only failure is the null-pointer precondition.  `sg_color_lerp` and
`sg_color_lerp_precise` fail exactly when `color_a` or `color_b` is null,
`sg_color_multiply` exactly when `color` is null; for non-null arguments and
every amount or scale each of them returns a color, and the two constructors
return a color for all arguments. -/
theorem null_pointer_is_the_only_failure (color_a color_b : Option sg_color) (amount : ℚ)
    (r g b a rgba : Nat) :
    (sg_color_lerp color_a color_b amount = none ↔ color_a = none ∨ color_b = none) ∧
    (sg_color_lerp_precise color_a color_b amount = none ↔ color_a = none ∨ color_b = none) ∧
    (sg_color_multiply color_a amount = none ↔ color_a = none) ∧
    (∀ ca cb : sg_color, ∃ c, sg_color_lerp (some ca) (some cb) amount = some c) ∧
    (∀ ca cb : sg_color, ∃ c, sg_color_lerp_precise (some ca) (some cb) amount = some c) ∧
    (∀ ca : sg_color, ∃ c, sg_color_multiply (some ca) amount = some c) ∧
    (∃ c, sg_make_color_4b r g b a = c) ∧
    (∃ c, sg_make_color_1i rgba = c) := by
  refine ⟨?_, ?_, ?_, ?_, ?_, ?_, ⟨_, rfl⟩, ⟨_, rfl⟩⟩
  · cases color_a <;> cases color_b <;> simp [sg_color_lerp]
  · cases color_a <;> cases color_b <;> simp [sg_color_lerp_precise]
  · cases color_a <;> simp [sg_color_multiply]
  · exact fun ca cb => ⟨_, rfl⟩
  · exact fun ca cb => ⟨_, rfl⟩
  · exact fun ca => ⟨_, rfl⟩

/-- C20: every operation reads only its arguments and returns a new value.  Run
on any memory, with the local `result` a different object from the colors
passed by pointer, each of the five functions returns the value of the
corresponding function of the argument values alone (the pointed-to colors and
the scalars), so equal arguments give equal colors; and the memory after the
call is the memory before it at every address but that of the local, the colors
passed by pointer included. -/
theorem calls_read_only_their_arguments (m : memory) (result color_a color_b : Nat)
    (amount : ℚ) (r g b a rgba : Nat)
    (ha : color_a ≠ 0) (hb : color_b ≠ 0) (hra : color_a ≠ result) (hrb : color_b ≠ result) :
    (∃ c m', sg_color_lerp_call m result color_a color_b amount = some (c, m') ∧
      sg_color_lerp (some (m color_a)) (some (m color_b)) amount = some c ∧
      ∀ q, q ≠ result → m' q = m q) ∧
    (∃ c m', sg_color_lerp_precise_call m result color_a color_b amount = some (c, m') ∧
      sg_color_lerp_precise (some (m color_a)) (some (m color_b)) amount = some c ∧
      ∀ q, q ≠ result → m' q = m q) ∧
    (∃ c m', sg_color_multiply_call m result color_a amount = some (c, m') ∧
      sg_color_multiply (some (m color_a)) amount = some c ∧
      ∀ q, q ≠ result → m' q = m q) ∧
    ((sg_make_color_4b_call m result r g b a).1 = sg_make_color_4b r g b a ∧
      ∀ q, q ≠ result → (sg_make_color_4b_call m result r g b a).2 q = m q) ∧
    ((sg_make_color_1i_call m result rgba).1 = sg_make_color_1i rgba ∧
      ∀ q, q ≠ result → (sg_make_color_1i_call m result rgba).2 q = m q) := by
  refine ⟨?_, ?_, ?_, ⟨?_, ?_⟩, ⟨?_, ?_⟩⟩
  · simp only [sg_color_lerp_call, if_neg ha, if_neg hb]
    refine ⟨_, _, rfl, ?_, ?_⟩
    · simp [sg_color_lerp, store_r, store_g, store_b, store_a, hra, hrb]
    · intro q hq
      simp [store_r, store_g, store_b, store_a, hq]
  · simp only [sg_color_lerp_precise_call, if_neg ha, if_neg hb]
    refine ⟨_, _, rfl, ?_, ?_⟩
    · simp [sg_color_lerp_precise, store_r, store_g, store_b, store_a, hra, hrb]
    · intro q hq
      simp [store_r, store_g, store_b, store_a, hq]
  · simp only [sg_color_multiply_call, if_neg ha]
    refine ⟨_, _, rfl, ?_, ?_⟩
    · simp [sg_color_multiply, store_r, store_g, store_b, store_a, hra]
    · intro q hq
      simp [store_r, store_g, store_b, store_a, hq]
  · simp [sg_make_color_4b_call, sg_make_color_4b, store_r, store_g, store_b, store_a]
  · intro q hq
    simp [sg_make_color_4b_call, store_r, store_g, store_b, store_a, hq]
  · simp [sg_make_color_1i_call, sg_make_color_1i, sg_make_color_4b_call, sg_make_color_4b,
      store_r, store_g, store_b, store_a]
  · intro q hq
    simp [sg_make_color_1i_call, sg_make_color_4b_call, store_r, store_g, store_b, store_a, hq]

/-- Witness for C20 on the memory with red at address 1 and blue at address 2,
the local at address 3, the amount 1/2 and the bytes of cornflower blue. -/
theorem calls_read_only_their_arguments_witness :
    ((1 : Nat) ≠ 0 ∧ (2 : Nat) ≠ 0 ∧ (1 : Nat) ≠ 3 ∧ (2 : Nat) ≠ 3) ∧
    ((∃ c m', sg_color_lerp_call red_blue_memory 3 1 2 (1 / 2) = some (c, m') ∧
      sg_color_lerp (some (red_blue_memory 1)) (some (red_blue_memory 2)) (1 / 2) = some c ∧
      ∀ q, q ≠ 3 → m' q = red_blue_memory q) ∧
    (∃ c m', sg_color_lerp_precise_call red_blue_memory 3 1 2 (1 / 2) = some (c, m') ∧
      sg_color_lerp_precise (some (red_blue_memory 1)) (some (red_blue_memory 2)) (1 / 2)
        = some c ∧
      ∀ q, q ≠ 3 → m' q = red_blue_memory q) ∧
    (∃ c m', sg_color_multiply_call red_blue_memory 3 1 (1 / 2) = some (c, m') ∧
      sg_color_multiply (some (red_blue_memory 1)) (1 / 2) = some c ∧
      ∀ q, q ≠ 3 → m' q = red_blue_memory q) ∧
    ((sg_make_color_4b_call red_blue_memory 3 100 149 237 255).1
        = sg_make_color_4b 100 149 237 255 ∧
      ∀ q, q ≠ 3 → (sg_make_color_4b_call red_blue_memory 3 100 149 237 255).2 q
        = red_blue_memory q) ∧
    ((sg_make_color_1i_call red_blue_memory 3 0x6495EDFF).1 = sg_make_color_1i 0x6495EDFF ∧
      ∀ q, q ≠ 3 → (sg_make_color_1i_call red_blue_memory 3 0x6495EDFF).2 q
        = red_blue_memory q)) :=
  ⟨by decide,
   calls_read_only_their_arguments red_blue_memory 3 1 2 (1 / 2) 100 149 237 255 0x6495EDFF
     (by decide) (by decide) (by decide) (by decide)⟩

/-! ## The two tables against the constructors -/

/-- C23: unpacking undoes packing.  For all bytes r, g, b, a,
`sg_make_color_1i((r << 24) | (g << 16) | (b << 8) | a)`, computed on 32-bit
unsigned words, is `sg_make_color_4b(r, g, b, a)`; and `sg_make_color_1i` is
injective on 32-bit words: two words with the same color are the same word. -/
theorem sg_make_color_1i_pack (r g b a x y : Nat)
    (hr : r < 256) (hg : g < 256) (hb : b < 256) (ha : a < 256)
    (hx : x < 2 ^ 32) (hy : y < 2 ^ 32) :
    sg_make_color_1i (uint32_t ((r <<< 24) ||| (g <<< 16) ||| (b <<< 8) ||| a))
      = sg_make_color_4b r g b a ∧
    (sg_make_color_1i x = sg_make_color_1i y → x = y) := by
  constructor
  · have hlt : r * 2 ^ 24 + g * 2 ^ 16 + b * 2 ^ 8 + a < 2 ^ 32 := by omega
    rw [pack_eq_sum hg hb ha, show uint32_t (r * 2 ^ 24 + g * 2 ^ 16 + b * 2 ^ 8 + a)
      = r * 2 ^ 24 + g * 2 ^ 16 + b * 2 ^ 8 + a from Nat.mod_eq_of_lt hlt,
      sg_make_color_1i_digits hlt]
    have e1 : (r * 2 ^ 24 + g * 2 ^ 16 + b * 2 ^ 8 + a) / 2 ^ 24 % 256 = r := by omega
    have e2 : (r * 2 ^ 24 + g * 2 ^ 16 + b * 2 ^ 8 + a) / 2 ^ 16 % 256 = g := by omega
    have e3 : (r * 2 ^ 24 + g * 2 ^ 16 + b * 2 ^ 8 + a) / 2 ^ 8 % 256 = b := by omega
    have e4 : (r * 2 ^ 24 + g * 2 ^ 16 + b * 2 ^ 8 + a) % 256 = a := by omega
    rw [e1, e2, e3, e4]
  · intro h
    rw [sg_make_color_1i_digits hx, sg_make_color_1i_digits hy] at h
    have hd := sg_make_color_4b_inj (Nat.mod_lt _ (by norm_num)) (Nat.mod_lt _ (by norm_num))
      (Nat.mod_lt _ (by norm_num)) (Nat.mod_lt _ (by norm_num))
      (Nat.mod_lt _ (by norm_num)) (Nat.mod_lt _ (by norm_num))
      (Nat.mod_lt _ (by norm_num)) (Nat.mod_lt _ (by norm_num)) h
    omega

/-- Witness for C23 at the bytes and the packed word of cornflower blue. -/
theorem sg_make_color_1i_pack_witness :
    (100 < 256 ∧ 149 < 256 ∧ 237 < 256 ∧ 255 < 256 ∧
      0x6495EDFF < 2 ^ 32 ∧ 0x6495EDFF < 2 ^ 32) ∧
    (sg_make_color_1i (uint32_t ((100 <<< 24) ||| (149 <<< 16) ||| (237 <<< 8) ||| 255))
      = sg_make_color_4b 100 149 237 255 ∧
    (sg_make_color_1i 0x6495EDFF = sg_make_color_1i 0x6495EDFF → 0x6495EDFF = 0x6495EDFF)) :=
  ⟨by decide,
   sg_make_color_1i_pack 100 149 237 255 0x6495EDFF 0x6495EDFF (by decide) (by decide)
     (by decide) (by decide) (by decide) (by decide)⟩

/-- C24: the byte constructor loses no information.  For all bytes r, g, b, a,
each channel of `sg_make_color_4b(r, g, b, a)` times 255, rounded to the nearest
integer, is r, g, b, a again; so `sg_make_color_4b` is injective on bytes. -/
theorem sg_make_color_4b_round_trip (r g b a r2 g2 b2 a2 : Nat)
    (hr : r < 256) (hg : g < 256) (hb : b < 256) (ha : a < 256)
    (hr2 : r2 < 256) (hg2 : g2 < 256) (hb2 : b2 < 256) (ha2 : a2 < 256) :
    (round ((sg_make_color_4b r g b a).r * 255) = (r : ℤ) ∧
      round ((sg_make_color_4b r g b a).g * 255) = (g : ℤ) ∧
      round ((sg_make_color_4b r g b a).b * 255) = (b : ℤ) ∧
      round ((sg_make_color_4b r g b a).a * 255) = (a : ℤ)) ∧
    (sg_make_color_4b r g b a = sg_make_color_4b r2 g2 b2 a2 →
      r = r2 ∧ g = g2 ∧ b = b2 ∧ a = a2) := by
  have key : ∀ n : Nat, n < 256 → round ((uint8_t n : ℚ) / 255 * 255) = (n : ℤ) := by
    intro n hn
    rw [uint8_t_of_lt hn, div_mul_cancel₀ _ (by norm_num : (255 : ℚ) ≠ 0)]
    exact round_natCast n
  exact ⟨⟨key r hr, key g hg, key b hb, key a ha⟩,
    sg_make_color_4b_inj hr hg hb ha hr2 hg2 hb2 ha2⟩

/-- Witness for C24 at the bytes of cornflower blue and of alice blue. -/
theorem sg_make_color_4b_round_trip_witness :
    (100 < 256 ∧ 149 < 256 ∧ 237 < 256 ∧ 255 < 256 ∧
      240 < 256 ∧ 248 < 256 ∧ 255 < 256 ∧ 255 < 256) ∧
    ((round ((sg_make_color_4b 100 149 237 255).r * 255) = ((100 : Nat) : ℤ) ∧
      round ((sg_make_color_4b 100 149 237 255).g * 255) = ((149 : Nat) : ℤ) ∧
      round ((sg_make_color_4b 100 149 237 255).b * 255) = ((237 : Nat) : ℤ) ∧
      round ((sg_make_color_4b 100 149 237 255).a * 255) = ((255 : Nat) : ℤ)) ∧
    (sg_make_color_4b 100 149 237 255 = sg_make_color_4b 240 248 255 255 →
      100 = 240 ∧ 149 = 248 ∧ 237 = 255 ∧ 255 = 255)) :=
  ⟨by decide,
   sg_make_color_4b_round_trip 100 149 237 255 240 248 255 255 (by decide) (by decide)
     (by decide) (by decide) (by decide) (by decide) (by decide) (by decide)⟩

/-- C25: the constructors only produce normalised colors.  For all bytes every
channel of `sg_make_color_4b` lies in [0,1], and so does every channel of
`sg_make_color_1i` on a 32-bit word; the byte 0 gives exactly 0, the byte 255
exactly 1, and a larger byte never gives a smaller channel. -/
theorem constructors_normalised (r g b a r2 g2 b2 a2 x : Nat)
    (hr : r < 256) (hg : g < 256) (hb : b < 256) (ha : a < 256)
    (hr2 : r2 < 256) (hg2 : g2 < 256) (hb2 : b2 < 256) (ha2 : a2 < 256)
    (hx : x < 2 ^ 32) :
    unit_range (sg_make_color_4b r g b a) ∧
    unit_range (sg_make_color_1i x) ∧
    sg_make_color_4b 0 0 0 0 = ⟨0, 0, 0, 0⟩ ∧
    sg_make_color_4b 255 255 255 255 = ⟨1, 1, 1, 1⟩ ∧
    (r ≤ r2 → (sg_make_color_4b r g b a).r ≤ (sg_make_color_4b r2 g2 b2 a2).r) ∧
    (g ≤ g2 → (sg_make_color_4b r g b a).g ≤ (sg_make_color_4b r2 g2 b2 a2).g) ∧
    (b ≤ b2 → (sg_make_color_4b r g b a).b ≤ (sg_make_color_4b r2 g2 b2 a2).b) ∧
    (a ≤ a2 → (sg_make_color_4b r g b a).a ≤ (sg_make_color_4b r2 g2 b2 a2).a) := by
  have range : ∀ n : Nat, 0 ≤ (uint8_t n : ℚ) / 255 ∧ (uint8_t n : ℚ) / 255 ≤ 1 := by
    intro n
    have h : uint8_t n ≤ 255 := by
      unfold uint8_t
      omega
    have hq : (uint8_t n : ℚ) ≤ 255 := by exact_mod_cast h
    constructor
    · positivity
    · rw [div_le_one (by norm_num)]
      exact hq
  have mono : ∀ n k : Nat, n < 256 → k < 256 → n ≤ k →
      (uint8_t n : ℚ) / 255 ≤ (uint8_t k : ℚ) / 255 := by
    intro n k hn hk hnk
    rw [uint8_t_of_lt hn, uint8_t_of_lt hk]
    have : (n : ℚ) ≤ (k : ℚ) := by exact_mod_cast hnk
    exact div_le_div_of_nonneg_right this (by norm_num)
  refine ⟨⟨range r, range g, range b, range a⟩, ?_, ?_, ?_, mono r r2 hr hr2, mono g g2 hg hg2,
    mono b b2 hb hb2, mono a a2 ha ha2⟩
  · rw [sg_make_color_1i_digits hx]
    exact ⟨range _, range _, range _, range _⟩
  · norm_num [sg_make_color_4b, uint8_t]
  · norm_num [sg_make_color_4b, uint8_t]

/-- Witness for C25 at the bytes of cornflower blue and of alice blue and the
packed word of cornflower blue. -/
theorem constructors_normalised_witness :
    (100 < 256 ∧ 149 < 256 ∧ 237 < 256 ∧ 255 < 256 ∧
      240 < 256 ∧ 248 < 256 ∧ 255 < 256 ∧ 255 < 256 ∧ 0x6495EDFF < 2 ^ 32) ∧
    (unit_range (sg_make_color_4b 100 149 237 255) ∧
    unit_range (sg_make_color_1i 0x6495EDFF) ∧
    sg_make_color_4b 0 0 0 0 = ⟨0, 0, 0, 0⟩ ∧
    sg_make_color_4b 255 255 255 255 = ⟨1, 1, 1, 1⟩ ∧
    (100 ≤ 240 →
      (sg_make_color_4b 100 149 237 255).r ≤ (sg_make_color_4b 240 248 255 255).r) ∧
    (149 ≤ 248 →
      (sg_make_color_4b 100 149 237 255).g ≤ (sg_make_color_4b 240 248 255 255).g) ∧
    (237 ≤ 255 →
      (sg_make_color_4b 100 149 237 255).b ≤ (sg_make_color_4b 240 248 255 255).b) ∧
    (255 ≤ 255 →
      (sg_make_color_4b 100 149 237 255).a ≤ (sg_make_color_4b 240 248 255 255).a)) :=
  ⟨by decide,
   constructors_normalised 100 149 237 255 240 248 255 255 0x6495EDFF (by decide) (by decide)
     (by decide) (by decide) (by decide) (by decide) (by decide) (by decide) (by decide)⟩

set_option maxRecDepth 100000 in
/-- C26: the synonym pairs of the palette are identical in both representations:
aqua and cyan, fuchsia and magenta, and green and lime have equal float
constants and equal packed constants. -/
theorem palette_synonyms :
    (float_macro_value "SG_AQUA" = some ⟨0.0, 1.0, 1.0, 1.0⟩ ∧
      float_macro_value "SG_CYAN" = float_macro_value "SG_AQUA" ∧
      typed_constant_value "sg_aqua" = some ⟨0.0, 1.0, 1.0, 1.0⟩ ∧
      typed_constant_value "sg_cyan" = typed_constant_value "sg_aqua" ∧
      packed_macro_value "SG_AQUA_RGBA32" = some 0x00FFFFFF ∧
      packed_macro_value "SG_CYAN_RGBA32" = packed_macro_value "SG_AQUA_RGBA32") ∧
    (float_macro_value "SG_FUCHSIA" = some ⟨1.0, 0.0, 1.0, 1.0⟩ ∧
      float_macro_value "SG_MAGENTA" = float_macro_value "SG_FUCHSIA" ∧
      typed_constant_value "sg_fuchsia" = some ⟨1.0, 0.0, 1.0, 1.0⟩ ∧
      typed_constant_value "sg_magenta" = typed_constant_value "sg_fuchsia" ∧
      packed_macro_value "SG_FUCHSIA_RGBA32" = some 0xFF00FFFF ∧
      packed_macro_value "SG_MAGENTA_RGBA32" = packed_macro_value "SG_FUCHSIA_RGBA32") ∧
    (float_macro_value "SG_GREEN" = some ⟨0.0, 1.0, 0.0, 1.0⟩ ∧
      float_macro_value "SG_LIME" = float_macro_value "SG_GREEN" ∧
      typed_constant_value "sg_green" = some ⟨0.0, 1.0, 0.0, 1.0⟩ ∧
      typed_constant_value "sg_lime" = typed_constant_value "sg_green" ∧
      packed_macro_value "SG_GREEN_RGBA32" = some 0x00FF00FF ∧
      packed_macro_value "SG_LIME_RGBA32" = packed_macro_value "SG_GREEN_RGBA32") := by
  decide!

/-! ## Algebra of interpolation and scaling -/

/-- C28: interpolation is symmetric under swapping the endpoints: with exact
channel arithmetic, for all colors a, b and every t in [0,1],
`sg_color_lerp(a, b, t)` is `sg_color_lerp(b, a, 1 - t)`, and likewise for
`sg_color_lerp_precise`. -/
theorem sg_color_lerp_swap (a b : sg_color) (t : ℚ) (h0 : 0 ≤ t) (h1 : t ≤ 1) :
    sg_color_lerp (some a) (some b) t = sg_color_lerp (some b) (some a) (1 - t) ∧
    sg_color_lerp_precise (some a) (some b) t
      = sg_color_lerp_precise (some b) (some a) (1 - t) := by
  have e1 : _sg_color_clamp t 0 1 = t := clamp_unit_of_mem h0 h1
  have e2 : _sg_color_clamp (1 - t) 0 1 = 1 - t :=
    clamp_unit_of_mem (sub_nonneg.mpr h1) (by linarith)
  constructor
  · simp only [sg_color_lerp, e1, e2, _sg_color_lerp, Option.some.injEq, sg_color.mk.injEq]
    refine ⟨?_, ?_, ?_, ?_⟩ <;> ring
  · simp only [sg_color_lerp_precise, e1, e2, _sg_color_lerp_precise, Option.some.injEq,
      sg_color.mk.injEq]
    refine ⟨?_, ?_, ?_, ?_⟩ <;> ring

/-- Witness for C28 at red, blue and the amount 1/4. -/
theorem sg_color_lerp_swap_witness :
    ((0 : ℚ) ≤ 1 / 4 ∧ (1 / 4 : ℚ) ≤ 1) ∧
    (sg_color_lerp (some ⟨1, 0, 0, 1⟩) (some ⟨0, 0, 1, 1⟩) (1 / 4)
      = sg_color_lerp (some ⟨0, 0, 1, 1⟩) (some ⟨1, 0, 0, 1⟩) (1 - 1 / 4) ∧
    sg_color_lerp_precise (some ⟨1, 0, 0, 1⟩) (some ⟨0, 0, 1, 1⟩) (1 / 4)
      = sg_color_lerp_precise (some ⟨0, 0, 1, 1⟩) (some ⟨1, 0, 0, 1⟩) (1 - 1 / 4)) :=
  ⟨by norm_num,
   sg_color_lerp_swap ⟨1, 0, 0, 1⟩ ⟨0, 0, 1, 1⟩ (1 / 4) (by norm_num) (by norm_num)⟩

/-- C29: interpolation is monotone and never overshoots.  With exact channel
arithmetic, for all colors a, b and amounts t1 <= t2, on each of the four
channels the result moves from a towards b (if a_ch <= b_ch the channel at t1
is at most the channel at t2, and if a_ch >= b_ch it is at least that), and at
every amount the channel lies between min(a_ch, b_ch) and max(a_ch, b_ch). -/
theorem sg_color_lerp_monotone (a b : sg_color) (t1 t2 : ℚ) (h : t1 ≤ t2) :
    ∃ c1 c2, sg_color_lerp (some a) (some b) t1 = some c1 ∧
      sg_color_lerp (some a) (some b) t2 = some c2 ∧
      ∀ ch ∈ ([sg_color.r, sg_color.g, sg_color.b, sg_color.a] : List (sg_color → ℚ)),
        (ch a ≤ ch b → ch c1 ≤ ch c2) ∧
        (ch b ≤ ch a → ch c2 ≤ ch c1) ∧
        (min (ch a) (ch b) ≤ ch c1 ∧ ch c1 ≤ max (ch a) (ch b)) ∧
        (min (ch a) (ch b) ≤ ch c2 ∧ ch c2 ≤ max (ch a) (ch b)) := by
  obtain ⟨hs0, _⟩ := clamp_unit_mem t1
  obtain ⟨hu0, hu1⟩ := clamp_unit_mem t2
  have hsu := clamp_unit_mono h
  have key : ∀ x y : ℚ,
      (x ≤ y → _sg_color_lerp x y (_sg_color_clamp t1 0 1)
        ≤ _sg_color_lerp x y (_sg_color_clamp t2 0 1)) ∧
      (y ≤ x → _sg_color_lerp x y (_sg_color_clamp t2 0 1)
        ≤ _sg_color_lerp x y (_sg_color_clamp t1 0 1)) ∧
      (min x y ≤ _sg_color_lerp x y (_sg_color_clamp t1 0 1) ∧
        _sg_color_lerp x y (_sg_color_clamp t1 0 1) ≤ max x y) ∧
      (min x y ≤ _sg_color_lerp x y (_sg_color_clamp t2 0 1) ∧
        _sg_color_lerp x y (_sg_color_clamp t2 0 1) ≤ max x y) := by
    intro x y
    obtain ⟨m1, m2, m3, m4⟩ := @lerp_channel_between x y _ _ hs0 hsu hu1
    obtain ⟨_, _, m5, m6⟩ := @lerp_channel_between x y _ _ hu0 (le_refl _) hu1
    exact ⟨m1, m2, ⟨m3, m4⟩, ⟨m5, m6⟩⟩
  refine ⟨_, _, rfl, rfl, ?_⟩
  intro ch hch
  simp only [List.mem_cons, List.mem_singleton, List.not_mem_nil, or_false] at hch
  rcases hch with e | e | e | e <;> subst e <;> exact key _ _

/-- Witness for C29 at red, cornflower blue and the amounts 1/4 and 3/4. -/
theorem sg_color_lerp_monotone_witness :
    ((1 / 4 : ℚ) ≤ 3 / 4) ∧
    (∃ c1 c2, sg_color_lerp (some ⟨1.0, 0.0, 0.0, 1.0⟩)
        (some ⟨0.392156863, 0.584313725, 0.929411765, 1.0⟩) (1 / 4) = some c1 ∧
      sg_color_lerp (some ⟨1.0, 0.0, 0.0, 1.0⟩)
        (some ⟨0.392156863, 0.584313725, 0.929411765, 1.0⟩) (3 / 4) = some c2 ∧
      ∀ ch ∈ ([sg_color.r, sg_color.g, sg_color.b, sg_color.a] : List (sg_color → ℚ)),
        (ch ⟨1.0, 0.0, 0.0, 1.0⟩ ≤ ch ⟨0.392156863, 0.584313725, 0.929411765, 1.0⟩ →
          ch c1 ≤ ch c2) ∧
        (ch ⟨0.392156863, 0.584313725, 0.929411765, 1.0⟩ ≤ ch ⟨1.0, 0.0, 0.0, 1.0⟩ →
          ch c2 ≤ ch c1) ∧
        (min (ch ⟨1.0, 0.0, 0.0, 1.0⟩) (ch ⟨0.392156863, 0.584313725, 0.929411765, 1.0⟩)
            ≤ ch c1 ∧
          ch c1 ≤ max (ch ⟨1.0, 0.0, 0.0, 1.0⟩)
            (ch ⟨0.392156863, 0.584313725, 0.929411765, 1.0⟩)) ∧
        (min (ch ⟨1.0, 0.0, 0.0, 1.0⟩) (ch ⟨0.392156863, 0.584313725, 0.929411765, 1.0⟩)
            ≤ ch c2 ∧
          ch c2 ≤ max (ch ⟨1.0, 0.0, 0.0, 1.0⟩)
            (ch ⟨0.392156863, 0.584313725, 0.929411765, 1.0⟩))) :=
  ⟨by norm_num,
   sg_color_lerp_monotone ⟨1.0, 0.0, 0.0, 1.0⟩
     ⟨0.392156863, 0.584313725, 0.929411765, 1.0⟩ (1 / 4) (3 / 4) (by norm_num)⟩

/-- C30: scaling commutes with interpolation: with exact channel arithmetic, for
all colors a, b, every amount t and every scale s, scaling
`sg_color_lerp(a, b, t)` by s gives `sg_color_lerp` of a scaled by s and b scaled
by s at the same amount t. -/
theorem sg_color_multiply_lerp (a b : sg_color) (t s : ℚ) :
    sg_color_multiply (sg_color_lerp (some a) (some b) t) s
      = sg_color_lerp (sg_color_multiply (some a) s) (sg_color_multiply (some b) s) t := by
  simp only [sg_color_lerp, sg_color_multiply, _sg_color_lerp, Option.some.injEq,
    sg_color.mk.injEq]
  refine ⟨?_, ?_, ?_, ?_⟩ <;> ring

/-- C31: scalings compose multiplicatively: with exact channel arithmetic, for
every color c and scales s and u, scaling c by s and the result by u is scaling
c by s * u; so two scalings commute. -/
theorem sg_color_multiply_multiply (c : sg_color) (s u : ℚ) :
    sg_color_multiply (sg_color_multiply (some c) s) u = sg_color_multiply (some c) (s * u) ∧
    sg_color_multiply (sg_color_multiply (some c) s) u
      = sg_color_multiply (sg_color_multiply (some c) u) s := by
  constructor
  · simp only [sg_color_multiply, mul_assoc]
  · simp only [sg_color_multiply, mul_right_comm]

/-! ## Interpolation endpoints in binary32 -/

/-- C3, counterexample: in binary32 the endpoints are not always returned.  With
every channel of a equal to 1 and every channel of b equal to 0.1f,
`sg_color_lerp(a, b, 1)` has the channels 838861/8388608, which is 3/2^27 above
0.1f = 13421773/134217728, because b - a is rounded; and with red
channels -3 * 2^126 and 3 * 2^126 the difference overflows, so the red channel
of `sg_color_lerp(a, b, 0)` is NaN. -/
theorem sg_color_lerp_endpoints_counterexample :
    (F32.finite_color ⟨binary32.fin 1, binary32.fin 1, binary32.fin 1, binary32.fin 1⟩ ∧
      F32.literal ⟨0.1, 0.1, 0.1, 0.1⟩
        = ⟨binary32.fin (13421773 / 134217728), binary32.fin (13421773 / 134217728),
           binary32.fin (13421773 / 134217728), binary32.fin (13421773 / 134217728)⟩ ∧
      F32.finite_color (F32.literal ⟨0.1, 0.1, 0.1, 0.1⟩) ∧
      F32.sg_color_lerp
          (some ⟨binary32.fin 1, binary32.fin 1, binary32.fin 1, binary32.fin 1⟩)
          (some (F32.literal ⟨0.1, 0.1, 0.1, 0.1⟩)) (binary32.fin 1)
        = some ⟨binary32.fin (838861 / 8388608), binary32.fin (838861 / 8388608),
            binary32.fin (838861 / 8388608), binary32.fin (838861 / 8388608)⟩ ∧
      F32.sg_color_lerp
          (some ⟨binary32.fin 1, binary32.fin 1, binary32.fin 1, binary32.fin 1⟩)
          (some (F32.literal ⟨0.1, 0.1, 0.1, 0.1⟩)) (binary32.fin 1)
        ≠ some (F32.literal ⟨0.1, 0.1, 0.1, 0.1⟩)) ∧
    (F32.finite_color
        ⟨binary32.fin (-(3 * 2 ^ 126)), binary32.fin 0, binary32.fin 0, binary32.fin 1⟩ ∧
      F32.finite_color
        ⟨binary32.fin (3 * 2 ^ 126), binary32.fin 0, binary32.fin 0, binary32.fin 1⟩ ∧
      F32.sg_color_lerp
          (some ⟨binary32.fin (-(3 * 2 ^ 126)), binary32.fin 0, binary32.fin 0, binary32.fin 1⟩)
          (some ⟨binary32.fin (3 * 2 ^ 126), binary32.fin 0, binary32.fin 0, binary32.fin 1⟩)
          (binary32.fin 0)
        = some ⟨binary32.nan, binary32.fin 0, binary32.fin 0, binary32.fin 1⟩ ∧
      F32.sg_color_lerp
          (some ⟨binary32.fin (-(3 * 2 ^ 126)), binary32.fin 0, binary32.fin 0, binary32.fin 1⟩)
          (some ⟨binary32.fin (3 * 2 ^ 126), binary32.fin 0, binary32.fin 0, binary32.fin 1⟩)
          (binary32.fin 0)
        ≠ some ⟨binary32.fin (-(3 * 2 ^ 126)), binary32.fin 0, binary32.fin 0,
            binary32.fin 1⟩) := by
  decide!

/-- C3, amended: in binary32, for all colors a and b with finite channels,
`sg_color_lerp(a, b, 0)` is a when no channel difference b - a overflows, and
`sg_color_lerp(a, b, 1)` is b when every channel difference b - a is itself a
binary32 value; on all four channels, whatever their range. -/
theorem sg_color_lerp_endpoints_binary32 (a b : F32.sg_color)
    (ha : F32.finite_color a) (hb : F32.finite_color b) :
    ((∀ d ∈ F32.differences a b, (binary32.round32 d).finite) →
      F32.sg_color_lerp (some a) (some b) (binary32.fin 0) = some a) ∧
    ((∀ d ∈ F32.differences a b, binary32.representable d) →
      F32.sg_color_lerp (some a) (some b) (binary32.fin 1) = some b) := by
  obtain ⟨r, g, b1, a1, rfl, hr, hg, hb1, ha1⟩ := F32.finite_color_cases ha
  obtain ⟨r2, g2, b2, a2, rfl, hr2, hg2, hb2, ha2⟩ := F32.finite_color_cases hb
  constructor
  · intro h
    simp only [F32.differences, binary32.to_rat, List.forall_mem_cons, List.mem_singleton,
      forall_eq, List.not_mem_nil, false_implies, implies_true, and_true] at h
    obtain ⟨d1, d2, d3, d4⟩ := h
    simp only [F32.sg_color_lerp, F32.clamp_zero, F32.lerp_channel_zero hr (F32.round32_fin d1),
      F32.lerp_channel_zero hg (F32.round32_fin d2),
      F32.lerp_channel_zero hb1 (F32.round32_fin d3),
      F32.lerp_channel_zero ha1 (F32.round32_fin d4)]
  · intro h
    simp only [F32.differences, binary32.to_rat, List.forall_mem_cons, List.mem_singleton,
      forall_eq, List.not_mem_nil, false_implies, implies_true, and_true] at h
    obtain ⟨d1, d2, d3, d4⟩ := h
    simp only [F32.sg_color_lerp, F32.clamp_one, F32.lerp_channel_one hr2 d1,
      F32.lerp_channel_one hg2 d2, F32.lerp_channel_one hb2 d3, F32.lerp_channel_one ha2 d4]

/-- Witness for C3 at red and blue. -/
theorem sg_color_lerp_endpoints_binary32_witness :
    (F32.finite_color ⟨binary32.fin 1, binary32.fin 0, binary32.fin 0, binary32.fin 1⟩ ∧
      F32.finite_color ⟨binary32.fin 0, binary32.fin 0, binary32.fin 1, binary32.fin 1⟩) ∧
    F32.sg_color_lerp
        (some ⟨binary32.fin 1, binary32.fin 0, binary32.fin 0, binary32.fin 1⟩)
        (some ⟨binary32.fin 0, binary32.fin 0, binary32.fin 1, binary32.fin 1⟩)
        (binary32.fin 0)
      = some ⟨binary32.fin 1, binary32.fin 0, binary32.fin 0, binary32.fin 1⟩ ∧
    F32.sg_color_lerp
        (some ⟨binary32.fin 1, binary32.fin 0, binary32.fin 0, binary32.fin 1⟩)
        (some ⟨binary32.fin 0, binary32.fin 0, binary32.fin 1, binary32.fin 1⟩)
        (binary32.fin 1)
      = some ⟨binary32.fin 0, binary32.fin 0, binary32.fin 1, binary32.fin 1⟩ :=
  ⟨by decide!,
   (sg_color_lerp_endpoints_binary32
      ⟨binary32.fin 1, binary32.fin 0, binary32.fin 0, binary32.fin 1⟩
      ⟨binary32.fin 0, binary32.fin 0, binary32.fin 1, binary32.fin 1⟩
      (by decide!) (by decide!)).1 (by decide!),
   (sg_color_lerp_endpoints_binary32
      ⟨binary32.fin 1, binary32.fin 0, binary32.fin 0, binary32.fin 1⟩
      ⟨binary32.fin 0, binary32.fin 0, binary32.fin 1, binary32.fin 1⟩
      (by decide!) (by decide!)).2 (by decide!)⟩

/-- C7, counterexample: in binary32 the two functions do not always agree at the
endpoints.  With every channel of a equal to 1 and every channel of b equal to
0.1f = 13421773/134217728, `sg_color_lerp(a, b, 1)` has the channels
838861/8388608 while `sg_color_lerp_precise(a, b, 1)` is b. -/
theorem sg_color_lerp_agree_counterexample :
    F32.finite_color ⟨binary32.fin 1, binary32.fin 1, binary32.fin 1, binary32.fin 1⟩ ∧
    F32.finite_color (F32.literal ⟨0.1, 0.1, 0.1, 0.1⟩) ∧
    F32.sg_color_lerp
        (some ⟨binary32.fin 1, binary32.fin 1, binary32.fin 1, binary32.fin 1⟩)
        (some (F32.literal ⟨0.1, 0.1, 0.1, 0.1⟩)) (binary32.fin 1)
      = some ⟨binary32.fin (838861 / 8388608), binary32.fin (838861 / 8388608),
          binary32.fin (838861 / 8388608), binary32.fin (838861 / 8388608)⟩ ∧
    F32.sg_color_lerp_precise
        (some ⟨binary32.fin 1, binary32.fin 1, binary32.fin 1, binary32.fin 1⟩)
        (some (F32.literal ⟨0.1, 0.1, 0.1, 0.1⟩)) (binary32.fin 1)
      = some ⟨binary32.fin (13421773 / 134217728), binary32.fin (13421773 / 134217728),
          binary32.fin (13421773 / 134217728), binary32.fin (13421773 / 134217728)⟩ ∧
    F32.sg_color_lerp
        (some ⟨binary32.fin 1, binary32.fin 1, binary32.fin 1, binary32.fin 1⟩)
        (some (F32.literal ⟨0.1, 0.1, 0.1, 0.1⟩)) (binary32.fin 1)
      ≠ F32.sg_color_lerp_precise
        (some ⟨binary32.fin 1, binary32.fin 1, binary32.fin 1, binary32.fin 1⟩)
        (some (F32.literal ⟨0.1, 0.1, 0.1, 0.1⟩)) (binary32.fin 1) := by
  decide!

/-- C7, amended: in binary32, for all colors a and b with finite channels,
`sg_color_lerp` and `sg_color_lerp_precise` return the same color at t = 0,
namely a, when no channel difference b - a overflows; at t = 0.5, namely the
per-channel midpoint (a + b) / 2 rounded to binary32, when the channel
differences, their halves and the halves of the channels are binary32 values;
and at t = 1, namely b, when the channel differences are binary32 values. -/
theorem sg_color_lerp_agree_binary32 (a b : F32.sg_color)
    (ha : F32.finite_color a) (hb : F32.finite_color b) :
    ((∀ d ∈ F32.differences a b, (binary32.round32 d).finite) →
      F32.sg_color_lerp (some a) (some b) (binary32.fin 0) = some a ∧
      F32.sg_color_lerp_precise (some a) (some b) (binary32.fin 0) = some a) ∧
    ((∀ d ∈ F32.differences a b, binary32.representable d ∧ binary32.representable (d / 2)) →
      (∀ c ∈ F32.channels a ++ F32.channels b, binary32.representable (c / 2)) →
      F32.sg_color_lerp (some a) (some b) (binary32.fin (1 / 2)) = some (F32.midpoint a b) ∧
      F32.sg_color_lerp_precise (some a) (some b) (binary32.fin (1 / 2))
        = some (F32.midpoint a b)) ∧
    ((∀ d ∈ F32.differences a b, binary32.representable d) →
      F32.sg_color_lerp (some a) (some b) (binary32.fin 1) = some b ∧
      F32.sg_color_lerp_precise (some a) (some b) (binary32.fin 1) = some b) := by
  obtain ⟨r, g, b1, a1, rfl, hr, hg, hb1, ha1⟩ := F32.finite_color_cases ha
  obtain ⟨r2, g2, b2, a2, rfl, hr2, hg2, hb2, ha2⟩ := F32.finite_color_cases hb
  refine ⟨?_, ?_, ?_⟩
  · intro h
    simp only [F32.differences, binary32.to_rat, List.forall_mem_cons, List.mem_singleton,
      forall_eq, List.not_mem_nil, false_implies, implies_true, and_true] at h
    obtain ⟨d1, d2, d3, d4⟩ := h
    constructor
    · simp only [F32.sg_color_lerp, F32.clamp_zero,
        F32.lerp_channel_zero hr (F32.round32_fin d1),
        F32.lerp_channel_zero hg (F32.round32_fin d2),
        F32.lerp_channel_zero hb1 (F32.round32_fin d3),
        F32.lerp_channel_zero ha1 (F32.round32_fin d4)]
    · simp only [F32.sg_color_lerp_precise, F32.clamp_zero, F32.lerp_precise_channel_zero hr,
        F32.lerp_precise_channel_zero hg, F32.lerp_precise_channel_zero hb1,
        F32.lerp_precise_channel_zero ha1]
  · intro h hc
    simp only [F32.differences, binary32.to_rat, List.forall_mem_cons, List.mem_singleton,
      forall_eq, List.not_mem_nil, false_implies, implies_true, and_true] at h
    simp only [F32.channels, binary32.to_rat, List.cons_append, List.nil_append,
      List.forall_mem_cons, List.mem_singleton, forall_eq, List.not_mem_nil, false_implies,
      implies_true, and_true] at hc
    obtain ⟨⟨d1, e1⟩, ⟨d2, e2⟩, ⟨d3, e3⟩, ⟨d4, e4⟩⟩ := h
    obtain ⟨c1, c2, c3, c4, c5, c6, c7, c8⟩ := hc
    constructor
    · simp only [F32.sg_color_lerp, F32.clamp_half, F32.midpoint, binary32.to_rat,
        F32.lerp_channel_half d1 e1, F32.lerp_channel_half d2 e2,
        F32.lerp_channel_half d3 e3, F32.lerp_channel_half d4 e4]
    · simp only [F32.sg_color_lerp_precise, F32.clamp_half, F32.midpoint, binary32.to_rat,
        F32.lerp_precise_channel_half c1 c5, F32.lerp_precise_channel_half c2 c6,
        F32.lerp_precise_channel_half c3 c7, F32.lerp_precise_channel_half c4 c8]
  · intro h
    simp only [F32.differences, binary32.to_rat, List.forall_mem_cons, List.mem_singleton,
      forall_eq, List.not_mem_nil, false_implies, implies_true, and_true] at h
    obtain ⟨d1, d2, d3, d4⟩ := h
    constructor
    · simp only [F32.sg_color_lerp, F32.clamp_one, F32.lerp_channel_one hr2 d1,
        F32.lerp_channel_one hg2 d2, F32.lerp_channel_one hb2 d3, F32.lerp_channel_one ha2 d4]
    · simp only [F32.sg_color_lerp_precise, F32.clamp_one, F32.lerp_precise_channel_one hr2,
        F32.lerp_precise_channel_one hg2, F32.lerp_precise_channel_one hb2,
        F32.lerp_precise_channel_one ha2]

/-- Witness for C7 at red and blue: all three conditions hold, and the midpoint
is the color with the channels 1/2, 0, 1/2, 1. -/
theorem sg_color_lerp_agree_binary32_witness :
    (F32.finite_color ⟨binary32.fin 1, binary32.fin 0, binary32.fin 0, binary32.fin 1⟩ ∧
      F32.finite_color ⟨binary32.fin 0, binary32.fin 0, binary32.fin 1, binary32.fin 1⟩) ∧
    F32.midpoint ⟨binary32.fin 1, binary32.fin 0, binary32.fin 0, binary32.fin 1⟩
        ⟨binary32.fin 0, binary32.fin 0, binary32.fin 1, binary32.fin 1⟩
      = ⟨binary32.fin (1 / 2), binary32.fin 0, binary32.fin (1 / 2), binary32.fin 1⟩ ∧
    (F32.sg_color_lerp
        (some ⟨binary32.fin 1, binary32.fin 0, binary32.fin 0, binary32.fin 1⟩)
        (some ⟨binary32.fin 0, binary32.fin 0, binary32.fin 1, binary32.fin 1⟩)
        (binary32.fin 0)
      = some ⟨binary32.fin 1, binary32.fin 0, binary32.fin 0, binary32.fin 1⟩ ∧
     F32.sg_color_lerp_precise
        (some ⟨binary32.fin 1, binary32.fin 0, binary32.fin 0, binary32.fin 1⟩)
        (some ⟨binary32.fin 0, binary32.fin 0, binary32.fin 1, binary32.fin 1⟩)
        (binary32.fin 0)
      = some ⟨binary32.fin 1, binary32.fin 0, binary32.fin 0, binary32.fin 1⟩) ∧
    (F32.sg_color_lerp
        (some ⟨binary32.fin 1, binary32.fin 0, binary32.fin 0, binary32.fin 1⟩)
        (some ⟨binary32.fin 0, binary32.fin 0, binary32.fin 1, binary32.fin 1⟩)
        (binary32.fin (1 / 2))
      = some (F32.midpoint ⟨binary32.fin 1, binary32.fin 0, binary32.fin 0, binary32.fin 1⟩
          ⟨binary32.fin 0, binary32.fin 0, binary32.fin 1, binary32.fin 1⟩) ∧
     F32.sg_color_lerp_precise
        (some ⟨binary32.fin 1, binary32.fin 0, binary32.fin 0, binary32.fin 1⟩)
        (some ⟨binary32.fin 0, binary32.fin 0, binary32.fin 1, binary32.fin 1⟩)
        (binary32.fin (1 / 2))
      = some (F32.midpoint ⟨binary32.fin 1, binary32.fin 0, binary32.fin 0, binary32.fin 1⟩
          ⟨binary32.fin 0, binary32.fin 0, binary32.fin 1, binary32.fin 1⟩)) ∧
    (F32.sg_color_lerp
        (some ⟨binary32.fin 1, binary32.fin 0, binary32.fin 0, binary32.fin 1⟩)
        (some ⟨binary32.fin 0, binary32.fin 0, binary32.fin 1, binary32.fin 1⟩)
        (binary32.fin 1)
      = some ⟨binary32.fin 0, binary32.fin 0, binary32.fin 1, binary32.fin 1⟩ ∧
     F32.sg_color_lerp_precise
        (some ⟨binary32.fin 1, binary32.fin 0, binary32.fin 0, binary32.fin 1⟩)
        (some ⟨binary32.fin 0, binary32.fin 0, binary32.fin 1, binary32.fin 1⟩)
        (binary32.fin 1)
      = some ⟨binary32.fin 0, binary32.fin 0, binary32.fin 1, binary32.fin 1⟩) :=
  ⟨by decide!, by decide!,
   (sg_color_lerp_agree_binary32
      ⟨binary32.fin 1, binary32.fin 0, binary32.fin 0, binary32.fin 1⟩
      ⟨binary32.fin 0, binary32.fin 0, binary32.fin 1, binary32.fin 1⟩
      (by decide!) (by decide!)).1 (by decide!),
   (sg_color_lerp_agree_binary32
      ⟨binary32.fin 1, binary32.fin 0, binary32.fin 0, binary32.fin 1⟩
      ⟨binary32.fin 0, binary32.fin 0, binary32.fin 1, binary32.fin 1⟩
      (by decide!) (by decide!)).2.1 (by decide!) (by decide!),
   (sg_color_lerp_agree_binary32
      ⟨binary32.fin 1, binary32.fin 0, binary32.fin 0, binary32.fin 1⟩
      ⟨binary32.fin 0, binary32.fin 0, binary32.fin 1, binary32.fin 1⟩
      (by decide!) (by decide!)).2.2 (by decide!)⟩

/-- C11, counterexample: an infinite or NaN channel does not become 0.  For the
color with the channels +infinity, -1, NaN, 1, `sg_color_multiply(c, 0)` has the
channels NaN, 0, NaN, 0. -/
theorem sg_color_multiply_zero_counterexample :
    F32.sg_color_multiply
        (some ⟨binary32.inf false, binary32.fin (-1), binary32.nan, binary32.fin 1⟩)
        (binary32.fin 0)
      = some ⟨binary32.nan, binary32.fin 0, binary32.nan, binary32.fin 0⟩ ∧
    F32.sg_color_multiply
        (some ⟨binary32.inf false, binary32.fin (-1), binary32.nan, binary32.fin 1⟩)
        (binary32.fin 0)
      ≠ some ⟨binary32.fin 0, binary32.fin 0, binary32.fin 0, binary32.fin 0⟩ := by
  decide!

/-- C11, amended: for every color c with finite channels, `sg_color_multiply(c, 0)`
is the color with all four channels 0, alpha included (a zero of either sign,
the two zeros being one value here). -/
theorem sg_color_multiply_zero_binary32 (c : F32.sg_color) (hc : F32.finite_color c) :
    F32.sg_color_multiply (some c) (binary32.fin 0)
      = some ⟨binary32.fin 0, binary32.fin 0, binary32.fin 0, binary32.fin 0⟩ := by
  obtain ⟨r, g, b, a, rfl, _, _, _, _⟩ := F32.finite_color_cases hc
  simp only [F32.sg_color_multiply, F32.mul_zero_fin]

/-- Witness for C11 at the binary32 constant of cornflower blue. -/
theorem sg_color_multiply_zero_binary32_witness :
    F32.finite_color (F32.literal ⟨0.392156863, 0.584313725, 0.929411765, 1.0⟩) ∧
    F32.sg_color_multiply (some (F32.literal ⟨0.392156863, 0.584313725, 0.929411765, 1.0⟩))
        (binary32.fin 0)
      = some ⟨binary32.fin 0, binary32.fin 0, binary32.fin 0, binary32.fin 0⟩ :=
  ⟨by decide!,
   sg_color_multiply_zero_binary32 (F32.literal ⟨0.392156863, 0.584313725, 0.929411765, 1.0⟩)
     (by decide!)⟩

/-- C18, counterexample: a NaN amount passes through the clamp.  Red and blue
lie in [0,1], yet every channel of `sg_color_lerp(red, blue, NaN)` and of
`sg_color_lerp_precise(red, blue, NaN)` is NaN, which is not in [0,1]. -/
theorem lerp_stays_in_unit_range_counterexample :
    F32.unit_range ⟨binary32.fin 1, binary32.fin 0, binary32.fin 0, binary32.fin 1⟩ ∧
    F32.unit_range ⟨binary32.fin 0, binary32.fin 0, binary32.fin 1, binary32.fin 1⟩ ∧
    F32._sg_color_clamp binary32.nan (binary32.fin 0) (binary32.fin 1) = binary32.nan ∧
    F32.sg_color_lerp
        (some ⟨binary32.fin 1, binary32.fin 0, binary32.fin 0, binary32.fin 1⟩)
        (some ⟨binary32.fin 0, binary32.fin 0, binary32.fin 1, binary32.fin 1⟩) binary32.nan
      = some ⟨binary32.nan, binary32.nan, binary32.nan, binary32.nan⟩ ∧
    F32.sg_color_lerp_precise
        (some ⟨binary32.fin 1, binary32.fin 0, binary32.fin 0, binary32.fin 1⟩)
        (some ⟨binary32.fin 0, binary32.fin 0, binary32.fin 1, binary32.fin 1⟩) binary32.nan
      = some ⟨binary32.nan, binary32.nan, binary32.nan, binary32.nan⟩ ∧
    ¬ F32.unit_range ⟨binary32.nan, binary32.nan, binary32.nan, binary32.nan⟩ := by
  decide!

/-- C18, amended: interpolation never leaves the unit range for an amount that
is not NaN.  In binary32, if every channel of a and of b is finite and lies in
[0,1], then for every amount t other than NaN, below 0, above 1 and infinite
included, every channel of `sg_color_lerp(a, b, t)` and of
`sg_color_lerp_precise(a, b, t)` is finite and lies in [0,1]. -/
theorem lerp_stays_in_unit_range_binary32 (a b : F32.sg_color) (t : binary32)
    (ha : F32.unit_range a) (hb : F32.unit_range b) (ht : t.is_number) :
    (∃ c, F32.sg_color_lerp (some a) (some b) t = some c ∧ F32.unit_range c) ∧
    (∃ c, F32.sg_color_lerp_precise (some a) (some b) t = some c ∧ F32.unit_range c) := by
  obtain ⟨r, g, b1, a1, rfl, ⟨hr, hr0, hr1⟩, ⟨hg, hg0, hg1⟩, ⟨hb1, hb10, hb11⟩,
    ⟨ha1, ha10, ha11⟩⟩ := F32.unit_range_cases ha
  obtain ⟨r2, g2, b2, a2, rfl, ⟨_, kr0, kr1⟩, ⟨_, kg0, kg1⟩, ⟨_, kb0, kb1⟩,
    ⟨_, ka0, ka1⟩⟩ := F32.unit_range_cases hb
  obtain ⟨s, es, hs, hs0, hs1⟩ := F32.in_unit_range_cases (F32.clamp_unit_in_range ht)
  constructor
  · refine ⟨_, rfl, ?_⟩
    simp only [es]
    exact ⟨F32.lerp_channel_unit hr hr0 hr1 kr0 kr1 hs0 hs1,
      F32.lerp_channel_unit hg hg0 hg1 kg0 kg1 hs0 hs1,
      F32.lerp_channel_unit hb1 hb10 hb11 kb0 kb1 hs0 hs1,
      F32.lerp_channel_unit ha1 ha10 ha11 ka0 ka1 hs0 hs1⟩
  · refine ⟨_, rfl, ?_⟩
    simp only [es]
    exact ⟨F32.lerp_precise_channel_unit hs hr0 hr1 kr0 kr1 hs0 hs1,
      F32.lerp_precise_channel_unit hs hg0 hg1 kg0 kg1 hs0 hs1,
      F32.lerp_precise_channel_unit hs hb10 hb11 kb0 kb1 hs0 hs1,
      F32.lerp_precise_channel_unit hs ha10 ha11 ka0 ka1 hs0 hs1⟩

/-- Witness for C18 at red, the binary32 constant of cornflower blue and the
amount 7/2. -/
theorem lerp_stays_in_unit_range_binary32_witness :
    (F32.unit_range ⟨binary32.fin 1, binary32.fin 0, binary32.fin 0, binary32.fin 1⟩ ∧
      F32.unit_range (F32.literal ⟨0.392156863, 0.584313725, 0.929411765, 1.0⟩) ∧
      (binary32.fin (7 / 2)).is_number) ∧
    ((∃ c, F32.sg_color_lerp
        (some ⟨binary32.fin 1, binary32.fin 0, binary32.fin 0, binary32.fin 1⟩)
        (some (F32.literal ⟨0.392156863, 0.584313725, 0.929411765, 1.0⟩))
        (binary32.fin (7 / 2)) = some c ∧ F32.unit_range c) ∧
     (∃ c, F32.sg_color_lerp_precise
        (some ⟨binary32.fin 1, binary32.fin 0, binary32.fin 0, binary32.fin 1⟩)
        (some (F32.literal ⟨0.392156863, 0.584313725, 0.929411765, 1.0⟩))
        (binary32.fin (7 / 2)) = some c ∧ F32.unit_range c)) :=
  ⟨by decide!,
   lerp_stays_in_unit_range_binary32
     ⟨binary32.fin 1, binary32.fin 0, binary32.fin 0, binary32.fin 1⟩
     (F32.literal ⟨0.392156863, 0.584313725, 0.929411765, 1.0⟩)
     (binary32.fin (7 / 2)) (by decide!) (by decide!) (by decide!)⟩

/-- C19: in binary32 `sg_color_lerp_precise` is exact at the extreme blend
factors.  For all colors a and b with finite channels,
`sg_color_lerp_precise(a, b, 0)` is exactly a and `sg_color_lerp_precise(a, b, 1)`
is exactly b, so its endpoint error is 0 and never larger than the endpoint
error of `sg_color_lerp`; and the a + (b - a) of `sg_color_lerp` at t = 1 can
differ from b by rounding: with every channel of a equal to 1 and every channel
of b equal to 0.1f = 13421773/2^27 it is 13421776/2^27, at distance 3/2^27
from b. -/
theorem sg_color_lerp_precise_endpoints_exact (a b : F32.sg_color)
    (ha : F32.finite_color a) (hb : F32.finite_color b) :
    F32.sg_color_lerp_precise (some a) (some b) (binary32.fin 0) = some a ∧
    F32.sg_color_lerp_precise (some a) (some b) (binary32.fin 1) = some b ∧
    (∀ p l, F32.sg_color_lerp_precise (some a) (some b) (binary32.fin 0) = some p →
      F32.sg_color_lerp (some a) (some b) (binary32.fin 0) = some l →
      F32.endpoint_error p a = some 0 ∧
      F32.error_le (F32.endpoint_error p a) (F32.endpoint_error l a)) ∧
    (∀ p l, F32.sg_color_lerp_precise (some a) (some b) (binary32.fin 1) = some p →
      F32.sg_color_lerp (some a) (some b) (binary32.fin 1) = some l →
      F32.endpoint_error p b = some 0 ∧
      F32.error_le (F32.endpoint_error p b) (F32.endpoint_error l b)) ∧
    (F32.finite_color ⟨binary32.fin 1, binary32.fin 1, binary32.fin 1, binary32.fin 1⟩ ∧
      F32.finite_color (F32.literal ⟨0.1, 0.1, 0.1, 0.1⟩) ∧
      F32.sg_color_lerp
          (some ⟨binary32.fin 1, binary32.fin 1, binary32.fin 1, binary32.fin 1⟩)
          (some (F32.literal ⟨0.1, 0.1, 0.1, 0.1⟩)) (binary32.fin 1)
        ≠ some (F32.literal ⟨0.1, 0.1, 0.1, 0.1⟩) ∧
      F32.endpoint_error
          ⟨binary32.fin (838861 / 8388608), binary32.fin (838861 / 8388608),
           binary32.fin (838861 / 8388608), binary32.fin (838861 / 8388608)⟩
          (F32.literal ⟨0.1, 0.1, 0.1, 0.1⟩)
        = some (3 / 2 ^ 27)) := by
  have e0 : F32.sg_color_lerp_precise (some a) (some b) (binary32.fin 0) = some a := by
    obtain ⟨r, g, b1, a1, rfl, hr, hg, hb1, ha1⟩ := F32.finite_color_cases ha
    obtain ⟨r2, g2, b2, a2, rfl, _, _, _, _⟩ := F32.finite_color_cases hb
    simp only [F32.sg_color_lerp_precise, F32.clamp_zero, F32.lerp_precise_channel_zero hr,
      F32.lerp_precise_channel_zero hg, F32.lerp_precise_channel_zero hb1,
      F32.lerp_precise_channel_zero ha1]
  have e1 : F32.sg_color_lerp_precise (some a) (some b) (binary32.fin 1) = some b := by
    obtain ⟨r, g, b1, a1, rfl, _, _, _, _⟩ := F32.finite_color_cases ha
    obtain ⟨r2, g2, b2, a2, rfl, hr2, hg2, hb2, ha2⟩ := F32.finite_color_cases hb
    simp only [F32.sg_color_lerp_precise, F32.clamp_one, F32.lerp_precise_channel_one hr2,
      F32.lerp_precise_channel_one hg2, F32.lerp_precise_channel_one hb2,
      F32.lerp_precise_channel_one ha2]
  refine ⟨e0, e1, ?_, ?_, ?_⟩
  · intro p l hp _
    rw [e0] at hp
    cases hp
    rw [F32.endpoint_error_self ha]
    exact ⟨rfl, F32.error_le_zero _ (F32.endpoint_error_nonneg l a)⟩
  · intro p l hp _
    rw [e1] at hp
    cases hp
    rw [F32.endpoint_error_self hb]
    exact ⟨rfl, F32.error_le_zero _ (F32.endpoint_error_nonneg l b)⟩
  · decide!

/-- Witness for C19 at red and the binary32 constant of cornflower blue. -/
theorem sg_color_lerp_precise_endpoints_exact_witness :
    (F32.finite_color ⟨binary32.fin 1, binary32.fin 0, binary32.fin 0, binary32.fin 1⟩ ∧
      F32.finite_color (F32.literal ⟨0.392156863, 0.584313725, 0.929411765, 1.0⟩)) ∧
    F32.sg_color_lerp_precise
        (some ⟨binary32.fin 1, binary32.fin 0, binary32.fin 0, binary32.fin 1⟩)
        (some (F32.literal ⟨0.392156863, 0.584313725, 0.929411765, 1.0⟩)) (binary32.fin 0)
      = some ⟨binary32.fin 1, binary32.fin 0, binary32.fin 0, binary32.fin 1⟩ ∧
    F32.sg_color_lerp_precise
        (some ⟨binary32.fin 1, binary32.fin 0, binary32.fin 0, binary32.fin 1⟩)
        (some (F32.literal ⟨0.392156863, 0.584313725, 0.929411765, 1.0⟩)) (binary32.fin 1)
      = some (F32.literal ⟨0.392156863, 0.584313725, 0.929411765, 1.0⟩) :=
  ⟨by decide!,
   (sg_color_lerp_precise_endpoints_exact
      ⟨binary32.fin 1, binary32.fin 0, binary32.fin 0, binary32.fin 1⟩
      (F32.literal ⟨0.392156863, 0.584313725, 0.929411765, 1.0⟩)
      (by decide!) (by decide!)).1,
   (sg_color_lerp_precise_endpoints_exact
      ⟨binary32.fin 1, binary32.fin 0, binary32.fin 0, binary32.fin 1⟩
      (F32.literal ⟨0.392156863, 0.584313725, 0.929411765, 1.0⟩)
      (by decide!) (by decide!)).2.1⟩

/-! ## The clamp helper in binary32 -/

/-- C21, counterexample: NaN is returned unchanged.  With low = 0 <= high = 1,
`_sg_color_clamp(NaN, 0, 1)` is NaN: the result does not lie in [0, 1], and v is
returned unchanged although 0 <= v <= 1 does not hold. -/
theorem sg_color_clamp_counterexample :
    (binary32.fin 0).le (binary32.fin 1) = true ∧
    F32._sg_color_clamp binary32.nan (binary32.fin 0) (binary32.fin 1) = binary32.nan ∧
    ¬ ((binary32.fin 0).le (F32._sg_color_clamp binary32.nan (binary32.fin 0) (binary32.fin 1))
        = true ∧
      (F32._sg_color_clamp binary32.nan (binary32.fin 0) (binary32.fin 1)).le (binary32.fin 1)
        = true) ∧
    ¬ (F32._sg_color_clamp binary32.nan (binary32.fin 0) (binary32.fin 1) = binary32.nan ↔
      (binary32.fin 0).le binary32.nan = true ∧ binary32.nan.le (binary32.fin 1) = true) := by
  decide!

/-- C21, amended: for every v other than NaN, `_sg_color_clamp(v, low, high)`
returns low when v < low, high when v > high and v >= low, and v when
low <= v <= high; hence for low <= high its result lies in [low, high], it
returns v unchanged exactly when low <= v <= high, and clamping a clamped value
changes nothing.  With (low, high) = (0, 1) the result is the blend factor that
both lerp variants apply on every channel.  The comparisons are those of C on
binary32 values, infinities included. -/
theorem sg_color_clamp_binary32 (v low high : binary32) (hv : v ≠ binary32.nan) :
    (v.lt low = true → F32._sg_color_clamp v low high = low) ∧
    (low.le v = true → high.lt v = true → F32._sg_color_clamp v low high = high) ∧
    (low.le v = true → v.le high = true → F32._sg_color_clamp v low high = v) ∧
    (low.le high = true →
      low.le (F32._sg_color_clamp v low high) = true ∧
      (F32._sg_color_clamp v low high).le high = true) ∧
    (low.le high = true →
      (F32._sg_color_clamp v low high = v ↔ low.le v = true ∧ v.le high = true)) ∧
    (low.le high = true →
      F32._sg_color_clamp (F32._sg_color_clamp v low high) low high
        = F32._sg_color_clamp v low high) ∧
    (∀ a b : F32.sg_color,
      F32.sg_color_lerp (some a) (some b) v = some
        ⟨F32._sg_color_lerp a.r b.r (F32._sg_color_clamp v (binary32.fin 0) (binary32.fin 1)),
         F32._sg_color_lerp a.g b.g (F32._sg_color_clamp v (binary32.fin 0) (binary32.fin 1)),
         F32._sg_color_lerp a.b b.b (F32._sg_color_clamp v (binary32.fin 0) (binary32.fin 1)),
         F32._sg_color_lerp a.a b.a (F32._sg_color_clamp v (binary32.fin 0) (binary32.fin 1))⟩ ∧
      F32.sg_color_lerp_precise (some a) (some b) v = some
        ⟨F32._sg_color_lerp_precise a.r b.r
           (F32._sg_color_clamp v (binary32.fin 0) (binary32.fin 1)),
         F32._sg_color_lerp_precise a.g b.g
           (F32._sg_color_clamp v (binary32.fin 0) (binary32.fin 1)),
         F32._sg_color_lerp_precise a.b b.b
           (F32._sg_color_clamp v (binary32.fin 0) (binary32.fin 1)),
         F32._sg_color_lerp_precise a.a b.a
           (F32._sg_color_clamp v (binary32.fin 0) (binary32.fin 1))⟩) := by
  have hlt : ∀ x y : binary32, x ≠ binary32.nan → y.le x = true → x.lt y = false :=
    F32.lt_false_of_le
  refine ⟨?_, ?_, ?_, ?_, ?_, ?_, fun a b => ⟨rfl, rfl⟩⟩
  · intro h
    unfold F32._sg_color_clamp
    rw [if_pos h]
  · intro h1 h2
    unfold F32._sg_color_clamp
    rw [hlt v low hv h1, if_pos h2]
    simp
  · intro h1 h2
    exact F32.clamp_of_le hv h1 h2
  · intro h
    exact F32.clamp_between hv h
  · intro h
    constructor
    · intro e
      have := F32.clamp_between hv h
      rw [e] at this
      exact this
    · intro e
      exact F32.clamp_of_le hv e.1 e.2
  · intro h
    have hb := F32.clamp_between hv h
    have hn : F32._sg_color_clamp v low high ≠ binary32.nan := by
      intro e
      rw [e] at hb
      exact absurd hb.2 (by simp [binary32.le])
    exact F32.clamp_of_le hn hb.1 hb.2

/-- Witness for C21 at v = 7/2, low = 0, high = 1: the result is 1. -/
theorem sg_color_clamp_binary32_witness :
    binary32.fin (7 / 2) ≠ binary32.nan ∧
    F32._sg_color_clamp (binary32.fin (7 / 2)) (binary32.fin 0) (binary32.fin 1)
      = binary32.fin 1 ∧
    (binary32.fin 0).le
        (F32._sg_color_clamp (binary32.fin (7 / 2)) (binary32.fin 0) (binary32.fin 1)) = true ∧
    (F32._sg_color_clamp (binary32.fin (7 / 2)) (binary32.fin 0) (binary32.fin 1)).le
        (binary32.fin 1) = true :=
  ⟨by decide,
   (sg_color_clamp_binary32 (binary32.fin (7 / 2)) (binary32.fin 0) (binary32.fin 1)
      (by decide)).2.1 (by decide!) (by decide!),
   (sg_color_clamp_binary32 (binary32.fin (7 / 2)) (binary32.fin 0) (binary32.fin 1)
      (by decide)).2.2.2.1 (by decide!)⟩

/-! ## The two tables against the constructors in binary32 -/

/-- C22, counterexample: the binary32 constant and the unpacked word are not
always within 5e-10.  For `SG_WEB_GRAY` the red channel of the constant, the
binary32 value of `0.501960784f`, is 65793/131072, the red channel of
`sg_make_color_1i(SG_WEB_GRAY_RGBA32)`, the binary32 quotient 128 / 255, is
8421505/16777216, and their distance is 2^-24, more than 5e-10. -/
theorem palette_float_is_packed_over_255_counterexample :
    float_macro_value "SG_WEB_GRAY" = some ⟨0.501960784, 0.501960784, 0.501960784, 1.0⟩ ∧
    packed_macro_value "SG_WEB_GRAY_RGBA32" = some 0x808080FF ∧
    (F32.literal ⟨0.501960784, 0.501960784, 0.501960784, 1.0⟩).r
      = binary32.fin (65793 / 131072) ∧
    (F32.sg_make_color_1i 0x808080FF).r = binary32.fin (8421505 / 16777216) ∧
    |(65793 / 131072 : ℚ) - 8421505 / 16777216| = 1 / 2 ^ 24 ∧
    ¬ F32.close (F32.literal ⟨0.501960784, 0.501960784, 0.501960784, 1.0⟩).r
        (F32.sg_make_color_1i 0x808080FF).r (5 / 10 ^ 10) := by
  decide!

set_option maxRecDepth 100000 in
/-- C22, amended: the float table is the packed table divided by 255 to nine
digits.  For every palette entry and every channel the decimal literal of the
float macro differs from the corresponding packed byte over 255 by at most
5e-10; and the binary32 constant `SG_<NAME>` and
`sg_make_color_1i(SG_<NAME>_RGBA32)`, each rounded to binary32 on its own, are
finite and the same color up to 2^-24 on every channel, one unit in the last
place of a value in [1/2, 1). -/
theorem palette_float_is_packed_over_255_binary32 :
    (float_macros.length = 146 ∧ packed_macros.length = 146 ∧ palette_rows.length = 146) ∧
    ∀ row ∈ palette_rows,
      row.macro_p.name = row.macro_f.name ++ "_RGBA32" ∧
      (|row.macro_f.value.r - ((row.macro_p.value / 2 ^ 24 % 256 : Nat) : ℚ) / 255|
          ≤ 5 / 10 ^ 10 ∧
        |row.macro_f.value.g - ((row.macro_p.value / 2 ^ 16 % 256 : Nat) : ℚ) / 255|
          ≤ 5 / 10 ^ 10 ∧
        |row.macro_f.value.b - ((row.macro_p.value / 2 ^ 8 % 256 : Nat) : ℚ) / 255|
          ≤ 5 / 10 ^ 10 ∧
        |row.macro_f.value.a - ((row.macro_p.value % 256 : Nat) : ℚ) / 255|
          ≤ 5 / 10 ^ 10) ∧
      (F32.close (F32.literal row.macro_f.value).r (F32.sg_make_color_1i row.macro_p.value).r
          (1 / 2 ^ 24) ∧
        F32.close (F32.literal row.macro_f.value).g (F32.sg_make_color_1i row.macro_p.value).g
          (1 / 2 ^ 24) ∧
        F32.close (F32.literal row.macro_f.value).b (F32.sg_make_color_1i row.macro_p.value).b
          (1 / 2 ^ 24) ∧
        F32.close (F32.literal row.macro_f.value).a (F32.sg_make_color_1i row.macro_p.value).a
          (1 / 2 ^ 24)) := by
  have exact_part : ∀ row ∈ palette_rows,
      row.macro_p.name = row.macro_f.name ++ "_RGBA32" ∧
      (|row.macro_f.value.r - ((row.macro_p.value / 2 ^ 24 % 256 : Nat) : ℚ) / 255|
          ≤ 5 / 10 ^ 10 ∧
        |row.macro_f.value.g - ((row.macro_p.value / 2 ^ 16 % 256 : Nat) : ℚ) / 255|
          ≤ 5 / 10 ^ 10 ∧
        |row.macro_f.value.b - ((row.macro_p.value / 2 ^ 8 % 256 : Nat) : ℚ) / 255|
          ≤ 5 / 10 ^ 10 ∧
        |row.macro_f.value.a - ((row.macro_p.value % 256 : Nat) : ℚ) / 255|
          ≤ 5 / 10 ^ 10) := by
    decide!
  exact ⟨by decide!, fun row h => ⟨(exact_part row h).1, (exact_part row h).2,
    F32.rows_close row h⟩⟩

/-- C27, counterexample: in binary32 interpolating a color with itself is not
always the identity.  Every channel of `sg_color_lerp(red, red, NaN)` is NaN;
and for the color a with the channels +infinity, 0, 0, 1 the red channel of
`sg_color_lerp(a, a, 0.5)` is NaN, from infinity minus infinity. -/
theorem sg_color_lerp_self_counterexample :
    (F32.sg_color_lerp
        (some ⟨binary32.fin 1, binary32.fin 0, binary32.fin 0, binary32.fin 1⟩)
        (some ⟨binary32.fin 1, binary32.fin 0, binary32.fin 0, binary32.fin 1⟩) binary32.nan
      = some ⟨binary32.nan, binary32.nan, binary32.nan, binary32.nan⟩ ∧
     F32.sg_color_lerp
        (some ⟨binary32.fin 1, binary32.fin 0, binary32.fin 0, binary32.fin 1⟩)
        (some ⟨binary32.fin 1, binary32.fin 0, binary32.fin 0, binary32.fin 1⟩) binary32.nan
      ≠ some ⟨binary32.fin 1, binary32.fin 0, binary32.fin 0, binary32.fin 1⟩) ∧
    (F32.sg_color_lerp
        (some ⟨binary32.inf false, binary32.fin 0, binary32.fin 0, binary32.fin 1⟩)
        (some ⟨binary32.inf false, binary32.fin 0, binary32.fin 0, binary32.fin 1⟩)
        (binary32.fin (1 / 2))
      = some ⟨binary32.nan, binary32.fin 0, binary32.fin 0, binary32.fin 1⟩ ∧
     F32.sg_color_lerp
        (some ⟨binary32.inf false, binary32.fin 0, binary32.fin 0, binary32.fin 1⟩)
        (some ⟨binary32.inf false, binary32.fin 0, binary32.fin 0, binary32.fin 1⟩)
        (binary32.fin (1 / 2))
      ≠ some ⟨binary32.inf false, binary32.fin 0, binary32.fin 0, binary32.fin 1⟩) := by
  decide!

/-- C27, amended: interpolating a color with itself is the identity for finite
channels and an amount that is not NaN: in binary32, for every color a with
finite channels and every amount t other than NaN, `sg_color_lerp(a, a, t)` is
a; and with exact channel arithmetic `sg_color_lerp_precise(a, a, t)` is a for
every color a and every amount t. -/
theorem sg_color_lerp_self_binary32 (a : F32.sg_color) (t : binary32)
    (ha : F32.finite_color a) (ht : t ≠ binary32.nan) :
    F32.sg_color_lerp (some a) (some a) t = some a ∧
    ∀ (x : sg_color) (s : ℚ), sg_color_lerp_precise (some x) (some x) s = some x := by
  constructor
  · obtain ⟨r, g, b, a1, rfl, hr, hg, hb, ha1⟩ := F32.finite_color_cases ha
    obtain ⟨s, es⟩ := F32.clamp_unit_fin ht
    simp only [F32.sg_color_lerp, es, F32.lerp_channel_same hr, F32.lerp_channel_same hg,
      F32.lerp_channel_same hb, F32.lerp_channel_same ha1]
  · intro x s
    simp only [sg_color_lerp_precise, lerp_precise_channel_self]

/-- Witness for C27 at the binary32 constant of cornflower blue and the amount
+infinity. -/
theorem sg_color_lerp_self_binary32_witness :
    (F32.finite_color (F32.literal ⟨0.392156863, 0.584313725, 0.929411765, 1.0⟩) ∧
      binary32.inf false ≠ binary32.nan) ∧
    F32.sg_color_lerp (some (F32.literal ⟨0.392156863, 0.584313725, 0.929411765, 1.0⟩))
        (some (F32.literal ⟨0.392156863, 0.584313725, 0.929411765, 1.0⟩)) (binary32.inf false)
      = some (F32.literal ⟨0.392156863, 0.584313725, 0.929411765, 1.0⟩) :=
  ⟨⟨by decide!, by decide⟩,
   (sg_color_lerp_self_binary32 (F32.literal ⟨0.392156863, 0.584313725, 0.929411765, 1.0⟩)
      (binary32.inf false) (by decide!) (by decide)).1⟩

end SokolColor
